import Mathlib

/-!
# Impact-analysis engine

A shallow embedding of `backend/src/services/impactAnalysisService.js` and of
the alert-name schema of `backend/src/middleware/validation.js`, in two layers.

The first layer computes with exact rationals:

* a JavaScript number is a rational (`ℚ`): arithmetic is exact, so `0.2` is `1/5`;
* an optional object field is an `Option`; `a || d` on numbers is `orElse`;
* a JavaScript string is a `String`; case folding is the ASCII one (every label
  the service generates is ASCII);
* the lookup tables are association lists over their own keys;
* a JavaScript `Set` is a duplicate-free list in insertion order;
* an integer is printed in decimal, whatever its size.

It carries the properties that do not depend on rounding, on the names a table
inherits, or on the size of a printed number: the risk tiers, the critical
services, the recommendations, the order properties of the confidence score, the
test fixtures and the request validation.

The second layer, the namespace `Js`, is the engine as JavaScript runs it:

* a number is an IEEE-754 binary64 value (`Js.Number`): a finite rational on the
  grid of doubles, `+∞`, `-∞` or `NaN`; every sum, product and quotient is rounded
  to the nearest double, a tie going to the even one, and a decimal literal of
  the source is the double nearest to it; the numbers of an input record are
  finite;
* a property read on a table also finds the names inherited from
  `Object.prototype` (`constructor`, `toString`, `__proto__`, ...);
* a function that may throw returns an `Option`, `none` standing for the
  `TypeError`;
* `toLowerCase` folds the ASCII letters and the Kelvin sign;
* a number is printed by Number-to-String: an integer below `2^53` in full, a
  larger one by its shortest digits, in exponent form from `10^21` on.

It carries the formulas of the customer count, the confidence score and the
downtime text, the set of dependent alerts, and what the orchestrator returns.
-/

namespace ImpactAnalysis

/-! ## Static registries -/

/-- Services with high customer impact (`CRITICAL_SERVICES`). -/
def CRITICAL_SERVICES : List String :=
  [ "payment-processing",
    "user-authentication",
    "order-management",
    "billing-service",
    "fraud-detection",
    "inventory-system",
    "checkout-service",
    "account-service" ]

/-- Per-service multipliers for the customer calculation
(`SERVICE_IMPACT_MULTIPLIERS`). -/
def SERVICE_IMPACT_MULTIPLIERS : List (String × ℚ) :=
  [ ("payment-processing", 5),
    ("user-authentication", 4),
    ("order-management", 7/2),
    ("billing-service", 3),
    ("fraud-detection", 5/2),
    ("inventory-system", 2),
    ("checkout-service", 9/2),
    ("account-service", 7/2),
    ("logging-service", 1/10),
    ("monitoring-service", 1/5),
    ("analytics-service", 3/10) ]

/-- Mock dependency mapping used to find related alerts
(`SERVICE_DEPENDENCIES`). -/
def SERVICE_DEPENDENCIES : List (String × List String) :=
  [ ("payment-processing", ["billing-service", "fraud-detection", "order-management"]),
    ("user-authentication", ["account-service", "order-management", "checkout-service"]),
    ("order-management", ["inventory-system", "payment-processing", "checkout-service"]),
    ("billing-service", ["payment-processing", "account-service"]),
    ("fraud-detection", ["payment-processing", "order-management"]),
    ("inventory-system", ["order-management", "checkout-service"]),
    ("checkout-service", ["payment-processing", "inventory-system", "user-authentication"]),
    ("account-service", ["user-authentication", "billing-service"]) ]

/-! ## JavaScript primitives -/

/-- The expression `a || d` for a possibly absent number `a`: `d` when `a` is
absent or `0`, else `a`. -/
def orElse (a : Option ℚ) (d : ℚ) : ℚ :=
  match a with
  | some v => if v = 0 then d else v
  | none => d

/-- The function `Math.round`: the nearest integer, a tie going towards
`+∞`. -/
def mathRound (x : ℚ) : ℤ := ⌊x + 1/2⌋

/-- The method `Array.prototype.includes` on strings. -/
def includes (xs : List String) (x : String) : Bool := xs.contains x

/-- The method `String.prototype.toLowerCase`, on ASCII letters. -/
def toLowerCase (s : String) : String := String.mk (s.data.map Char.toLower)

/-- The method `Set.prototype.add`: a set keeps insertion order and ignores an
element it already holds. -/
def setAdd (set : List String) (x : String) : List String :=
  if x ∈ set then set else set ++ [x]

/-! ## Input and output records -/

/-- The `historicalData` object; every field may be absent. -/
structure HistoricalData where
  avgCustomersAffected : Option ℚ := none
  avgDowntime : Option ℚ := none
  successfulDeployments : Option ℚ := none
  failedDeployments : Option ℚ := none
deriving DecidableEq

/-- The `alertData` object handed to the engine. -/
structure AlertData where
  alertName : String
  alertType : String
  affectedServices : Option (List String)
  historicalData : Option HistoricalData
deriving DecidableEq

/-! ## Customer impact -/

/-- Source: `calculateCustomerImpact` (lines 45-66). -/
def calculateCustomerImpact (alertData : AlertData) : ℤ :=
  match alertData.affectedServices with
  | none => 0
  | some affectedServices =>
    if affectedServices.length = 0 then 0
    else
      let historicalData := alertData.historicalData.getD {}
      let baseCustomers := orElse historicalData.avgCustomersAffected 100
      let impactMultiplier : ℚ :=
        affectedServices.foldl
          (fun acc service => acc + orElse (SERVICE_IMPACT_MULTIPLIERS.lookup service) 1) 0
      let serviceCountFactor : ℚ := min ((affectedServices.length : ℚ) * (1/5) + 4/5) 2
      let totalImpact := mathRound (baseCustomers * impactMultiplier * serviceCountFactor)
      max 0 totalImpact

/-! ## Risk level -/

/-- Source: `determineRiskLevel` (lines 71-99). -/
def determineRiskLevel (customersAffected criticalServicesCount : ℚ)
    (historicalFailureRate : Option ℚ) : String :=
  let riskScore : ℚ := 0
  let riskScore :=
    if customersAffected ≥ 5000 then riskScore + 40
    else if customersAffected ≥ 2000 then riskScore + 30
    else if customersAffected ≥ 1000 then riskScore + 20
    else if customersAffected ≥ 500 then riskScore + 15
    else if customersAffected ≥ 100 then riskScore + 10
    else riskScore + 5
  let riskScore := riskScore + min (criticalServicesCount * 12) 35
  let failureRate := orElse historicalFailureRate 0
  let riskScore :=
    if failureRate ≥ 1/2 then riskScore + 25
    else if failureRate ≥ 3/10 then riskScore + 20
    else if failureRate ≥ 1/5 then riskScore + 15
    else if failureRate ≥ 1/10 then riskScore + 10
    else riskScore + 5
  if riskScore ≥ 80 then "CRITICAL"
  else if riskScore ≥ 60 then "HIGH"
  else if riskScore ≥ 35 then "MEDIUM"
  else "LOW"

/-! ## Critical services -/

/-- Source: `identifyCriticalServices` (lines 104-110), on an array. -/
def identifyCriticalServices (affectedServices : List String) : List String :=
  affectedServices.filter (fun service => includes CRITICAL_SERVICES service)

/-! ## Dependent alerts -/

/-- The call `s.replace('-', ' ')` with a string pattern: only the first
occurrence is replaced. -/
def replaceFirstHyphen : List Char → List Char
  | [] => []
  | c :: cs => if c = '-' then ' ' :: cs else c :: replaceFirstHyphen cs

/-- The regular-expression class `\w`. -/
def isWordChar (c : Char) : Bool := c.isAlphanum || c == '_'

/-- The call `s.replace(/\b\w/g, l => l.toUpperCase())`: a word character is
upper-cased when it stands at the start of the string or right after a
non-word character. The flag tells whether the previous character is a word
character. -/
def upperAtWordStarts : Bool → List Char → List Char
  | _, [] => []
  | prevIsWord, c :: cs =>
    (if isWordChar c && !prevIsWord then c.toUpper else c)
      :: upperAtWordStarts (isWordChar c) cs

/-- The expression
`dependency.replace('-', ' ').replace(/\b\w/g, l => l.toUpperCase())`
(line 129). -/
def alertSuffixOf (dependency : String) : String :=
  String.mk (upperAtWordStarts false (replaceFirstHyphen dependency.data))

/-- Body of the inner loop of `findDependentAlerts` (lines 127-133). -/
def addDependencyAlerts (dependentAlerts : List String) (dependency : String) : List String :=
  if includes CRITICAL_SERVICES dependency then
    let alertSuffix := alertSuffixOf dependency
    let dependentAlerts := setAdd dependentAlerts (alertSuffix ++ " Alert")
    setAdd dependentAlerts (alertSuffix ++ " Failure Alert")
  else dependentAlerts

/-- Body of the outer loop of `findDependentAlerts` (lines 123-134). -/
def addServiceAlerts (dependentAlerts : List String) (service : String) : List String :=
  let dependencies := (SERVICE_DEPENDENCIES.lookup service).getD []
  dependencies.foldl addDependencyAlerts dependentAlerts

/-- Source: `findDependentAlerts` (lines 115-157), on an array. -/
def findDependentAlerts (alertName : String) (affectedServices : List String) : List String :=
  let dependentAlerts : List String := []
  let dependentAlerts := affectedServices.foldl addServiceAlerts dependentAlerts
  let criticalServices := identifyCriticalServices affectedServices
  let dependentAlerts :=
    if criticalServices.length > 0 then
      let dependentAlerts := setAdd dependentAlerts "Downstream Service Alert"
      let dependentAlerts := setAdd dependentAlerts "Cascade Failure Alert"
      let dependentAlerts :=
        if includes criticalServices "payment-processing" then
          let dependentAlerts := setAdd dependentAlerts "Payment Failure Alert"
          setAdd dependentAlerts "Transaction Processing Alert"
        else dependentAlerts
      if includes criticalServices "user-authentication" then
        let dependentAlerts := setAdd dependentAlerts "Auth Service Down Alert"
        setAdd dependentAlerts "Login Failure Alert"
      else dependentAlerts
    else dependentAlerts
  dependentAlerts.filter (fun alert => toLowerCase alert != toLowerCase alertName)

/-! ## Confidence score -/

/-- The argument object of `calculateConfidenceScore`; an absent field takes
the default of the parameter list. -/
structure ConfidenceInput where
  historicalDataPoints : Option ℚ := none
  successfulDeployments : Option ℚ := none
  failedDeployments : Option ℚ := none
  dataQuality : Option String := none
deriving DecidableEq

/-- Source: `calculateConfidenceScore` (lines 162-203). The parameter
`historicalDataPoints` is bound and never read. -/
def calculateConfidenceScore (input : ConfidenceInput) : ℚ :=
  let successfulDeployments := input.successfulDeployments.getD 0
  let failedDeployments := input.failedDeployments.getD 0
  let dataQuality := input.dataQuality.getD "medium"
  let confidence : ℚ := 1/2
  let totalDeployments := successfulDeployments + failedDeployments
  let confidence :=
    if totalDeployments ≥ 50 then confidence + 3/10
    else if totalDeployments ≥ 20 then confidence + 1/5
    else if totalDeployments ≥ 10 then confidence + 3/20
    else if totalDeployments ≥ 5 then confidence + 1/10
    else confidence + 1/20
  let confidence :=
    if totalDeployments > 0 then
      let successRate := successfulDeployments / totalDeployments
      if successRate ≥ 9/10 then confidence + 1/5
      else if successRate ≥ 4/5 then confidence + 3/20
      else if successRate ≥ 7/10 then confidence + 1/10
      else if successRate ≥ 3/5 then confidence + 1/20
      else confidence
    else confidence
  let confidence :=
    if toLowerCase dataQuality = "high" then confidence + 1/5
    else if toLowerCase dataQuality = "medium" then confidence + 1/10
    else if toLowerCase dataQuality = "low" then confidence - 1/10
    else confidence
  max 0 (min 1 confidence)

/-! ## Recommendations -/

/-- The method `Array.prototype.push`. -/
def push (xs : List String) (x : String) : List String := xs ++ [x]

/-- Source: `generateRecommendations` (lines 208-264). -/
def generateRecommendations (riskLevel : String) (customersAffected : ℚ)
    (criticalServices : List String) (estimatedDowntime : ℚ) : List String :=
  let recommendations : List String := []
  let recommendations :=
    if riskLevel = "LOW" then
      let recommendations := push recommendations "Safe to proceed with deployment"
      let recommendations := push recommendations "Monitor logs for any anomalies"
      if estimatedDowntime > 60 then
        push recommendations "Consider deploying during low-traffic hours"
      else recommendations
    else if riskLevel = "MEDIUM" then
      let recommendations := push recommendations "Proceed with caution"
      let recommendations := push recommendations "Monitor critical metrics during deployment"
      let recommendations := push recommendations "Have rollback plan ready"
      if customersAffected > 200 then
        push recommendations "Consider notifying customer support team"
      else recommendations
    else if riskLevel = "HIGH" then
      let recommendations := push recommendations "Consider maintenance window scheduling"
      let recommendations := push recommendations "Notify affected customers in advance"
      let recommendations := push recommendations "Prepare rollback plan"
      let recommendations := push recommendations "Monitor critical services during deployment"
      if includes criticalServices "payment-processing" then
        push recommendations "Coordinate with payment operations team"
      else recommendations
    else if riskLevel = "CRITICAL" then
      let recommendations := push recommendations "DO NOT PROCEED - Schedule maintenance window"
      let recommendations := push recommendations "Coordinate with all stakeholders"
      let recommendations := push recommendations "Prepare comprehensive rollback plan"
      let recommendations := push recommendations "Consider phased deployment approach"
      let recommendations := push recommendations "Ensure 24/7 support coverage"
      let recommendations :=
        if includes criticalServices "payment-processing" then
          push recommendations "Alert payment operations and fraud teams"
        else recommendations
      if includes criticalServices "user-authentication" then
        push recommendations "Prepare for potential login issues"
      else recommendations
    else recommendations
  let recommendations :=
    if criticalServices.length > 0 then
      push recommendations
        ("Critical services affected: " ++ ", ".intercalate criticalServices)
    else recommendations
  let recommendations :=
    if estimatedDowntime > 300 then
      push recommendations "Extended downtime expected - communicate with stakeholders"
    else recommendations
  recommendations

/-! ## Downtime -/

/-- Source: `estimateDowntime` (lines 269-291). An integer is printed in
decimal. -/
def estimateDowntime (alertData : AlertData) : String :=
  let alertType := alertData.alertType
  let historicalData := alertData.historicalData.getD {}
  let affectedServices := alertData.affectedServices.getD []
  let avgDowntime := orElse historicalData.avgDowntime 60
  let multiplier : ℚ := 1
  let multiplier : ℚ :=
    if alertType = "database" then 2
    else if alertType = "network" then 3/2
    else if alertType = "payment" then 3
    else multiplier
  let criticalCount := (identifyCriticalServices affectedServices).length
  let multiplier := multiplier + (criticalCount : ℚ) * (1/2)
  let estimatedSeconds := mathRound (avgDowntime * multiplier)
  if estimatedSeconds < 60 then "< 1 minute"
  else if estimatedSeconds < 300 then
    toString (mathRound ((estimatedSeconds : ℚ) / 60)) ++ " minutes"
  else if estimatedSeconds < 1800 then
    toString (mathRound ((estimatedSeconds : ℚ) / 60)) ++ "-"
      ++ toString (mathRound ((estimatedSeconds : ℚ) / 60) + 2) ++ " minutes"
  else
    toString (mathRound ((estimatedSeconds : ℚ) / 60)) ++ "-"
      ++ toString (mathRound ((estimatedSeconds : ℚ) / 60) + 10) ++ " minutes"

/-- The function `parseInt` in base ten: leading white space and one sign
are skipped, the longest run of decimal digits is read, and the result is absent
(`NaN`) when there is no digit. The strings parsed here come from
`estimateDowntime` and start with `<` or a decimal digit. -/
def parseInt (s : String) : Option ℤ :=
  let cs := s.data.dropWhile Char.isWhitespace
  let negative := cs.head? = some '-'
  let cs := if cs.head? = some '-' ∨ cs.head? = some '+' then cs.tail else cs
  let digits := cs.takeWhile Char.isDigit
  if digits = [] then none
  else
    let magnitude : ℤ := digits.foldl (fun n c => 10 * n + ((c.toNat - 48 : ℕ) : ℤ)) 0
    some (if negative then -magnitude else magnitude)

/-! ## Orchestrator -/

/-- The object returned by `analyzeImpact`. -/
structure ImpactResult where
  customersAffected : ℤ
  riskLevel : String
  criticalServices : List String
  dependentAlerts : List String
  estimatedDowntime : String
  confidenceScore : ℚ
  recommendations : List String
deriving DecidableEq

/-- Source: `analyzeImpact` (lines 296-348). -/
def analyzeImpact (alertData : AlertData) : ImpactResult :=
  let historicalData := alertData.historicalData.getD {}
  let customersAffected := calculateCustomerImpact alertData
  let criticalServices := identifyCriticalServices (alertData.affectedServices.getD [])
  let totalDeployments :=
    orElse historicalData.successfulDeployments 0 + orElse historicalData.failedDeployments 0
  let historicalFailureRate :=
    if totalDeployments > 0 then orElse historicalData.failedDeployments 0 / totalDeployments
    else 1/10
  let riskLevel :=
    determineRiskLevel (customersAffected : ℚ) (criticalServices.length : ℚ)
      (some historicalFailureRate)
  let dependentAlerts :=
    findDependentAlerts alertData.alertName (alertData.affectedServices.getD [])
  let estimatedDowntime := estimateDowntime alertData
  let confidenceScore :=
    calculateConfidenceScore
      { historicalDataPoints := some totalDeployments,
        successfulDeployments := some (orElse historicalData.successfulDeployments 0),
        failedDeployments := some (orElse historicalData.failedDeployments 0),
        dataQuality :=
          some (if totalDeployments > 20 then "high"
            else if totalDeployments > 5 then "medium" else "low") }
  let recommendations :=
    generateRecommendations riskLevel (customersAffected : ℚ) criticalServices
      (orElse ((parseInt estimatedDowntime).map (fun n => (n : ℚ))) 60)
  { customersAffected := customersAffected,
    riskLevel := riskLevel,
    criticalServices := criticalServices,
    dependentAlerts := dependentAlerts,
    estimatedDowntime := estimatedDowntime,
    confidenceScore := confidenceScore,
    recommendations := recommendations }

/-! ## Specification-side definitions -/

/-- Specification: the customer band of the risk score. -/
def customerBand (customersAffected : ℚ) : ℚ :=
  if 5000 ≤ customersAffected then 40
  else if 2000 ≤ customersAffected then 30
  else if 1000 ≤ customersAffected then 20
  else if 500 ≤ customersAffected then 15
  else if 100 ≤ customersAffected then 10
  else 5

/-- Specification: the failure-rate band of the risk score; an absent rate
falls in the last band. -/
def failureBand (rate : Option ℚ) : ℚ :=
  match rate with
  | none => 5
  | some r =>
    if 1/2 ≤ r then 25
    else if 3/10 ≤ r then 20
    else if 1/5 ≤ r then 15
    else if 1/10 ≤ r then 10
    else 5

/-- Specification: the tier of a score. -/
def tierOfScore (score : ℚ) : String :=
  if 80 ≤ score then "CRITICAL"
  else if 60 ≤ score then "HIGH"
  else if 35 ≤ score then "MEDIUM"
  else "LOW"

/-- Specification: the risk score as the sum of its three bands. -/
def riskScoreSpec (customersAffected criticalServicesCount : ℚ) (rate : Option ℚ) : ℚ :=
  customerBand customersAffected + min (criticalServicesCount * 12) 35 + failureBand rate

/-- Specification: rounding to the nearest integer, a half going up. -/
def roundHalfUp (x : ℚ) : ℤ :=
  if x - (⌊x⌋ : ℚ) < 1/2 then ⌊x⌋ else ⌊x⌋ + 1

/-- Specification: the multiplier of one service, `1` when it is unlisted. -/
def multiplierOf (service : String) : ℚ :=
  match SERVICE_IMPACT_MULTIPLIERS.lookup service with
  | some m => m
  | none => 1

/-- Specification: the customer-impact formula
`max(0, round(base * M * F))`. -/
def customerImpactSpec (avgCustomersAffected : Option ℚ) (affectedServices : List String) : ℤ :=
  let base : ℚ :=
    match avgCustomersAffected with
    | none => 100
    | some b => if b = 0 then 100 else b
  let M : ℚ := (affectedServices.map multiplierOf).sum
  let F : ℚ := min ((1/5) * (affectedServices.length : ℚ) + 4/5) 2
  max 0 (roundHalfUp (base * M * F))

/-- Specification: the elements of a list that are in the critical registry, in
the order of the list. -/
def criticalSublist : List String → List String
  | [] => []
  | s :: rest =>
    if s ∈ CRITICAL_SERVICES then s :: criticalSublist rest else criticalSublist rest

/-- Specification: a word with its first letter capitalised. -/
def capitalizeWord : List Char → List Char
  | [] => []
  | c :: cs => c.toUpper :: cs

/-- Specification: the words of a text, separated by single spaces. -/
def splitOnSpace : List Char → List (List Char)
  | [] => [[]]
  | c :: cs =>
    if c = ' ' then [] :: splitOnSpace cs
    else
      match splitOnSpace cs with
      | [] => [[c]]
      | w :: ws => (c :: w) :: ws

/-- Specification: title-casing, "replace hyphens with spaces, then capitalize
the first letter of each word". -/
def titlecase (d : String) : String :=
  let spaced := d.data.map (fun c => if c = '-' then ' ' else c)
  String.mk ([' '].intercalate ((splitOnSpace spaced).map capitalizeWord))

/-- Specification: the labels `G`, two for every critical registry dependency
of every affected service. -/
def dependencyLabels (affectedServices : List String) : List String :=
  affectedServices.flatMap (fun service =>
    (((SERVICE_DEPENDENCIES.lookup service).getD []).filter
        (fun d => decide (d ∈ CRITICAL_SERVICES))).flatMap
      (fun d => [titlecase d ++ " Alert", titlecase d ++ " Failure Alert"]))

/-- Specification: the labels `C`, added when some affected service is
critical. -/
def commonLabels (affectedServices : List String) : List String :=
  if ∀ s ∈ affectedServices, s ∉ CRITICAL_SERVICES then []
  else
    ["Downstream Service Alert", "Cascade Failure Alert"]
      ++ (if "payment-processing" ∈ affectedServices then
            ["Payment Failure Alert", "Transaction Processing Alert"] else [])
      ++ (if "user-authentication" ∈ affectedServices then
            ["Auth Service Down Alert", "Login Failure Alert"] else [])

/-- Specification: the data-volume bonus `V` of the confidence score. -/
def volumeBonus (total : ℚ) : ℚ :=
  if 50 ≤ total then 3/10
  else if 20 ≤ total then 1/5
  else if 10 ≤ total then 3/20
  else if 5 ≤ total then 1/10
  else 1/20

/-- Specification: the bonus of a success rate. -/
def rateBonus (rate : ℚ) : ℚ :=
  if 9/10 ≤ rate then 1/5
  else if 4/5 ≤ rate then 3/20
  else if 7/10 ≤ rate then 1/10
  else if 3/5 ≤ rate then 1/20
  else 0

/-- Specification, as the claim words it: the success-rate bonus `S` is `0`
when `total = 0` and otherwise the bonus of `successful / total`. -/
def successBonusStated (successful total : ℚ) : ℚ :=
  if total = 0 then 0 else rateBonus (successful / total)

/-- Specification, with the guard of the code: the success-rate bonus `S` is
`0` when `total ≤ 0` and otherwise the bonus of `successful / total`. -/
def successBonus (successful total : ℚ) : ℚ :=
  if total ≤ 0 then 0 else rateBonus (successful / total)

/-- Specification: the data-quality adjustment `Q`, matched ignoring letter
case. -/
def qualityAdjustment (dataQuality : String) : ℚ :=
  if toLowerCase dataQuality = toLowerCase "high" then 1/5
  else if toLowerCase dataQuality = toLowerCase "medium" then 1/10
  else if toLowerCase dataQuality = toLowerCase "low" then -(1/10)
  else 0

/-- Specification: clamping to `[0,1]`. -/
def clamp01 (x : ℚ) : ℚ :=
  if x < 0 then 0 else if 1 < x then 1 else x

/-- Specification, as the claim words it: the confidence score with
`S = 0` exactly when `total = 0`. -/
def confidenceStated (successful failed : ℚ) (dataQuality : String) : ℚ :=
  clamp01 (1/2 + volumeBonus (successful + failed)
    + successBonusStated successful (successful + failed) + qualityAdjustment dataQuality)

/-- Specification, with the guard of the code: the confidence score with
`S = 0` when `total ≤ 0`. -/
def confidenceSpec (successful failed : ℚ) (dataQuality : String) : ℚ :=
  clamp01 (1/2 + volumeBonus (successful + failed)
    + successBonus successful (successful + failed) + qualityAdjustment dataQuality)

/-- Specification: the tier list `T` of the recommendations. -/
def tierItems (riskLevel : String) (customersAffected : ℚ) (criticalServices : List String)
    (estimatedDowntime : ℚ) : List String :=
  if riskLevel = "LOW" then
    ["Safe to proceed with deployment", "Monitor logs for any anomalies"]
      ++ (if 60 < estimatedDowntime then ["Consider deploying during low-traffic hours"]
          else [])
  else if riskLevel = "MEDIUM" then
    ["Proceed with caution", "Monitor critical metrics during deployment",
     "Have rollback plan ready"]
      ++ (if 200 < customersAffected then ["Consider notifying customer support team"]
          else [])
  else if riskLevel = "HIGH" then
    ["Consider maintenance window scheduling", "Notify affected customers in advance",
     "Prepare rollback plan", "Monitor critical services during deployment"]
      ++ (if "payment-processing" ∈ criticalServices then
            ["Coordinate with payment operations team"] else [])
  else if riskLevel = "CRITICAL" then
    ["DO NOT PROCEED - Schedule maintenance window", "Coordinate with all stakeholders",
     "Prepare comprehensive rollback plan", "Consider phased deployment approach",
     "Ensure 24/7 support coverage"]
      ++ (if "payment-processing" ∈ criticalServices then
            ["Alert payment operations and fraud teams"] else [])
      ++ (if "user-authentication" ∈ criticalServices then
            ["Prepare for potential login issues"] else [])
  else []

/-- Specification: the summary line `S`, present iff some critical service is
listed. -/
def summaryItems (criticalServices : List String) : List String :=
  if criticalServices = [] then []
  else ["Critical services affected: " ++ ", ".intercalate criticalServices]

/-- Specification: the extended-downtime line `E`, present iff the downtime
exceeds 300. -/
def extendedDowntimeItems (estimatedDowntime : ℚ) : List String :=
  if 300 < estimatedDowntime then
    ["Extended downtime expected - communicate with stakeholders"]
  else []

/-- Specification: the type multiplier `m` of the downtime estimate. -/
def typeMultiplier (alertType : String) : ℚ :=
  if alertType = "database" then 2
  else if alertType = "network" then 3/2
  else if alertType = "payment" then 3
  else 1

/-- Specification: the number `c` of affected services that are in the
critical registry. -/
def criticalCount (affectedServices : List String) : ℕ :=
  affectedServices.countP (fun service => decide (service ∈ CRITICAL_SERVICES))

/-- Specification: the estimated seconds `s = round(d * (m + 0.5*c))`, with
`d` the average downtime, 60 when it is absent or 0. -/
def downtimeSeconds (alertType : String) (avgDowntime : Option ℚ)
    (affectedServices : List String) : ℤ :=
  let d : ℚ :=
    match avgDowntime with
    | none => 60
    | some v => if v = 0 then 60 else v
  roundHalfUp (d * (typeMultiplier alertType + (1/2) * (criticalCount affectedServices : ℚ)))

/-- Specification: the text `fmt(s)` of a number of seconds, with
`N = round(s/60)`. -/
def formatDowntime (s : ℤ) : String :=
  let N : ℤ := roundHalfUp ((s : ℚ) / 60)
  if s < 60 then "< 1 minute"
  else if s < 300 then toString N ++ " minutes"
  else if s < 1800 then toString N ++ "-" ++ toString (N + 2) ++ " minutes"
  else toString N ++ "-" ++ toString (N + 10) ++ " minutes"

/-- The method `String.prototype.includes`, used by the assertions of the
test suite: the pattern occurs somewhere in the text. -/
def stringIncludes (text pattern : String) : Bool :=
  text.data.tails.any (fun rest => pattern.data.isPrefixOf rest)

/-- Specification: the order `LOW < MEDIUM < HIGH < CRITICAL` of the tiers, as
a rank. -/
def tierRank (tier : String) : ℕ :=
  if tier = "CRITICAL" then 3
  else if tier = "HIGH" then 2
  else if tier = "MEDIUM" then 1
  else 0

/-- The historical record of the fixture `mockLowRiskAlert`. -/
def loggingHistory : HistoricalData :=
  { avgCustomersAffected := some 50, avgDowntime := some 30,
    successfulDeployments := some 25, failedDeployments := some 1 }

/-! ## Test fixtures (`business-logic.test.js`, lines 14-51) -/

/-- The fixture `mockAlertData`. -/
def mockAlertData : AlertData :=
  { alertName := "Production Database CPU Alert",
    alertType := "database",
    affectedServices := some ["payment-processing", "user-authentication", "order-management"],
    historicalData := some
      { avgCustomersAffected := some 1200, avgDowntime := some 180,
        successfulDeployments := some 15, failedDeployments := some 3 } }

/-- The fixture `mockLowRiskAlert`. -/
def mockLowRiskAlert : AlertData :=
  { alertName := "Logging Service Warning",
    alertType := "logging",
    affectedServices := some ["logging-service"],
    historicalData := some
      { avgCustomersAffected := some 50, avgDowntime := some 30,
        successfulDeployments := some 25, failedDeployments := some 1 } }

/-- The fixture `mockCriticalAlert`. -/
def mockCriticalAlert : AlertData :=
  { alertName := "Payment System Critical Alert",
    alertType := "payment",
    affectedServices := some ["payment-processing", "billing-service", "fraud-detection"],
    historicalData := some
      { avgCustomersAffected := some 5000, avgDowntime := some 900,
        successfulDeployments := some 5, failedDeployments := some 8 } }

/-- A context whose historical average of affected customers is negative. -/
def negativeBaselineAlert : AlertData :=
  { alertName := "Database CPU Alert",
    alertType := "database",
    affectedServices := some ["payment-processing"],
    historicalData := some { avgCustomersAffected := some (-500) } }

/-- The logging scenario: the services and the historical record of
`mockLowRiskAlert`, under any alert name and alert type. -/
def loggingScenario (alertName alertType : String) : AlertData :=
  { alertName := alertName,
    alertType := alertType,
    affectedServices := some ["logging-service"],
    historicalData := some loggingHistory }

/-- The historical record `{avgCustomersAffected: 100, avgDowntime: 60,
successfulDeployments: 0, failedDeployments: 0}`: the defaults written out. -/
def defaultHistory : HistoricalData :=
  { avgCustomersAffected := some 100, avgDowntime := some 60,
    successfulDeployments := some 0, failedDeployments := some 0 }

/-! ## Request validation (`backend/src/middleware/validation.js`) -/

/-- Names that cannot be used for alerts (`RESERVED_NAMES`). -/
def RESERVED_NAMES : List String :=
  ["default", "system", "admin", "root", "null", "undefined"]

/-- The property `length` of a JavaScript string: its number of UTF-16 code
units, two for a character outside the basic plane. -/
def utf16Length (s : String) : ℕ :=
  (s.data.map (fun c => if c.toNat < 65536 then 1 else 2)).sum

/-- The regular-expression class `\s`: tab, line feed, vertical tab, form
feed, carriage return, space, no-break space, the Unicode space separators,
the line and paragraph separators and the byte-order mark. -/
def isRegexWhitespace (c : Char) : Bool :=
  decide (c.toNat = 9 ∨ c.toNat = 10 ∨ c.toNat = 11 ∨ c.toNat = 12 ∨ c.toNat = 13
    ∨ c.toNat = 32 ∨ c.toNat = 160 ∨ c.toNat = 5760
    ∨ (8192 ≤ c.toNat ∧ c.toNat ≤ 8202)
    ∨ c.toNat = 8232 ∨ c.toNat = 8233 ∨ c.toNat = 8239 ∨ c.toNat = 8287
    ∨ c.toNat = 12288 ∨ c.toNat = 65279)

/-- The regular-expression class `[a-zA-Z0-9\-_\s]`. -/
def isNameChar (c : Char) : Bool :=
  c.isAlphanum || c == '-' || c == '_' || isRegexWhitespace c

/-- The test of the pattern `/^[a-zA-Z0-9][a-zA-Z0-9\-_\s]*$/`. -/
def matchesAlertNamePattern (value : String) : Bool :=
  match value.data with
  | [] => false
  | c :: cs => c.isAlphanum && cs.all isNameChar

/-- Source: `alertNameSchema` (validation.js, lines 9-27), as the predicate "the
schema reports no error" on a string: `Joi.string()` refuses the empty string,
`min(3)` and `max(255)` bound `value.length`, `pattern` tests the regular
expression and the custom rule refuses a reserved name. -/
def alertNameSchemaAccepts (value : String) : Bool :=
  value != ""
    && decide (3 ≤ utf16Length value)
    && decide (utf16Length value ≤ 255)
    && matchesAlertNamePattern value
    && !(includes RESERVED_NAMES (toLowerCase value))

/-- Specification, as the claim words it: length between 3 and 255, an
alphanumeric first character, then only alphanumerics, hyphens, underscores
and spaces, and not a reserved name ignoring letter case. -/
def alertNameAcceptedStated (value : String) : Bool :=
  decide (3 ≤ utf16Length value)
    && decide (utf16Length value ≤ 255)
    && (match value.data with
        | [] => false
        | c :: cs =>
          c.isAlphanum && cs.all (fun d => d.isAlphanum || d == '-' || d == '_' || d == ' '))
    && !(RESERVED_NAMES.any (fun r => toLowerCase value == toLowerCase r))

/-- An alert name with a tab between its two words. -/
def tabbedAlertName : String := "Alert\tName"

/-- The text `'A'.repeat(256)` of the API test. -/
def tooLongAlertName : String := String.mk (List.replicate 256 'A')

/-- A context with a long outage on record: 10000 seconds on average, of type
`database`, no affected service. -/
def longOutageAlert : AlertData :=
  { alertName := "Database Outage Alert",
    alertType := "database",
    affectedServices := some [],
    historicalData := some { avgDowntime := some 10000 } }

/-! ## The engine over IEEE-754 doubles

The definitions above compute with exact rationals and read the lookup tables by
their own keys. The namespace `Js` embeds the same functions with the arithmetic
of JavaScript numbers (binary64, round to nearest, ties to even, overflow to
infinity, `NaN`), with property reads that also find the names inherited from
`Object.prototype`, with a thrown `TypeError` as an absent result, and with the
conversion of a number to text. Signed zeros are not distinguished. -/

namespace Js

/-- A JavaScript number: `NaN`, an infinity, or a finite value. -/
inductive Number where
  | nan
  | posInf
  | negInf
  | fin (q : ℚ)
deriving DecidableEq

/-- The power `2^e` for an integer exponent. -/
def pow2 (e : ℤ) : ℚ :=
  if 0 ≤ e then ((2 ^ e.toNat : ℕ) : ℚ) else 1 / ((2 ^ (-e).toNat : ℕ) : ℚ)

/-- The power `10^e` for an integer exponent. -/
def pow10 (e : ℤ) : ℚ :=
  if 0 ≤ e then ((10 ^ e.toNat : ℕ) : ℚ) else 1 / ((10 ^ (-e).toNat : ℕ) : ℚ)

/-- Rounding to the nearest integer, a tie going to the even one. -/
def roundHalfEven (y : ℚ) : ℤ :=
  if y - (⌊y⌋ : ℚ) < 1/2 then ⌊y⌋
  else if 1/2 < y - (⌊y⌋ : ℚ) then ⌊y⌋ + 1
  else if ⌊y⌋ % 2 = 0 then ⌊y⌋ else ⌊y⌋ + 1

/-- The number of halvings that bring `n` below 2, with `fuel` steps at most. -/
def log2Fuel : ℕ → ℕ → ℕ
  | 0, _ => 0
  | fuel + 1, n => if n < 2 then 0 else log2Fuel fuel (n / 2) + 1

/-- The binary logarithm of a natural number, rounded down (0 at 0). -/
def natLog2 (n : ℕ) : ℕ := log2Fuel n n

/-- The binary logarithm of a positive rational, rounded down. -/
def floorLog2 (x : ℚ) : ℤ :=
  let e0 : ℤ := (natLog2 x.num.natAbs : ℤ) - (natLog2 x.den : ℤ)
  if x < pow2 e0 then e0 - 1 else e0

/-- The binary64 value of a real result: the nearest multiple of the unit in the
last place (53 significant bits, least exponent `-1074`), a tie going to the
even multiple; a magnitude that rounds to `2^1024` or more is an infinity. -/
def roundDouble (x : ℚ) : Number :=
  if x = 0 then Number.fin 0
  else
    let q : ℤ := max (floorLog2 |x| - 52) (-1074)
    let v : ℚ := (roundHalfEven (|x| / pow2 q) : ℚ) * pow2 q
    if pow2 1024 ≤ v then (if 0 < x then Number.posInf else Number.negInf)
    else Number.fin (if 0 < x then v else -v)

/-- A decimal literal of the source: the nearest double. -/
def lit (x : ℚ) : Number := roundDouble x

/-- The operator `+` on numbers. -/
def add : Number → Number → Number
  | Number.fin a, Number.fin b => roundDouble (a + b)
  | Number.nan, _ => Number.nan
  | _, Number.nan => Number.nan
  | Number.posInf, Number.negInf => Number.nan
  | Number.negInf, Number.posInf => Number.nan
  | Number.posInf, _ => Number.posInf
  | _, Number.posInf => Number.posInf
  | Number.negInf, _ => Number.negInf
  | _, Number.negInf => Number.negInf

/-- The unary operator `-`. -/
def neg : Number → Number
  | Number.nan => Number.nan
  | Number.posInf => Number.negInf
  | Number.negInf => Number.posInf
  | Number.fin a => Number.fin (-a)

/-- The operator `-` on numbers. -/
def sub (x y : Number) : Number := add x (neg y)

/-- The sign of a product or quotient with an infinite operand. -/
def signedInf (positive : Bool) : Number :=
  if positive then Number.posInf else Number.negInf

/-- The operator `*` on numbers. -/
def mul : Number → Number → Number
  | Number.fin a, Number.fin b => roundDouble (a * b)
  | Number.nan, _ => Number.nan
  | _, Number.nan => Number.nan
  | Number.fin a, Number.posInf => if a = 0 then Number.nan else signedInf (decide (0 < a))
  | Number.fin a, Number.negInf => if a = 0 then Number.nan else signedInf (decide (a < 0))
  | Number.posInf, Number.fin b => if b = 0 then Number.nan else signedInf (decide (0 < b))
  | Number.negInf, Number.fin b => if b = 0 then Number.nan else signedInf (decide (b < 0))
  | Number.posInf, Number.posInf => Number.posInf
  | Number.negInf, Number.negInf => Number.posInf
  | Number.posInf, Number.negInf => Number.negInf
  | Number.negInf, Number.posInf => Number.negInf

/-- The operator `/` on numbers (a zero divisor counts as `+0`). -/
def div : Number → Number → Number
  | Number.fin a, Number.fin b =>
    if b = 0 then (if a = 0 then Number.nan else signedInf (decide (0 < a)))
    else roundDouble (a / b)
  | Number.nan, _ => Number.nan
  | _, Number.nan => Number.nan
  | Number.fin _, Number.posInf => Number.fin 0
  | Number.fin _, Number.negInf => Number.fin 0
  | Number.posInf, Number.fin b => signedInf (decide (0 ≤ b))
  | Number.negInf, Number.fin b => signedInf (decide (b < 0))
  | Number.posInf, Number.posInf => Number.nan
  | Number.negInf, Number.negInf => Number.nan
  | Number.posInf, Number.negInf => Number.nan
  | Number.negInf, Number.posInf => Number.nan

/-- The operator `<` on numbers; false when an operand is `NaN`. -/
def lt : Number → Number → Bool
  | Number.fin a, Number.fin b => decide (a < b)
  | Number.nan, _ => false
  | _, Number.nan => false
  | Number.negInf, Number.negInf => false
  | Number.negInf, _ => true
  | _, Number.negInf => false
  | Number.posInf, _ => false
  | Number.fin _, Number.posInf => true

/-- The operator `>`. -/
def gt (x y : Number) : Bool := lt y x

/-- The operator `>=` on numbers; false when an operand is `NaN`. -/
def ge : Number → Number → Bool
  | Number.fin a, Number.fin b => decide (b ≤ a)
  | Number.nan, _ => false
  | _, Number.nan => false
  | Number.posInf, _ => true
  | _, Number.negInf => true
  | Number.negInf, _ => false
  | Number.fin _, Number.posInf => false

/-- Whether a number is truthy: neither `0` nor `NaN`. -/
def truthy : Number → Bool
  | Number.nan => false
  | Number.fin a => decide (a ≠ 0)
  | _ => true

/-- The expression `a || d` for a possibly absent input field `a`. -/
def orElse (a : Option ℚ) (d : Number) : Number :=
  match a with
  | some v => if v = 0 then d else Number.fin v
  | none => d

/-- The expression `x || d` for a number `x`. -/
def orDefault (x d : Number) : Number := if truthy x then x else d

/-- The function `Math.round`: the nearest integer, a tie going towards
`+∞`. -/
def mathRound : Number → Number
  | Number.fin a => Number.fin ((⌊a + 1/2⌋ : ℤ) : ℚ)
  | x => x

/-- The function `Math.max` of two numbers. -/
def mathMax : Number → Number → Number
  | Number.nan, _ => Number.nan
  | _, Number.nan => Number.nan
  | x, y => if lt x y then y else x

/-- The function `Math.min` of two numbers. -/
def mathMin : Number → Number → Number
  | Number.nan, _ => Number.nan
  | _, Number.nan => Number.nan
  | x, y => if lt y x then y else x

/-- The names every object literal inherits from `Object.prototype`. -/
def OBJECT_PROTOTYPE_NAMES : List String :=
  [ "constructor", "__defineGetter__", "__defineSetter__", "hasOwnProperty",
    "__lookupGetter__", "__lookupSetter__", "isPrototypeOf", "propertyIsEnumerable",
    "toString", "valueOf", "__proto__", "toLocaleString" ]

/-- The outcome of reading `table[key]` on an object literal: an own value, a
value inherited from `Object.prototype` (a function or an object, truthy and not
a number), or `undefined`. -/
inductive Property (α : Type) where
  | own (value : α)
  | inherited
  | undefined

/-- The property read `table[key]`. -/
def getProperty {α : Type} (table : List (String × α)) (key : String) : Property α :=
  match table.lookup key with
  | some value => Property.own value
  | none => if key ∈ OBJECT_PROTOTYPE_NAMES then Property.inherited else Property.undefined

/-- The method `String.prototype.toLowerCase`: ASCII letters and the Kelvin
sign U+212A (to `k`) are folded. No other character has a lower case made of
ASCII letters, so a comparison of the result with an ASCII text goes as in the
code. -/
def toLowerCase (s : String) : String :=
  String.mk (s.data.map (fun c => if c.toNat = 8490 then 'k' else c.toLower))

/-! ### Number to text -/

/-- The number of decimal digits of a positive natural number, with `fuel`
steps at most. -/
def digitCountFuel : ℕ → ℕ → ℕ
  | 0, _ => 0
  | fuel + 1, n => if n < 10 then 1 else digitCountFuel fuel (n / 10) + 1

/-- The exponent `n` with `10^(n-1) ≤ x < 10^n`, for a positive rational. -/
def decimalExponent (x : ℚ) : ℤ :=
  let e0 : ℤ := (digitCountFuel x.num.natAbs x.num.natAbs : ℤ)
    - (digitCountFuel x.den x.den : ℤ)
  if x < pow10 e0 then e0 else e0 + 1

/-- One step of Number-to-String for `k` digits: the integers `s` next to
`x / 10^(n-k)` whose product with `10^(n-k)` has the double `x`, the one closer
to `x` first (the even one on a tie). -/
def digitCandidates (x : ℚ) (n : ℤ) (k : ℕ) : List ℤ :=
  let scale := pow10 (n - (k : ℤ))
  let low : ℤ := ⌊x / scale⌋
  let ordered : List ℤ :=
    if x - (low : ℚ) * scale < ((low : ℚ) + 1) * scale - x then [low, low + 1]
    else if ((low : ℚ) + 1) * scale - x < x - (low : ℚ) * scale then [low + 1, low]
    else if low % 2 = 0 then [low, low + 1] else [low + 1, low]
  ordered.filter (fun s => decide (roundDouble ((s : ℚ) * scale) = Number.fin x))

/-- The search of Number-to-String: the least number of digits `k` (from `k`
on, `fuel` values tried) for which some `s` has the double `x`, with that `s`;
after them the nearest `s` of the next `k`. Started at `k = 1` with 16 values
to try it ends with 17 digits, which identify any double. -/
def shortestDigitsFuel (x : ℚ) (n : ℤ) : ℕ → ℕ → ℕ × ℤ
  | 0, k => (k, roundHalfEven (x / pow10 (n - (k : ℤ))))
  | fuel + 1, k =>
    match digitCandidates x n k with
    | s :: _ => (k, s)
    | [] => shortestDigitsFuel x n fuel (k + 1)

/-- The layout of Number-to-String for the `k` digits of `s` and the exponent
`n` (the value is `s * 10^(n-k)`). -/
def layoutDigits (k : ℕ) (s : ℕ) (n : ℤ) : String :=
  let digits := (toString s).data
  if (k : ℤ) ≤ n ∧ n ≤ 21 then
    String.mk (digits ++ List.replicate (n - (k : ℤ)).toNat '0')
  else if 0 < n ∧ n ≤ 21 then
    String.mk (digits.take n.toNat ++ ['.'] ++ digits.drop n.toNat)
  else if -6 < n ∧ n ≤ 0 then
    String.mk (['0', '.'] ++ List.replicate (-n).toNat '0' ++ digits)
  else
    let exponent := (if 0 ≤ n - 1 then "e+" else "e-") ++ toString (n - 1).natAbs
    if k = 1 then String.mk digits ++ exponent
    else String.mk (digits.take 1 ++ ['.'] ++ digits.drop 1) ++ exponent

/-- The text of a positive finite number. An integer below `2^53` is printed
in full (every integer up to `2^53` is a double, so no shorter decimal has the
same double); any other value by its shortest digits. -/
def positiveToString (x : ℚ) : String :=
  if x = (⌊x⌋ : ℚ) ∧ x < 2 ^ 53 then toString ⌊x⌋.toNat
  else
    let n := decimalExponent x
    let ks := shortestDigitsFuel x n 16 1
    if ks.2 = (10 : ℤ) ^ ks.1 then layoutDigits ks.1 (10 ^ (ks.1 - 1)) (n + 1)
    else layoutDigits ks.1 ks.2.toNat n

/-- The conversion of a number to text (in a template literal). -/
def numberToString : Number → String
  | Number.nan => "NaN"
  | Number.posInf => "Infinity"
  | Number.negInf => "-Infinity"
  | Number.fin a =>
    if a = 0 then "0"
    else if 0 < a then positiveToString a
    else "-" ++ positiveToString (-a)

/-- The function `parseInt` applied to a text: the double nearest to the
leading decimal integer, `NaN` when there is none. -/
def parseInt (s : String) : Number :=
  match ImpactAnalysis.parseInt s with
  | none => Number.nan
  | some n => roundDouble (n : ℚ)

/-! ### The engine -/

/-- The summand `SERVICE_IMPACT_MULTIPLIERS[service] || 1.0` of lines 56-57.
An inherited value is a function or an object: it is truthy, `+=` then builds a
text that is no numeral, and the product with it is `NaN`, which stands for the
summand here. -/
def multiplierOrDefault (service : String) : Number :=
  match getProperty SERVICE_IMPACT_MULTIPLIERS service with
  | Property.own multiplier => orDefault (lit multiplier) (lit 1)
  | Property.inherited => Number.nan
  | Property.undefined => lit 1

/-- Source: `calculateCustomerImpact` (lines 45-66). -/
def calculateCustomerImpact (alertData : AlertData) : Number :=
  match alertData.affectedServices with
  | none => Number.fin 0
  | some affectedServices =>
    if affectedServices.length = 0 then Number.fin 0
    else
      let historicalData := alertData.historicalData.getD {}
      let baseCustomers := orElse historicalData.avgCustomersAffected (lit 100)
      let impactMultiplier : Number :=
        affectedServices.foldl
          (fun impactMultiplier service => add impactMultiplier (multiplierOrDefault service))
          (lit 0)
      let serviceCountFactor : Number :=
        mathMin (add (mul (Number.fin (affectedServices.length : ℚ)) (lit (1/5))) (lit (4/5)))
          (lit 2)
      let totalImpact := mathRound (mul (mul baseCustomers impactMultiplier) serviceCountFactor)
      mathMax (lit 0) totalImpact

/-- Source: `determineRiskLevel` (lines 71-99). -/
def determineRiskLevel (customersAffected criticalServicesCount historicalFailureRate : Number) :
    String :=
  let riskScore : Number := Number.fin 0
  let riskScore :=
    if ge customersAffected (lit 5000) then add riskScore (lit 40)
    else if ge customersAffected (lit 2000) then add riskScore (lit 30)
    else if ge customersAffected (lit 1000) then add riskScore (lit 20)
    else if ge customersAffected (lit 500) then add riskScore (lit 15)
    else if ge customersAffected (lit 100) then add riskScore (lit 10)
    else add riskScore (lit 5)
  let riskScore := add riskScore (mathMin (mul criticalServicesCount (lit 12)) (lit 35))
  let failureRate := orDefault historicalFailureRate (lit 0)
  let riskScore :=
    if ge failureRate (lit (1/2)) then add riskScore (lit 25)
    else if ge failureRate (lit (3/10)) then add riskScore (lit 20)
    else if ge failureRate (lit (1/5)) then add riskScore (lit 15)
    else if ge failureRate (lit (1/10)) then add riskScore (lit 10)
    else add riskScore (lit 5)
  if ge riskScore (lit 80) then "CRITICAL"
  else if ge riskScore (lit 60) then "HIGH"
  else if ge riskScore (lit 35) then "MEDIUM"
  else "LOW"

/-- Body of the outer loop of `findDependentAlerts` (lines 123-134); no result
when the loop has thrown. An inherited value is truthy, so `|| []` keeps it, and
`for ... of` over it throws a `TypeError`: it is not iterable. -/
def addServiceAlerts (dependentAlerts : Option (List String)) (service : String) :
    Option (List String) :=
  match dependentAlerts with
  | none => none
  | some dependentAlerts =>
    match getProperty SERVICE_DEPENDENCIES service with
    | Property.own dependencies => some (dependencies.foldl addDependencyAlerts dependentAlerts)
    | Property.inherited => none
    | Property.undefined => some dependentAlerts

/-- Source: `findDependentAlerts` (lines 115-157), on an array; no result when
the call throws. -/
def findDependentAlerts (alertName : String) (affectedServices : List String) :
    Option (List String) :=
  match affectedServices.foldl addServiceAlerts (some []) with
  | none => none
  | some dependentAlerts =>
    let criticalServices := identifyCriticalServices affectedServices
    let dependentAlerts :=
      if criticalServices.length > 0 then
        let dependentAlerts := setAdd dependentAlerts "Downstream Service Alert"
        let dependentAlerts := setAdd dependentAlerts "Cascade Failure Alert"
        let dependentAlerts :=
          if includes criticalServices "payment-processing" then
            let dependentAlerts := setAdd dependentAlerts "Payment Failure Alert"
            setAdd dependentAlerts "Transaction Processing Alert"
          else dependentAlerts
        if includes criticalServices "user-authentication" then
          let dependentAlerts := setAdd dependentAlerts "Auth Service Down Alert"
          setAdd dependentAlerts "Login Failure Alert"
        else dependentAlerts
      else dependentAlerts
    some (dependentAlerts.filter (fun alert => toLowerCase alert != toLowerCase alertName))

/-- The argument object of `calculateConfidenceScore`; an absent field takes
the default of the parameter list. -/
structure ConfidenceInput where
  historicalDataPoints : Option Number := none
  successfulDeployments : Option Number := none
  failedDeployments : Option Number := none
  dataQuality : Option String := none
deriving DecidableEq

/-- Source: `calculateConfidenceScore` (lines 162-203). -/
def calculateConfidenceScore (input : ConfidenceInput) : Number :=
  let successfulDeployments := input.successfulDeployments.getD (lit 0)
  let failedDeployments := input.failedDeployments.getD (lit 0)
  let dataQuality := input.dataQuality.getD "medium"
  let confidence : Number := lit (1/2)
  let totalDeployments := add successfulDeployments failedDeployments
  let confidence :=
    if ge totalDeployments (lit 50) then add confidence (lit (3/10))
    else if ge totalDeployments (lit 20) then add confidence (lit (1/5))
    else if ge totalDeployments (lit 10) then add confidence (lit (3/20))
    else if ge totalDeployments (lit 5) then add confidence (lit (1/10))
    else add confidence (lit (1/20))
  let confidence :=
    if gt totalDeployments (lit 0) then
      let successRate := div successfulDeployments totalDeployments
      if ge successRate (lit (9/10)) then add confidence (lit (1/5))
      else if ge successRate (lit (4/5)) then add confidence (lit (3/20))
      else if ge successRate (lit (7/10)) then add confidence (lit (1/10))
      else if ge successRate (lit (3/5)) then add confidence (lit (1/20))
      else confidence
    else confidence
  let confidence :=
    if toLowerCase dataQuality = "high" then add confidence (lit (1/5))
    else if toLowerCase dataQuality = "medium" then add confidence (lit (1/10))
    else if toLowerCase dataQuality = "low" then sub confidence (lit (1/10))
    else confidence
  mathMax (lit 0) (mathMin (lit 1) confidence)

/-- Source: `generateRecommendations` (lines 208-264). -/
def generateRecommendations (riskLevel : String) (customersAffected : Number)
    (criticalServices : List String) (estimatedDowntime : Number) : List String :=
  let recommendations : List String := []
  let recommendations :=
    if riskLevel = "LOW" then
      let recommendations := push recommendations "Safe to proceed with deployment"
      let recommendations := push recommendations "Monitor logs for any anomalies"
      if gt estimatedDowntime (lit 60) then
        push recommendations "Consider deploying during low-traffic hours"
      else recommendations
    else if riskLevel = "MEDIUM" then
      let recommendations := push recommendations "Proceed with caution"
      let recommendations := push recommendations "Monitor critical metrics during deployment"
      let recommendations := push recommendations "Have rollback plan ready"
      if gt customersAffected (lit 200) then
        push recommendations "Consider notifying customer support team"
      else recommendations
    else if riskLevel = "HIGH" then
      let recommendations := push recommendations "Consider maintenance window scheduling"
      let recommendations := push recommendations "Notify affected customers in advance"
      let recommendations := push recommendations "Prepare rollback plan"
      let recommendations := push recommendations "Monitor critical services during deployment"
      if includes criticalServices "payment-processing" then
        push recommendations "Coordinate with payment operations team"
      else recommendations
    else if riskLevel = "CRITICAL" then
      let recommendations := push recommendations "DO NOT PROCEED - Schedule maintenance window"
      let recommendations := push recommendations "Coordinate with all stakeholders"
      let recommendations := push recommendations "Prepare comprehensive rollback plan"
      let recommendations := push recommendations "Consider phased deployment approach"
      let recommendations := push recommendations "Ensure 24/7 support coverage"
      let recommendations :=
        if includes criticalServices "payment-processing" then
          push recommendations "Alert payment operations and fraud teams"
        else recommendations
      if includes criticalServices "user-authentication" then
        push recommendations "Prepare for potential login issues"
      else recommendations
    else recommendations
  let recommendations :=
    if criticalServices.length > 0 then
      push recommendations
        ("Critical services affected: " ++ ", ".intercalate criticalServices)
    else recommendations
  let recommendations :=
    if gt estimatedDowntime (lit 300) then
      push recommendations "Extended downtime expected - communicate with stakeholders"
    else recommendations
  recommendations

/-- The value of `estimatedSeconds` in `estimateDowntime` (lines 270-284). -/
def estimatedSeconds (alertData : AlertData) : Number :=
  let alertType := alertData.alertType
  let historicalData := alertData.historicalData.getD {}
  let affectedServices := alertData.affectedServices.getD []
  let avgDowntime := orElse historicalData.avgDowntime (lit 60)
  let multiplier : Number := lit 1
  let multiplier : Number :=
    if alertType = "database" then lit 2
    else if alertType = "network" then lit (3/2)
    else if alertType = "payment" then lit 3
    else multiplier
  let criticalCount := (identifyCriticalServices affectedServices).length
  let multiplier := add multiplier (mul (Number.fin (criticalCount : ℚ)) (lit (1/2)))
  mathRound (mul avgDowntime multiplier)

/-- Source: `estimateDowntime` (lines 269-291). -/
def estimateDowntime (alertData : AlertData) : String :=
  let estimatedSeconds := estimatedSeconds alertData
  if lt estimatedSeconds (lit 60) then "< 1 minute"
  else if lt estimatedSeconds (lit 300) then
    numberToString (mathRound (div estimatedSeconds (lit 60))) ++ " minutes"
  else if lt estimatedSeconds (lit 1800) then
    numberToString (mathRound (div estimatedSeconds (lit 60))) ++ "-"
      ++ numberToString (add (mathRound (div estimatedSeconds (lit 60))) (lit 2)) ++ " minutes"
  else
    numberToString (mathRound (div estimatedSeconds (lit 60))) ++ "-"
      ++ numberToString (add (mathRound (div estimatedSeconds (lit 60))) (lit 10)) ++ " minutes"

/-- The object returned by `analyzeImpact`. -/
structure ImpactResult where
  customersAffected : Number
  riskLevel : String
  criticalServices : List String
  dependentAlerts : List String
  estimatedDowntime : String
  confidenceScore : Number
  recommendations : List String
deriving DecidableEq

/-- Source: `analyzeImpact` (lines 296-348); no result when the call throws,
which it does when `findDependentAlerts` throws. -/
def analyzeImpact (alertData : AlertData) : Option ImpactResult :=
  let historicalData := alertData.historicalData.getD {}
  let customersAffected := calculateCustomerImpact alertData
  let criticalServices := identifyCriticalServices (alertData.affectedServices.getD [])
  let totalDeployments :=
    add (orElse historicalData.successfulDeployments (lit 0))
      (orElse historicalData.failedDeployments (lit 0))
  let historicalFailureRate :=
    if gt totalDeployments (lit 0) then
      div (orElse historicalData.failedDeployments (lit 0)) totalDeployments
    else lit (1/10)
  let riskLevel :=
    determineRiskLevel customersAffected (Number.fin (criticalServices.length : ℚ))
      historicalFailureRate
  match findDependentAlerts alertData.alertName (alertData.affectedServices.getD []) with
  | none => none
  | some dependentAlerts =>
    let estimatedDowntime := estimateDowntime alertData
    let confidenceScore :=
      calculateConfidenceScore
        { historicalDataPoints := some totalDeployments,
          successfulDeployments := some (orElse historicalData.successfulDeployments (lit 0)),
          failedDeployments := some (orElse historicalData.failedDeployments (lit 0)),
          dataQuality :=
            some (if gt totalDeployments (lit 20) then "high"
              else if gt totalDeployments (lit 5) then "medium" else "low") }
    let recommendations :=
      generateRecommendations riskLevel customersAffected criticalServices
        (orDefault (parseInt estimatedDowntime) (lit 60))
    some
      { customersAffected := customersAffected,
        riskLevel := riskLevel,
        criticalServices := criticalServices,
        dependentAlerts := dependentAlerts,
        estimatedDowntime := estimatedDowntime,
        confidenceScore := confidenceScore,
        recommendations := recommendations }

end Js

/-! ## Specification-side definitions, in doubles -/

/-- Specification, in doubles: the sum `M` of the services' multipliers, taken
from `0` in the order of the list, every sum being rounded to a double. -/
def multiplierSumDouble (affectedServices : List String) : Js.Number :=
  affectedServices.foldl (fun sum service => Js.add sum (Js.lit (multiplierOf service)))
    (Js.Number.fin 0)

/-- Specification, in doubles: the customer-impact formula
`max(0, round(base * M * F))`, every sum and product being rounded to a
double. -/
def customerImpactDouble (avgCustomersAffected : Option ℚ) (affectedServices : List String) :
    Js.Number :=
  let base : Js.Number :=
    match avgCustomersAffected with
    | none => Js.Number.fin 100
    | some b => if b = 0 then Js.Number.fin 100 else Js.Number.fin b
  let M : Js.Number := multiplierSumDouble affectedServices
  let F : Js.Number :=
    Js.mathMin
      (Js.add (Js.mul (Js.lit (1/5)) (Js.Number.fin (affectedServices.length : ℚ)))
        (Js.lit (4/5)))
      (Js.Number.fin 2)
  Js.mathMax (Js.Number.fin 0) (Js.mathRound (Js.mul (Js.mul base M) F))

/-- Specification, in doubles: the data-volume bonus `V`. -/
def volumeBonusDouble (total : Js.Number) : Js.Number :=
  if Js.ge total (Js.Number.fin 50) then Js.lit (3/10)
  else if Js.ge total (Js.Number.fin 20) then Js.lit (1/5)
  else if Js.ge total (Js.Number.fin 10) then Js.lit (3/20)
  else if Js.ge total (Js.Number.fin 5) then Js.lit (1/10)
  else Js.lit (1/20)

/-- Specification, in doubles: the bonus of a success rate. -/
def rateBonusDouble (rate : Js.Number) : Js.Number :=
  if Js.ge rate (Js.lit (9/10)) then Js.lit (1/5)
  else if Js.ge rate (Js.lit (4/5)) then Js.lit (3/20)
  else if Js.ge rate (Js.lit (7/10)) then Js.lit (1/10)
  else if Js.ge rate (Js.lit (3/5)) then Js.lit (1/20)
  else Js.Number.fin 0

/-- Specification, in doubles, as the claim words it: the success-rate bonus
`S` is `0` when `total = 0` and otherwise the bonus of `successful / total`. -/
def successBonusDouble (successful total : Js.Number) : Js.Number :=
  if total = Js.Number.fin 0 then Js.Number.fin 0
  else rateBonusDouble (Js.div successful total)

/-- Specification, in doubles: the data-quality adjustment `Q`, matched
ignoring letter case. -/
def qualityAdjustmentDouble (dataQuality : String) : Js.Number :=
  if Js.toLowerCase dataQuality = "high" then Js.lit (1/5)
  else if Js.toLowerCase dataQuality = "medium" then Js.lit (1/10)
  else if Js.toLowerCase dataQuality = "low" then Js.lit (-(1/10))
  else Js.Number.fin 0

/-- Specification: clamping a number to `[0,1]`. -/
def clamp01Double (x : Js.Number) : Js.Number :=
  if Js.lt x (Js.Number.fin 0) then Js.Number.fin 0
  else if Js.lt (Js.Number.fin 1) x then Js.Number.fin 1
  else x

/-- Specification, in doubles: the confidence score
`clamp(0.5 + V + S + Q)`, summed from the left, every sum being rounded to a
double. -/
def confidenceDouble (successful failed : ℚ) (dataQuality : String) : Js.Number :=
  let total := Js.add (Js.Number.fin successful) (Js.Number.fin failed)
  clamp01Double
    (Js.add
      (Js.add (Js.add (Js.lit (1/2)) (volumeBonusDouble total))
        (successBonusDouble (Js.Number.fin successful) total))
      (qualityAdjustmentDouble dataQuality))

/-- Specification: a number is finite and lies between two bounds. -/
def isBetween (low high : ℚ) : Js.Number → Bool
  | Js.Number.fin v => decide (low ≤ v ∧ v ≤ high)
  | _ => false

/-- The set `dependentAlerts` of `findDependentAlerts` before the final filter
(lines 120-151), when every registry entry read is an own property. -/
def collectDependentAlerts (affectedServices : List String) : List String :=
  let dependentAlerts : List String := []
  let dependentAlerts := affectedServices.foldl addServiceAlerts dependentAlerts
  let criticalServices := identifyCriticalServices affectedServices
  if criticalServices.length > 0 then
    let dependentAlerts := setAdd dependentAlerts "Downstream Service Alert"
    let dependentAlerts := setAdd dependentAlerts "Cascade Failure Alert"
    let dependentAlerts :=
      if includes criticalServices "payment-processing" then
        let dependentAlerts := setAdd dependentAlerts "Payment Failure Alert"
        setAdd dependentAlerts "Transaction Processing Alert"
      else dependentAlerts
    if includes criticalServices "user-authentication" then
      let dependentAlerts := setAdd dependentAlerts "Auth Service Down Alert"
      setAdd dependentAlerts "Login Failure Alert"
    else dependentAlerts
  else dependentAlerts

/-- A service list none of whose members is named like a property that object
literals inherit. -/
def hasNoInheritedName (affectedServices : List String) : Bool :=
  affectedServices.all (fun service => !Js.OBJECT_PROTOTYPE_NAMES.contains service)

/-- Specification, in doubles: the type multiplier `m` of the downtime
estimate. -/
def typeMultiplierDouble (alertType : String) : Js.Number :=
  if alertType = "database" then Js.Number.fin 2
  else if alertType = "network" then Js.Number.fin (3/2)
  else if alertType = "payment" then Js.Number.fin 3
  else Js.Number.fin 1

/-- Specification, in doubles: the estimated seconds
`s = round(d * (m + 0.5*c))`, with `d` the average downtime, 60 when it is absent
or 0, the sum and the products being rounded to a double. -/
def downtimeSecondsDouble (alertType : String) (avgDowntime : Option ℚ)
    (affectedServices : List String) : Js.Number :=
  let d : Js.Number :=
    match avgDowntime with
    | none => Js.Number.fin 60
    | some v => if v = 0 then Js.Number.fin 60 else Js.Number.fin v
  Js.mathRound
    (Js.mul d
      (Js.add (typeMultiplierDouble alertType)
        (Js.mul (Js.lit (1/2)) (Js.Number.fin (criticalCount affectedServices : ℚ)))))

/-- Specification, in doubles: the number of minutes `N = round(s/60)`. -/
def minutesDouble (s : Js.Number) : Js.Number :=
  Js.mathRound (Js.div s (Js.Number.fin 60))

/-- Specification, in doubles: the text `fmt(s)` of a number of seconds, the
numbers `N`, `N + 2` and `N + 10` being doubles, printed as JavaScript prints
them. -/
def formatDowntimeDouble (s : Js.Number) : String :=
  let N := minutesDouble s
  if Js.lt s (Js.Number.fin 60) then "< 1 minute"
  else if Js.lt s (Js.Number.fin 300) then Js.numberToString N ++ " minutes"
  else if Js.lt s (Js.Number.fin 1800) then
    Js.numberToString N ++ "-" ++ Js.numberToString (Js.add N (Js.Number.fin 2)) ++ " minutes"
  else
    Js.numberToString N ++ "-" ++ Js.numberToString (Js.add N (Js.Number.fin 10)) ++ " minutes"

/-- Specification: the text `fmt(s)` with the numbers written as decimal
numerals, for a natural number `N` of minutes. -/
def formatDowntimeDecimal (s : Js.Number) (N : ℕ) : String :=
  if Js.lt s (Js.Number.fin 60) then "< 1 minute"
  else if Js.lt s (Js.Number.fin 300) then toString N ++ " minutes"
  else if Js.lt s (Js.Number.fin 1800) then
    toString N ++ "-" ++ toString (N + 2) ++ " minutes"
  else toString N ++ "-" ++ toString (N + 10) ++ " minutes"

/-- Specification, in doubles: the downtime number handed to
`generateRecommendations` for `s` estimated seconds: 60 when the text is
`'< 1 minute'`, else `N = round(s/60)`. -/
def handedDowntimeDouble (s : Js.Number) : Js.Number :=
  if Js.lt s (Js.Number.fin 60) then Js.Number.fin 60 else minutesDouble s

/-- A context with an average downtime of `3e18` seconds on record, of type
`database`, no affected service. -/
def hugeOutageAlert : AlertData :=
  { alertName := "Database Outage Alert",
    alertType := "database",
    affectedServices := some [],
    historicalData := some { avgDowntime := some (3 * 10 ^ 18) } }

/-- A context with an average downtime of `3e22` seconds on record, of type
`database`, no affected service. -/
def endlessOutageAlert : AlertData :=
  { alertName := "Database Outage Alert",
    alertType := "database",
    affectedServices := some [],
    historicalData := some { avgDowntime := some (3 * 10 ^ 22) } }

/-- A number is `+∞` or a finite value that is not negative. -/
def isNonnegative : Js.Number → Bool
  | Js.Number.fin v => decide (0 ≤ v)
  | Js.Number.posInf => true
  | _ => false

/-- A number is a double: a finite value is one that rounding leaves as it
is. -/
def isDouble : Js.Number → Bool
  | Js.Number.fin v => decide (Js.roundDouble v = Js.Number.fin v)
  | _ => true

/-- The services whose multipliers (0.1, 0.2, 0.3) are not multiples of one
half; the sum of the other multipliers, all multiples of one half, is exact in
doubles. -/
def FRACTIONAL_MULTIPLIER_SERVICES : List String :=
  ["logging-service", "monitoring-service", "analytics-service"]

/-! ## Theorems -/

theorem lookup_mem {α β : Type} [BEq α] [LawfulBEq α] (l : List (α × β)) (k : α) (v : β)
    (h : l.lookup k = some v) : (k, v) ∈ l := by
  induction l with
  | nil => simp at h
  | cons p rest ih =>
    obtain ⟨a, b⟩ := p
    rw [List.lookup_cons] at h
    by_cases hk : k == a
    · simp only [hk] at h
      have := beq_iff_eq.1 hk
      simp_all
    · simp only [hk] at h
      exact List.mem_cons_of_mem _ (ih h)

theorem customer_points_eq_band (c : ℚ) :
    (if c ≥ 5000 then (0 : ℚ) + 40
      else if c ≥ 2000 then 0 + 30
      else if c ≥ 1000 then 0 + 20
      else if c ≥ 500 then 0 + 15
      else if c ≥ 100 then 0 + 10
      else 0 + 5) = customerBand c := by
  unfold customerBand
  simp only [ge_iff_le, zero_add]

theorem failure_points_eq_band (r : Option ℚ) (X : ℚ) :
    (if orElse r 0 ≥ 1/2 then X + 25
      else if orElse r 0 ≥ 3/10 then X + 20
      else if orElse r 0 ≥ 1/5 then X + 15
      else if orElse r 0 ≥ 1/10 then X + 10
      else X + 5) = X + failureBand r := by
  cases r with
  | none => norm_num [orElse, failureBand]
  | some v =>
    by_cases hv : v = 0
    · subst hv; norm_num [orElse, failureBand]
    · simp only [orElse, if_neg hv, failureBand, ge_iff_le]
      split_ifs <;> rfl

theorem determineRiskLevel_eq (c k : ℚ) (r : Option ℚ) :
    determineRiskLevel c k r = tierOfScore (riskScoreSpec c k r) := by
  unfold determineRiskLevel
  simp only [customer_points_eq_band, failure_points_eq_band]
  rfl

/-- C1: for all numbers `customersAffected`, `criticalServicesCount` and every
(possibly absent) `historicalFailureRate`, `determineRiskLevel` returns the tier
of `customerBand + min(count*12, 35) + failureBand`, with the bands 40/30/20/15/10/5
and 25/20/15/10/5 and the tier thresholds 80/60/35; and the four test inputs give
LOW, MEDIUM, HIGH and CRITICAL. -/
theorem determineRiskLevel_eq_tierOfScore :
    (∀ (customersAffected criticalServicesCount : ℚ) (historicalFailureRate : Option ℚ),
      determineRiskLevel customersAffected criticalServicesCount historicalFailureRate
        = tierOfScore
            (riskScoreSpec customersAffected criticalServicesCount historicalFailureRate))
    ∧ determineRiskLevel 50 0 (some (1/10)) = "LOW"
    ∧ determineRiskLevel 500 1 (some (1/5)) = "MEDIUM"
    ∧ determineRiskLevel 1500 2 (some (3/10)) = "HIGH"
    ∧ determineRiskLevel 5000 3 (some (3/5)) = "CRITICAL" := by
  refine ⟨determineRiskLevel_eq, ?_, ?_, ?_, ?_⟩
  · norm_num [determineRiskLevel, orElse]
  · norm_num [determineRiskLevel, orElse]
  · norm_num [determineRiskLevel, orElse]
  · norm_num [determineRiskLevel, orElse]

/-- C3: on an empty `affectedServices` list `calculateCustomerImpact` returns
exactly 0, whatever the historical record (absent, empty or filled). -/
theorem calculateCustomerImpact_empty (alertName alertType : String)
    (historicalData : Option HistoricalData) :
    calculateCustomerImpact
        { alertName := alertName, alertType := alertType,
          affectedServices := some [], historicalData := historicalData } = 0 := by
  simp [calculateCustomerImpact]

theorem identifyCriticalServices_eq_criticalSublist (l : List String) :
    identifyCriticalServices l = criticalSublist l := by
  induction l with
  | nil => rfl
  | cons s rest ih =>
    unfold identifyCriticalServices at ih ⊢
    rw [List.filter_cons, ih]
    by_cases h : s ∈ CRITICAL_SERVICES
    · simp [includes, criticalSublist, h]
    · simp [includes, criticalSublist, h]

/-- C4: `identifyCriticalServices` returns exactly the elements of its input
that are in the 8-entry `CRITICAL_SERVICES` registry, in input order: it equals
the order-preserving selection, is a sub-list of the input (so no longer than
it), holds exactly the critical members, maps `[]` to `[]` and
`['payment-processing','logging-service']` to `['payment-processing']`. -/
theorem identifyCriticalServices_spec :
    CRITICAL_SERVICES.length = 8
    ∧ (∀ l : List String,
        identifyCriticalServices l = criticalSublist l
        ∧ (identifyCriticalServices l).Sublist l
        ∧ (∀ s, s ∈ identifyCriticalServices l ↔ s ∈ l ∧ s ∈ CRITICAL_SERVICES)
        ∧ (identifyCriticalServices l).length ≤ l.length)
    ∧ identifyCriticalServices [] = []
    ∧ identifyCriticalServices ["payment-processing", "logging-service"]
        = ["payment-processing"] := by
  refine ⟨by decide, ?_, by decide, by decide⟩
  intro l
  refine ⟨identifyCriticalServices_eq_criticalSublist l, ?_, ?_, ?_⟩
  · exact List.filter_sublist l
  · intro s
    simp [identifyCriticalServices, includes]
  · exact List.length_filter_le _ l

/-! ### Dependent alerts -/

theorem mem_setAdd (set : List String) (x y : String) :
    y ∈ setAdd set x ↔ y ∈ set ∨ y = x := by
  unfold setAdd
  split_ifs with h
  · constructor
    · exact Or.inl
    · rintro (h1 | rfl)
      · exact h1
      · exact h
  · simp

theorem nodup_setAdd (set : List String) (x : String) (h : set.Nodup) :
    (setAdd set x).Nodup := by
  unfold setAdd
  split_ifs with hx
  · exact h
  · exact List.Nodup.append h (List.nodup_singleton x) (by simpa using hx)

theorem mem_addDependencyAlerts (set : List String) (d x : String) :
    x ∈ addDependencyAlerts set d ↔
      x ∈ set ∨ (d ∈ CRITICAL_SERVICES ∧
        (x = alertSuffixOf d ++ " Alert" ∨ x = alertSuffixOf d ++ " Failure Alert")) := by
  unfold addDependencyAlerts
  by_cases hd : d ∈ CRITICAL_SERVICES
  · have hi : includes CRITICAL_SERVICES d = true := by simpa [includes] using hd
    simp only [hi, if_true, mem_setAdd, hd, true_and, or_assoc]
  · have hi : ¬ (includes CRITICAL_SERVICES d = true) := by simpa [includes] using hd
    simp only [if_neg hi, hd, false_and, or_false]

theorem nodup_addDependencyAlerts (set : List String) (d : String) (h : set.Nodup) :
    (addDependencyAlerts set d).Nodup := by
  unfold addDependencyAlerts
  split_ifs
  · exact nodup_setAdd _ _ (nodup_setAdd _ _ h)
  · exact h

theorem mem_foldl_addDependencyAlerts (deps : List String) (set : List String) (x : String) :
    x ∈ deps.foldl addDependencyAlerts set ↔
      x ∈ set ∨ ∃ d ∈ deps, d ∈ CRITICAL_SERVICES ∧
        (x = alertSuffixOf d ++ " Alert" ∨ x = alertSuffixOf d ++ " Failure Alert") := by
  induction deps generalizing set with
  | nil => simp
  | cons d rest ih =>
    rw [List.foldl_cons, ih, mem_addDependencyAlerts]
    simp only [List.mem_cons, exists_eq_or_imp, or_assoc]

theorem nodup_foldl_addDependencyAlerts (deps : List String) (set : List String)
    (h : set.Nodup) : (deps.foldl addDependencyAlerts set).Nodup := by
  induction deps generalizing set with
  | nil => exact h
  | cons d rest ih => exact ih _ (nodup_addDependencyAlerts set d h)

theorem mem_foldl_addServiceAlerts (services : List String) (set : List String) (x : String) :
    x ∈ services.foldl addServiceAlerts set ↔
      x ∈ set ∨ ∃ s ∈ services, ∃ d ∈ (SERVICE_DEPENDENCIES.lookup s).getD [],
        d ∈ CRITICAL_SERVICES ∧
          (x = alertSuffixOf d ++ " Alert" ∨ x = alertSuffixOf d ++ " Failure Alert") := by
  induction services generalizing set with
  | nil => simp
  | cons s rest ih =>
    rw [List.foldl_cons, ih]
    unfold addServiceAlerts
    rw [mem_foldl_addDependencyAlerts]
    simp only [List.mem_cons, exists_eq_or_imp, or_assoc]

theorem nodup_foldl_addServiceAlerts (services : List String) (set : List String)
    (h : set.Nodup) : (services.foldl addServiceAlerts set).Nodup := by
  induction services generalizing set with
  | nil => exact h
  | cons s rest ih =>
    exact ih _ (nodup_foldl_addDependencyAlerts _ set h)

theorem alertSuffixOf_eq_titlecase (d : String) (hd : d ∈ CRITICAL_SERVICES) :
    alertSuffixOf d = titlecase d := by
  simp only [CRITICAL_SERVICES, List.mem_cons, List.mem_singleton, List.not_mem_nil,
    or_false] at hd
  rcases hd with rfl | rfl | rfl | rfl | rfl | rfl | rfl | rfl <;> decide

theorem mem_dependencyLabels (services : List String) (x : String) :
    x ∈ dependencyLabels services ↔
      ∃ s ∈ services, ∃ d ∈ (SERVICE_DEPENDENCIES.lookup s).getD [],
        d ∈ CRITICAL_SERVICES ∧
          (x = alertSuffixOf d ++ " Alert" ∨ x = alertSuffixOf d ++ " Failure Alert") := by
  unfold dependencyLabels
  simp only [List.mem_flatMap, List.mem_filter, decide_eq_true_eq, List.mem_cons,
    List.mem_singleton, List.not_mem_nil, or_false]
  constructor
  · rintro ⟨s, hs, d, ⟨hd, hc⟩, hx⟩
    exact ⟨s, hs, d, hd, hc, by rw [alertSuffixOf_eq_titlecase d hc]; exact hx⟩
  · rintro ⟨s, hs, d, hd, hc, hx⟩
    exact ⟨s, hs, d, ⟨hd, hc⟩, by rw [← alertSuffixOf_eq_titlecase d hc]; exact hx⟩

theorem identifyCriticalServices_length_pos_iff (services : List String) :
    (identifyCriticalServices services).length > 0 ↔
      ¬ ∀ s ∈ services, s ∉ CRITICAL_SERVICES := by
  rw [gt_iff_lt, List.length_pos_iff_exists_mem]
  simp [identifyCriticalServices, includes]

theorem includes_identifyCriticalServices (services : List String) (s : String)
    (hs : s ∈ CRITICAL_SERVICES) :
    includes (identifyCriticalServices services) s = true ↔ s ∈ services := by
  simp [identifyCriticalServices, includes, hs]

theorem nodup_findDependentAlerts (alertName : String) (services : List String) :
    (findDependentAlerts alertName services).Nodup := by
  unfold findDependentAlerts
  apply List.Nodup.filter
  have h0 : (services.foldl addServiceAlerts []).Nodup :=
    nodup_foldl_addServiceAlerts services [] List.nodup_nil
  simp only []
  split_ifs <;> repeat (first | exact h0 | apply nodup_setAdd)

/-- C5: no label returned by `findDependentAlerts` equals `alertName` once both
are lower-cased. With `'payment failure alert'` and `['payment-processing']` the
label `'Payment Failure Alert'` is not returned (it is returned for another
name); with `'Database CPU Alert'` neither `'Database CPU Alert'` nor
`'database cpu alert'` is returned. -/
theorem findDependentAlerts_excludes_alertName :
    (∀ (alertName : String) (affectedServices : List String),
      ∀ label ∈ findDependentAlerts alertName affectedServices,
        toLowerCase label ≠ toLowerCase alertName)
    ∧ "Payment Failure Alert" ∉ findDependentAlerts "payment failure alert" ["payment-processing"]
    ∧ "Payment Failure Alert" ∈ findDependentAlerts "Database CPU Alert" ["payment-processing"]
    ∧ "Database CPU Alert" ∉ findDependentAlerts "Database CPU Alert" ["payment-processing"]
    ∧ "database cpu alert" ∉ findDependentAlerts "Database CPU Alert" ["payment-processing"] := by
  refine ⟨?_, by decide, by decide, by decide, by decide⟩
  intro alertName affectedServices label h
  unfold findDependentAlerts at h
  have h2 := (List.mem_filter.1 h).2
  simpa using h2

/-- C7: the list returned by `findDependentAlerts` holds no label twice, also
when the affected services share dependencies or repeat; for
`['payment-processing','fraud-detection','payment-processing']` the shared
labels appear once. -/
theorem findDependentAlerts_nodup :
    (∀ (alertName : String) (affectedServices : List String),
      (findDependentAlerts alertName affectedServices).Nodup)
    ∧ findDependentAlerts "Log Alert"
          ["payment-processing", "fraud-detection", "payment-processing"]
        = ["Billing Service Alert", "Billing Service Failure Alert",
           "Fraud Detection Alert", "Fraud Detection Failure Alert",
           "Order Management Alert", "Order Management Failure Alert",
           "Payment Processing Alert", "Payment Processing Failure Alert",
           "Downstream Service Alert", "Cascade Failure Alert",
           "Payment Failure Alert", "Transaction Processing Alert"] := by
  refine ⟨nodup_findDependentAlerts, by decide⟩

/-! ### Confidence score -/

theorem volume_points_eq_bonus (t X : ℚ) :
    (if t ≥ 50 then X + 3/10
      else if t ≥ 20 then X + 1/5
      else if t ≥ 10 then X + 3/20
      else if t ≥ 5 then X + 1/10
      else X + 1/20) = X + volumeBonus t := by
  unfold volumeBonus
  simp only [ge_iff_le]
  split_ifs <;> rfl

theorem success_points_eq_bonus (s t X : ℚ) :
    (if t > 0 then
        (if s / t ≥ 9/10 then X + 1/5
          else if s / t ≥ 4/5 then X + 3/20
          else if s / t ≥ 7/10 then X + 1/10
          else if s / t ≥ 3/5 then X + 1/20
          else X)
      else X) = X + successBonus s t := by
  unfold successBonus rateBonus
  by_cases ht : t ≤ 0
  · rw [if_neg (not_lt.2 ht), if_pos ht, add_zero]
  · rw [if_pos (not_le.1 ht), if_neg ht]
    simp only [ge_iff_le]
    split_ifs <;> first | rfl | exact (add_zero X).symm

theorem quality_points_eq_adjustment (q : String) (X : ℚ) :
    (if toLowerCase q = "high" then X + 1/5
      else if toLowerCase q = "medium" then X + 1/10
      else if toLowerCase q = "low" then X - 1/10
      else X) = X + qualityAdjustment q := by
  have h1 : toLowerCase "high" = "high" := by decide
  have h2 : toLowerCase "medium" = "medium" := by decide
  have h3 : toLowerCase "low" = "low" := by decide
  unfold qualityAdjustment
  rw [h1, h2, h3]
  split_ifs
  · rfl
  · rfl
  · exact sub_eq_add_neg X (1/10)
  · exact (add_zero X).symm

theorem max_min_eq_clamp01 (x : ℚ) : max 0 (min 1 x) = clamp01 x := by
  unfold clamp01
  split_ifs with h1 h2
  · rw [min_eq_right (by linarith), max_eq_left (le_of_lt h1)]
  · rw [min_eq_left (le_of_lt h2), max_eq_right (by norm_num)]
  · rw [min_eq_right (not_lt.1 h2), max_eq_right (not_lt.1 h1)]

theorem calculateConfidenceScore_eq (input : ConfidenceInput) :
    calculateConfidenceScore input
      = confidenceSpec (input.successfulDeployments.getD 0) (input.failedDeployments.getD 0)
          (input.dataQuality.getD "medium") := by
  unfold calculateConfidenceScore confidenceSpec
  simp only [volume_points_eq_bonus, success_points_eq_bonus, quality_points_eq_adjustment,
    max_min_eq_clamp01]

/-! ### Orchestrator bounds -/

theorem calculateCustomerImpact_nonneg (alertData : AlertData) :
    0 ≤ calculateCustomerImpact alertData := by
  unfold calculateCustomerImpact
  split
  · exact le_refl 0
  · split_ifs
    · exact le_refl 0
    · exact le_max_left 0 _

theorem calculateConfidenceScore_bounds (input : ConfidenceInput) :
    0 ≤ calculateConfidenceScore input ∧ calculateConfidenceScore input ≤ 1 := by
  unfold calculateConfidenceScore
  exact ⟨le_max_left 0 _, max_le (by norm_num) (min_le_left 1 _)⟩

/-- C9: for every input context the result of `analyzeImpact` has
`customersAffected ≥ 0` and `0 ≤ confidenceScore ≤ 1`; with a negative
`avgCustomersAffected` of `-500` the customer count is `0`. -/
theorem analyzeImpact_bounds :
    (∀ alertData : AlertData,
      0 ≤ (analyzeImpact alertData).customersAffected
      ∧ 0 ≤ (analyzeImpact alertData).confidenceScore
      ∧ (analyzeImpact alertData).confidenceScore ≤ 1)
    ∧ (analyzeImpact negativeBaselineAlert).customersAffected = 0 := by
  refine ⟨?_, by decide!⟩
  intro alertData
  exact ⟨calculateCustomerImpact_nonneg alertData,
    (calculateConfidenceScore_bounds _).1, (calculateConfidenceScore_bounds _).2⟩

/-! ### Recommendations -/

theorem includes_eq_true_iff (xs : List String) (x : String) :
    includes xs x = true ↔ x ∈ xs := by
  simp [includes]

theorem generateRecommendations_eq (riskLevel : String) (customersAffected : ℚ)
    (criticalServices : List String) (estimatedDowntime : ℚ) :
    generateRecommendations riskLevel customersAffected criticalServices estimatedDowntime
      = tierItems riskLevel customersAffected criticalServices estimatedDowntime
          ++ summaryItems criticalServices ++ extendedDowntimeItems estimatedDowntime := by
  have hlen : criticalServices.length > 0 ↔ ¬ criticalServices = [] := by
    rw [gt_iff_lt, List.length_pos]
  unfold generateRecommendations tierItems summaryItems extendedDowntimeItems
  simp only [push, includes_eq_true_iff, gt_iff_lt, hlen, List.nil_append]
  by_cases h1 : riskLevel = "LOW"
  · simp only [if_pos h1]
    split_ifs <;> rfl
  · simp only [if_neg h1]
    by_cases h2 : riskLevel = "MEDIUM"
    · simp only [if_pos h2]
      split_ifs <;> rfl
    · simp only [if_neg h2]
      by_cases h3 : riskLevel = "HIGH"
      · simp only [if_pos h3]
        split_ifs <;> rfl
      · simp only [if_neg h3]
        by_cases h4 : riskLevel = "CRITICAL"
        · simp only [if_pos h4]
          split_ifs <;> rfl
        · simp only [if_neg h4]
          split_ifs <;> rfl

/-- C10: `generateRecommendations` returns `T ++ S ++ E` in that order: `T` the
tier list (LOW, MEDIUM, HIGH, CRITICAL with their conditional items, empty for any
other tier), `S` the line `'Critical services affected: ' + join(', ')` iff
`criticalServices` is non-empty, `E` the extended-downtime line iff
`estimatedDowntime > 300`. -/
theorem generateRecommendations_eq_append :
    (∀ (riskLevel : String) (customersAffected : ℚ) (criticalServices : List String)
        (estimatedDowntime : ℚ),
      generateRecommendations riskLevel customersAffected criticalServices estimatedDowntime
        = tierItems riskLevel customersAffected criticalServices estimatedDowntime
            ++ summaryItems criticalServices ++ extendedDowntimeItems estimatedDowntime)
    ∧ generateRecommendations "CRITICAL" 5000
          ["payment-processing", "billing-service", "fraud-detection"] 900
        = ["DO NOT PROCEED - Schedule maintenance window", "Coordinate with all stakeholders",
           "Prepare comprehensive rollback plan", "Consider phased deployment approach",
           "Ensure 24/7 support coverage", "Alert payment operations and fraud teams",
           "Critical services affected: payment-processing, billing-service, fraud-detection",
           "Extended downtime expected - communicate with stakeholders"] :=
  ⟨generateRecommendations_eq, by decide!⟩

/-- C11: for a `riskLevel` other than LOW, MEDIUM, HIGH and CRITICAL,
`generateRecommendations` (a total function, so no error) returns only the
trailing items: the `'Critical services affected: ...'` line iff
`criticalServices` is non-empty, then the extended-downtime line iff
`estimatedDowntime > 300`; so the empty list when `criticalServices` is empty and
the downtime is at most 300. The tier names are case-sensitive: `'low'` is
such a value. -/
theorem generateRecommendations_unknown_tier :
    (∀ (riskLevel : String) (customersAffected : ℚ) (criticalServices : List String)
        (estimatedDowntime : ℚ),
      riskLevel ≠ "LOW" → riskLevel ≠ "MEDIUM" → riskLevel ≠ "HIGH" →
      riskLevel ≠ "CRITICAL" →
      generateRecommendations riskLevel customersAffected criticalServices estimatedDowntime
        = (if criticalServices = [] then []
            else ["Critical services affected: " ++ ", ".intercalate criticalServices])
          ++ (if 300 < estimatedDowntime then
                ["Extended downtime expected - communicate with stakeholders"]
              else []))
    ∧ (∀ (riskLevel : String) (customersAffected estimatedDowntime : ℚ),
      riskLevel ≠ "LOW" → riskLevel ≠ "MEDIUM" → riskLevel ≠ "HIGH" →
      riskLevel ≠ "CRITICAL" → estimatedDowntime ≤ 300 →
      generateRecommendations riskLevel customersAffected [] estimatedDowntime = [])
    ∧ generateRecommendations "low" 50 ["payment-processing", "billing-service"] 900
        = ["Critical services affected: payment-processing, billing-service",
           "Extended downtime expected - communicate with stakeholders"] := by
  have key : ∀ (riskLevel : String) (customersAffected : ℚ) (criticalServices : List String)
      (estimatedDowntime : ℚ),
      riskLevel ≠ "LOW" → riskLevel ≠ "MEDIUM" → riskLevel ≠ "HIGH" →
      riskLevel ≠ "CRITICAL" →
      generateRecommendations riskLevel customersAffected criticalServices estimatedDowntime
        = (if criticalServices = [] then []
            else ["Critical services affected: " ++ ", ".intercalate criticalServices])
          ++ (if 300 < estimatedDowntime then
                ["Extended downtime expected - communicate with stakeholders"]
              else []) := by
    intro r c cs d h1 h2 h3 h4
    rw [generateRecommendations_eq]
    unfold tierItems summaryItems extendedDowntimeItems
    rw [if_neg h1, if_neg h2, if_neg h3, if_neg h4, List.nil_append]
  refine ⟨key, ?_, by decide!⟩
  intro r c d h1 h2 h3 h4 hd
  rw [key r c [] d h1 h2 h3 h4, if_pos rfl, if_neg (not_lt.2 hd)]
  rfl

/-- An unknown tier with no critical service and a short downtime yields no
recommendation at all. -/
theorem generateRecommendations_unknown_tier_witness :
    generateRecommendations "UNKNOWN" 50 [] 30 = [] :=
  generateRecommendations_unknown_tier.2.1 "UNKNOWN" 50 30 (by decide) (by decide) (by decide)
    (by decide) (by norm_num)

/-! ### Downtime -/

theorem length_identifyCriticalServices (services : List String) :
    (identifyCriticalServices services).length = criticalCount services := by
  unfold identifyCriticalServices criticalCount
  rw [List.countP_eq_length_filter]
  congr 2
  funext service
  simp [includes]

/-! ### End-to-end scenarios -/

/-- C13: on the payment scenario `analyzeImpact` returns `riskLevel`
CRITICAL (73500 customers, score 40 + 35 + 25), a `criticalServices` list holding
all three input services, and recommendations whose first item contains
`'DO NOT PROCEED'`. -/
theorem analyzeImpact_payment_scenario :
    (analyzeImpact mockCriticalAlert).riskLevel = "CRITICAL"
    ∧ (∀ service ∈ ["payment-processing", "billing-service", "fraud-detection"],
        service ∈ (analyzeImpact mockCriticalAlert).criticalServices)
    ∧ (analyzeImpact mockCriticalAlert).recommendations.any
        (fun item => stringIncludes item "DO NOT PROCEED") = true
    ∧ (analyzeImpact mockCriticalAlert).recommendations.head?
        = some "DO NOT PROCEED - Schedule maintenance window"
    ∧ (analyzeImpact mockCriticalAlert).customersAffected = 73500 := by
  refine ⟨by decide!, by decide!, by decide!, by decide!, by decide!⟩

theorem analyzeImpact_riskLevel_loggingScenario (alertName alertType : String) :
    (analyzeImpact (loggingScenario alertName alertType)).riskLevel
      = (analyzeImpact mockLowRiskAlert).riskLevel := rfl

/-- C14: on the logging scenario (`['logging-service']`, averages 50 and 30,
25 successful and 1 failed deployment) `analyzeImpact` returns `riskLevel` LOW for
every alert name and alert type (5 customers, score 5 + 0 + 5). -/
theorem analyzeImpact_logging_scenario :
    (∀ alertName alertType : String,
      (analyzeImpact (loggingScenario alertName alertType)).riskLevel = "LOW")
    ∧ (analyzeImpact mockLowRiskAlert).riskLevel = "LOW"
    ∧ (analyzeImpact mockLowRiskAlert).customersAffected = 5 := by
  have h : (analyzeImpact mockLowRiskAlert).riskLevel = "LOW" := by decide!
  refine ⟨?_, h, by decide!⟩
  intro alertName alertType
  rw [analyzeImpact_riskLevel_loggingScenario, h]

/-- C15, the code at the failing input: on the database mock alert
`analyzeImpact` returns CRITICAL, neither MEDIUM nor HIGH: the customer count is
21000 (40 points), three critical services give 35 and the failure rate 3/18
gives 10, a score of 85. -/
theorem analyzeImpact_mockAlertData_riskLevel :
    (analyzeImpact mockAlertData).riskLevel = "CRITICAL"
    ∧ (analyzeImpact mockAlertData).riskLevel ≠ "MEDIUM"
    ∧ (analyzeImpact mockAlertData).riskLevel ≠ "HIGH"
    ∧ (analyzeImpact mockAlertData).customersAffected = 21000
    ∧ riskScoreSpec 21000 3 (some (3/18)) = 85
    ∧ determineRiskLevel 1200 3 (some (3/18)) = "HIGH" := by
  refine ⟨by decide!, by decide!, by decide!, by decide!, by decide!, by decide!⟩

/-- C16, the code at the failing input: on the database mock alert
`calculateCustomerImpact` returns `1200 * 12.5 * 1.4 = 21000`, positive but not
within 100 of 1200. -/
theorem calculateCustomerImpact_mockAlertData :
    calculateCustomerImpact mockAlertData = 21000
    ∧ 0 < calculateCustomerImpact mockAlertData
    ∧ ¬ (1200 - 100 ≤ calculateCustomerImpact mockAlertData
          ∧ calculateCustomerImpact mockAlertData ≤ 1200 + 100) := by
  refine ⟨by decide!, by decide!, by decide!⟩

/-! ### Risk tier: order and thresholds -/

theorem tierRank_tierOfScore_mono (s1 s2 : ℚ) (h : s1 ≤ s2) :
    tierRank (tierOfScore s1) ≤ tierRank (tierOfScore s2) := by
  unfold tierOfScore
  split_ifs <;> first | decide | (exfalso; linarith)

theorem riskScoreSpec_mono_count (c c1 c2 : ℚ) (r : Option ℚ) (h : c1 ≤ c2) :
    riskScoreSpec c c1 r ≤ riskScoreSpec c c2 r := by
  unfold riskScoreSpec
  have hm : min (c1 * 12) 35 ≤ min (c2 * 12) 35 :=
    min_le_min (mul_le_mul_of_nonneg_right h (by norm_num)) (le_refl 35)
  linarith

theorem tierOfScore_mem (s : ℚ) : tierOfScore s ∈ ["LOW", "MEDIUM", "HIGH", "CRITICAL"] := by
  unfold tierOfScore
  split_ifs <;> decide

theorem customerBand_bounds (c : ℚ) : 5 ≤ customerBand c ∧ customerBand c ≤ 40 := by
  unfold customerBand
  split_ifs <;> norm_num

theorem failureBand_bounds (r : Option ℚ) : 5 ≤ failureBand r ∧ failureBand r ≤ 25 := by
  unfold failureBand
  cases r with
  | none => norm_num
  | some v => simp only []; split_ifs <;> norm_num

/-- C17: for every `customersAffected`, every failure rate and all counts
`c1 ≤ c2`, the tier `determineRiskLevel` returns for `c2` is at least the tier for
`c1` in the order LOW < MEDIUM < HIGH < CRITICAL; every returned tier is one of
these four. -/
theorem determineRiskLevel_mono_count :
    (∀ (customersAffected c1 c2 : ℚ) (historicalFailureRate : Option ℚ), c1 ≤ c2 →
      tierRank (determineRiskLevel customersAffected c1 historicalFailureRate)
        ≤ tierRank (determineRiskLevel customersAffected c2 historicalFailureRate))
    ∧ (∀ (customersAffected count : ℚ) (historicalFailureRate : Option ℚ),
      determineRiskLevel customersAffected count historicalFailureRate
        ∈ ["LOW", "MEDIUM", "HIGH", "CRITICAL"])
    ∧ tierRank "LOW" < tierRank "MEDIUM"
    ∧ tierRank "MEDIUM" < tierRank "HIGH"
    ∧ tierRank "HIGH" < tierRank "CRITICAL" := by
  refine ⟨?_, ?_, by decide, by decide, by decide⟩
  · intro c c1 c2 r h
    rw [determineRiskLevel_eq, determineRiskLevel_eq]
    exact tierRank_tierOfScore_mono _ _ (riskScoreSpec_mono_count c c1 c2 r h)
  · intro c k r
    rw [determineRiskLevel_eq]
    exact tierOfScore_mem _

/-- Raising the count from 0 to 3 at 1500 customers and rate 0.3 does not lower
the tier. -/
theorem determineRiskLevel_mono_count_witness :
    (0 : ℚ) ≤ 3
    ∧ tierRank (determineRiskLevel 1500 0 (some (3/10)))
        ≤ tierRank (determineRiskLevel 1500 3 (some (3/10))) :=
  ⟨by norm_num, determineRiskLevel_mono_count.1 1500 0 3 (some (3/10)) (by norm_num)⟩

/-- C19: the thresholds are inclusive lower bounds. With three critical
services and a failure rate below 0.1, `determineRiskLevel` returns CRITICAL iff
`customersAffected ≥ 5000` (score 80 at 5000; score 70 and HIGH at 4999); the input
(2000, 2, 0.5), whose score is 79, yields HIGH. -/
theorem determineRiskLevel_thresholds :
    (∀ (customersAffected rate : ℚ), rate < 1/10 →
      (determineRiskLevel customersAffected 3 (some rate) = "CRITICAL"
        ↔ 5000 ≤ customersAffected))
    ∧ riskScoreSpec 5000 3 (some (1/20)) = 80
    ∧ determineRiskLevel 5000 3 (some (1/20)) = "CRITICAL"
    ∧ riskScoreSpec 4999 3 (some (1/20)) = 70
    ∧ determineRiskLevel 4999 3 (some (1/20)) = "HIGH"
    ∧ riskScoreSpec 2000 2 (some (1/2)) = 79
    ∧ determineRiskLevel 2000 2 (some (1/2)) = "HIGH" := by
  refine ⟨?_, by decide!, by decide!, by decide!, by decide!, by decide!, by decide!⟩
  intro c r hr
  have hf : failureBand (some r) = 5 := by
    unfold failureBand
    simp only []
    rw [if_neg (by linarith), if_neg (by linarith), if_neg (by linarith), if_neg (by linarith)]
  have hmin : min ((3 : ℚ) * 12) 35 = 35 := by norm_num
  rw [determineRiskLevel_eq]
  unfold riskScoreSpec
  rw [hf, hmin]
  unfold tierOfScore customerBand
  constructor
  · intro h
    by_contra hc
    rw [if_neg hc] at h
    split_ifs at h <;> first | (exact absurd h (by decide)) | linarith
  · intro hc
    rw [if_pos hc, if_pos (by norm_num)]

/-- At 5000 customers, three critical services and a failure rate of 0.05 the
tier is CRITICAL. -/
theorem determineRiskLevel_thresholds_witness :
    (1/20 : ℚ) < 1/10
    ∧ (determineRiskLevel 5000 3 (some (1/20)) = "CRITICAL" ↔ (5000 : ℚ) ≤ 5000) :=
  ⟨by norm_num, determineRiskLevel_thresholds.1 5000 (1/20) (by norm_num)⟩

/-- C20: for every `customersAffected`, if `criticalServicesCount ≥ 3` and
`historicalFailureRate ≥ 0.5` then `determineRiskLevel` returns HIGH or CRITICAL
(the score is at least 5 + 35 + 25 = 65); the test input (100, 3, 0.5) gives HIGH. -/
theorem determineRiskLevel_critical_services_outweigh :
    (∀ (customersAffected count rate : ℚ), 3 ≤ count → 1/2 ≤ rate →
      determineRiskLevel customersAffected count (some rate) = "HIGH"
        ∨ determineRiskLevel customersAffected count (some rate) = "CRITICAL")
    ∧ determineRiskLevel 100 3 (some (1/2)) = "HIGH" := by
  refine ⟨?_, by decide!⟩
  intro c k r hk hr
  have hf : failureBand (some r) = 25 := by
    unfold failureBand
    simp only []
    rw [if_pos hr]
  have hmin : min (k * 12) 35 = 35 := min_eq_right (by linarith)
  have hb := (customerBand_bounds c).1
  rw [determineRiskLevel_eq]
  unfold riskScoreSpec
  rw [hf, hmin]
  unfold tierOfScore
  split_ifs with h1 h2
  · exact Or.inr rfl
  · exact Or.inl rfl
  · exact absurd (by linarith : (60 : ℚ) ≤ customerBand c + 35 + 25) h2
  · exact absurd (by linarith : (60 : ℚ) ≤ customerBand c + 35 + 25) h2

/-- With only 1 customer affected, three critical services and a failure rate
of 0.5 still give HIGH or CRITICAL. -/
theorem determineRiskLevel_critical_services_outweigh_witness :
    (3 : ℚ) ≤ 3 ∧ (1/2 : ℚ) ≤ 1/2
    ∧ (determineRiskLevel 1 3 (some (1/2)) = "HIGH"
        ∨ determineRiskLevel 1 3 (some (1/2)) = "CRITICAL") :=
  ⟨by norm_num, by norm_num,
    determineRiskLevel_critical_services_outweigh.1 1 3 (1/2) (by norm_num) (by norm_num)⟩

/-! ### Customer impact: adding a service -/

theorem multiplierOf_pos (s : String) : 0 < multiplierOf s := by
  unfold multiplierOf
  cases h : SERVICE_IMPACT_MULTIPLIERS.lookup s with
  | none => norm_num
  | some v =>
    have hm := lookup_mem _ _ _ h
    simp only [SERVICE_IMPACT_MULTIPLIERS, List.mem_cons, Prod.mk.injEq, List.mem_singleton,
      List.not_mem_nil, or_false] at hm
    rcases hm with ⟨_, rfl⟩ | ⟨_, rfl⟩ | ⟨_, rfl⟩ | ⟨_, rfl⟩ | ⟨_, rfl⟩ | ⟨_, rfl⟩ |
      ⟨_, rfl⟩ | ⟨_, rfl⟩ | ⟨_, rfl⟩ | ⟨_, rfl⟩ | ⟨_, rfl⟩ <;> norm_num

/-! ### Confidence score: order properties -/

theorem clamp01_mono (x y : ℚ) (h : x ≤ y) : clamp01 x ≤ clamp01 y := by
  unfold clamp01
  split_ifs <;> linarith

theorem rateBonus_mono (r1 r2 : ℚ) (h : r1 ≤ r2) : rateBonus r1 ≤ rateBonus r2 := by
  unfold rateBonus
  split_ifs <;> linarith

theorem rateBonus_nonneg (r : ℚ) : 0 ≤ rateBonus r := by
  unfold rateBonus
  split_ifs <;> norm_num

theorem volumeBonus_mono (t1 t2 : ℚ) (h : t1 ≤ t2) : volumeBonus t1 ≤ volumeBonus t2 := by
  unfold volumeBonus
  split_ifs <;> linarith

theorem successBonus_nonneg (s t : ℚ) : 0 ≤ successBonus s t := by
  unfold successBonus
  split_ifs
  · exact le_refl 0
  · exact rateBonus_nonneg _

theorem successBonus_mono_successful (s1 s2 t : ℚ) (h : s2 ≤ s1) :
    successBonus s2 t ≤ successBonus s1 t := by
  unfold successBonus
  split_ifs with ht
  · exact le_refl 0
  · exact rateBonus_mono _ _ (div_le_div_of_nonneg_right h (le_of_lt (not_le.1 ht)))

/-- C21: for every `dataQuality` and every two deployment histories with the
same total, the history with more successful deployments gets a
`calculateConfidenceScore` at least as high; on the test's inputs (18/2 against
10/10, quality `'high'`) the scores are 1 and 0.9. -/
theorem calculateConfidenceScore_mono_successful :
    (∀ (dataQuality : Option String) (p1 p2 : Option ℚ) (s1 f1 s2 f2 : ℚ),
      s1 + f1 = s2 + f2 → s2 ≤ s1 →
      calculateConfidenceScore
          { historicalDataPoints := p2, successfulDeployments := some s2,
            failedDeployments := some f2, dataQuality := dataQuality }
        ≤ calculateConfidenceScore
          { historicalDataPoints := p1, successfulDeployments := some s1,
            failedDeployments := some f1, dataQuality := dataQuality })
    ∧ calculateConfidenceScore
          { historicalDataPoints := some 20, successfulDeployments := some 18,
            failedDeployments := some 2, dataQuality := some "high" } = 1
    ∧ calculateConfidenceScore
          { historicalDataPoints := some 20, successfulDeployments := some 10,
            failedDeployments := some 10, dataQuality := some "high" } = 9/10 := by
  refine ⟨?_, by decide!, by decide!⟩
  intro q p1 p2 s1 f1 s2 f2 ht hs
  rw [calculateConfidenceScore_eq, calculateConfidenceScore_eq]
  simp only [Option.getD_some]
  unfold confidenceSpec
  apply clamp01_mono
  rw [← ht]
  have := successBonus_mono_successful s1 s2 (s1 + f1) hs
  linarith

/-- With total 20 and quality `'high'`, 18 successes score at least as high as
10 successes. -/
theorem calculateConfidenceScore_mono_successful_witness :
    (18 : ℚ) + 2 = 10 + 10 ∧ (10 : ℚ) ≤ 18
    ∧ calculateConfidenceScore
          { historicalDataPoints := some 20, successfulDeployments := some 10,
            failedDeployments := some 10, dataQuality := some "high" }
        ≤ calculateConfidenceScore
          { historicalDataPoints := some 20, successfulDeployments := some 18,
            failedDeployments := some 2, dataQuality := some "high" } :=
  ⟨by norm_num, by norm_num,
    calculateConfidenceScore_mono_successful.1 (some "high") (some 20) (some 20) 18 2 10 10
      (by norm_num) (by norm_num)⟩

/-- C22: for every `dataQuality` and every two deployment histories with the
same success rate, of which the second has at least as many deployments in
total, the second's `calculateConfidenceScore` is at least the first's. The
rates need only agree when the first total is positive (otherwise the first
history has no rate and gets no success bonus). On the test's inputs (80/20 with
`'high'` against 3/2 with `'low'`) the scores are 1 and 0.55. -/
theorem calculateConfidenceScore_mono_total :
    (∀ (dataQuality : Option String) (p1 p2 : Option ℚ) (s1 f1 s2 f2 : ℚ),
      s1 + f1 ≤ s2 + f2 →
      (0 < s1 + f1 → s1 / (s1 + f1) = s2 / (s2 + f2)) →
      calculateConfidenceScore
          { historicalDataPoints := p1, successfulDeployments := some s1,
            failedDeployments := some f1, dataQuality := dataQuality }
        ≤ calculateConfidenceScore
          { historicalDataPoints := p2, successfulDeployments := some s2,
            failedDeployments := some f2, dataQuality := dataQuality })
    ∧ calculateConfidenceScore
          { historicalDataPoints := some 100, successfulDeployments := some 80,
            failedDeployments := some 20, dataQuality := some "high" } = 1
    ∧ calculateConfidenceScore
          { historicalDataPoints := some 5, successfulDeployments := some 3,
            failedDeployments := some 2, dataQuality := some "low" } = 11/20 := by
  refine ⟨?_, by decide!, by decide!⟩
  intro q p1 p2 s1 f1 s2 f2 ht hr
  rw [calculateConfidenceScore_eq, calculateConfidenceScore_eq]
  simp only [Option.getD_some]
  unfold confidenceSpec
  apply clamp01_mono
  have hV := volumeBonus_mono _ _ ht
  have hS : successBonus s1 (s1 + f1) ≤ successBonus s2 (s2 + f2) := by
    by_cases h1 : s1 + f1 ≤ 0
    · have h0 : successBonus s1 (s1 + f1) = 0 := by
        unfold successBonus
        rw [if_pos h1]
      rw [h0]
      exact successBonus_nonneg _ _
    · have h1pos : 0 < s1 + f1 := not_le.1 h1
      have h2 : ¬ (s2 + f2 ≤ 0) := not_le.2 (lt_of_lt_of_le h1pos ht)
      unfold successBonus
      rw [if_neg h1, if_neg h2, hr h1pos]
  linarith

/-- Histories 8/2 and 80/20 share the rate 0.8; the larger one scores at least
as high under quality `'medium'`. -/
theorem calculateConfidenceScore_mono_total_witness :
    (8 : ℚ) + 2 ≤ 80 + 20
    ∧ ((0 : ℚ) < 8 + 2 → (8 : ℚ) / (8 + 2) = 80 / (80 + 20))
    ∧ calculateConfidenceScore
          { historicalDataPoints := none, successfulDeployments := some 8,
            failedDeployments := some 2, dataQuality := some "medium" }
        ≤ calculateConfidenceScore
          { historicalDataPoints := none, successfulDeployments := some 80,
            failedDeployments := some 20, dataQuality := some "medium" } :=
  ⟨by norm_num, fun _ => by norm_num,
    calculateConfidenceScore_mono_total.1 (some "medium") none none 8 2 80 20
      (by norm_num) (fun _ => by norm_num)⟩

/-- C23: `calculateConfidenceScore` does not depend on `historicalDataPoints`:
two inputs that agree on `successfulDeployments`, `failedDeployments` and
`dataQuality` get equal scores, whatever their `historicalDataPoints`. -/
theorem calculateConfidenceScore_ignores_historicalDataPoints :
    (∀ input1 input2 : ConfidenceInput,
      input1.successfulDeployments = input2.successfulDeployments →
      input1.failedDeployments = input2.failedDeployments →
      input1.dataQuality = input2.dataQuality →
      calculateConfidenceScore input1 = calculateConfidenceScore input2)
    ∧ (∀ (input : ConfidenceInput) (p : Option ℚ),
      calculateConfidenceScore { input with historicalDataPoints := p }
        = calculateConfidenceScore input) := by
  refine ⟨?_, ?_⟩
  · intro i1 i2 hs hf hq
    rw [calculateConfidenceScore_eq, calculateConfidenceScore_eq, hs, hf, hq]
  · intro input p
    rfl

/-- Inputs with `historicalDataPoints` 5 and 100000 and otherwise equal fields
get the same score. -/
theorem calculateConfidenceScore_ignores_historicalDataPoints_witness :
    calculateConfidenceScore
        { historicalDataPoints := some 5, successfulDeployments := some 15,
          failedDeployments := some 5, dataQuality := some "high" }
      = calculateConfidenceScore
        { historicalDataPoints := some 100000, successfulDeployments := some 15,
          failedDeployments := some 5, dataQuality := some "high" } :=
  calculateConfidenceScore_ignores_historicalDataPoints.1 _ _ rfl rfl rfl

/-! ### Orchestrator: defaults, order and tiers -/

theorem length_identifyCriticalServices_perm (L1 L2 : List String) (h : L1.Perm L2) :
    (identifyCriticalServices L1).length = (identifyCriticalServices L2).length := by
  unfold identifyCriticalServices
  exact (h.filter _).length_eq

/-! ### Non-critical services, tier bound, confidence floor -/

theorem lookup_dependencies_of_not_critical (s : String) (hs : s ∉ CRITICAL_SERVICES) :
    SERVICE_DEPENDENCIES.lookup s = none := by
  cases h : SERVICE_DEPENDENCIES.lookup s with
  | none => rfl
  | some v =>
    exfalso
    apply hs
    have hm := lookup_mem _ _ _ h
    simp only [SERVICE_DEPENDENCIES, List.mem_cons, Prod.mk.injEq, List.mem_singleton,
      List.not_mem_nil, or_false] at hm
    rcases hm with ⟨rfl, _⟩ | ⟨rfl, _⟩ | ⟨rfl, _⟩ | ⟨rfl, _⟩ | ⟨rfl, _⟩ | ⟨rfl, _⟩ |
      ⟨rfl, _⟩ | ⟨rfl, _⟩ <;> decide

theorem riskScoreSpec_le_of_count_le_one (c k : ℚ) (r : Option ℚ) (hk : k ≤ 1) :
    riskScoreSpec c k r ≤ 77 := by
  unfold riskScoreSpec
  have h1 := (customerBand_bounds c).2
  have h2 := (failureBand_bounds r).2
  have h3 : min (k * 12) 35 ≤ 12 := le_trans (min_le_left _ _) (by linarith)
  linarith

theorem determineRiskLevel_ne_critical_of_count_le_one (c k : ℚ) (r : Option ℚ)
    (hk : k ≤ 1) : determineRiskLevel c k r ≠ "CRITICAL" := by
  rw [determineRiskLevel_eq]
  have h := riskScoreSpec_le_of_count_le_one c k r hk
  unfold tierOfScore
  split_ifs
  · linarith
  · decide
  · decide
  · decide

/-- C28: for every `customersAffected` and failure rate, if
`criticalServicesCount ≤ 1` the score is at most `40 + 12 + 25 = 77` and
`determineRiskLevel` does not return CRITICAL; hence `analyzeImpact` does not return
CRITICAL for a context with fewer than two critical entries among its
`affectedServices`. -/
theorem determineRiskLevel_needs_two_critical :
    (∀ (customersAffected count : ℚ) (historicalFailureRate : Option ℚ), count ≤ 1 →
      riskScoreSpec customersAffected count historicalFailureRate ≤ 77
      ∧ determineRiskLevel customersAffected count historicalFailureRate ≠ "CRITICAL")
    ∧ (∀ alertData : AlertData,
      (identifyCriticalServices (alertData.affectedServices.getD [])).length < 2 →
      (analyzeImpact alertData).riskLevel ≠ "CRITICAL")
    ∧ riskScoreSpec 5000 1 (some (1/2)) = 77 := by
  refine ⟨?_, ?_, by decide!⟩
  · intro c k r hk
    exact ⟨riskScoreSpec_le_of_count_le_one c k r hk,
      determineRiskLevel_ne_critical_of_count_le_one c k r hk⟩
  · intro alertData hlen
    have hk : ((identifyCriticalServices (alertData.affectedServices.getD [])).length : ℚ)
        ≤ 1 := by
      have : (identifyCriticalServices (alertData.affectedServices.getD [])).length ≤ 1 :=
        Nat.lt_succ_iff.1 hlen
      exact_mod_cast this
    exact determineRiskLevel_ne_critical_of_count_le_one _ _ _ hk

/-- With one critical service the largest inputs (a million customers, failure
rate 1) still do not reach CRITICAL. -/
theorem determineRiskLevel_needs_two_critical_witness :
    (1 : ℚ) ≤ 1
    ∧ riskScoreSpec 1000000 1 (some 1) ≤ 77
    ∧ determineRiskLevel 1000000 1 (some 1) ≠ "CRITICAL" :=
  ⟨le_refl 1, determineRiskLevel_needs_two_critical.1 1000000 1 (some 1) (le_refl 1)⟩

/-! ### Request validation -/

theorem isNameChar_of_stated (d : Char)
    (h : (d.isAlphanum || d == '-' || d == '_' || d == ' ') = true) : isNameChar d = true := by
  unfold isNameChar
  simp only [Bool.or_eq_true, beq_iff_eq] at h ⊢
  rcases h with ((h | h) | h) | h
  · exact Or.inl (Or.inl (Or.inl h))
  · exact Or.inl (Or.inl (Or.inr h))
  · exact Or.inl (Or.inr h)
  · exact Or.inr (by rw [h]; decide)

theorem reserved_stated_iff (value : String) :
    RESERVED_NAMES.any (fun r => toLowerCase value == toLowerCase r)
      = includes RESERVED_NAMES (toLowerCase value) := by
  have h1 : toLowerCase "default" = "default" := by decide
  have h2 : toLowerCase "system" = "system" := by decide
  have h3 : toLowerCase "admin" = "admin" := by decide
  have h4 : toLowerCase "root" = "root" := by decide
  have h5 : toLowerCase "null" = "null" := by decide
  have h6 : toLowerCase "undefined" = "undefined" := by decide
  simp only [RESERVED_NAMES, includes, List.any_cons, List.any_nil, h1, h2, h3, h4, h5, h6,
    List.contains_cons, List.contains_nil]

theorem alertNameSchemaAccepts_of_stated (value : String)
    (h : alertNameAcceptedStated value = true) : alertNameSchemaAccepts value = true := by
  unfold alertNameAcceptedStated at h
  unfold alertNameSchemaAccepts matchesAlertNamePattern
  rw [reserved_stated_iff] at h
  simp only [Bool.and_eq_true] at h ⊢
  obtain ⟨⟨⟨h1, h2⟩, h3⟩, h4⟩ := h
  refine ⟨⟨⟨⟨?_, h1⟩, h2⟩, ?_⟩, h4⟩
  · cases hv : value.data with
    | nil => rw [hv] at h3; simp at h3
    | cons c cs =>
      have : value ≠ "" := by
        intro he
        rw [he] at hv
        simp at hv
      simpa using this
  · cases hv : value.data with
    | nil => rw [hv] at h3; simp at h3
    | cons c cs =>
      rw [hv] at h3
      simp only [Bool.and_eq_true, List.all_eq_true] at h3 ⊢
      exact ⟨h3.1, fun d hd => isNameChar_of_stated d (h3.2 d hd)⟩

/-- C25, the code at the failing input: the schema accepts `'Alert\tName'`, a
name with a tab, which the stated rule (spaces only) rejects; the pattern's
class `\s` admits every white-space character. Everything the stated rule
accepts the schema accepts, and the test inputs behave as stated: `'Al'`, 256
times `'A'`, `'Alert@Name!'` and `'default'` are rejected, `'Valid Alert Name'`
is accepted. -/
theorem alertNameSchemaAccepts_tab :
    alertNameSchemaAccepts tabbedAlertName = true
    ∧ alertNameAcceptedStated tabbedAlertName = false
    ∧ (∀ value : String, alertNameAcceptedStated value = true →
        alertNameSchemaAccepts value = true)
    ∧ alertNameSchemaAccepts "Al" = false
    ∧ alertNameSchemaAccepts tooLongAlertName = false
    ∧ alertNameSchemaAccepts "Alert@Name!" = false
    ∧ alertNameSchemaAccepts "default" = false
    ∧ alertNameSchemaAccepts "DEFAULT" = false
    ∧ alertNameSchemaAccepts "Valid Alert Name" = true := by
  refine ⟨by decide, by decide, alertNameSchemaAccepts_of_stated, by decide, by decide!,
    by decide, by decide, by decide, by decide⟩

/-! ### Downtime text read back by `parseInt` -/

theorem digitChar_spec (k : ℕ) (hk : k < 10) :
    (Nat.digitChar k).isDigit = true ∧ (Nat.digitChar k).toNat - 48 = k := by
  interval_cases k <;> decide

theorem toDigitsCore_spec (fuel : ℕ) :
    ∀ (n : ℕ) (ds : List Char), n < fuel →
      ∃ D : List Char, Nat.toDigitsCore 10 fuel n ds = D ++ ds ∧ D ≠ []
        ∧ (∀ c ∈ D, c.isDigit = true)
        ∧ D.foldl (fun (a : ℤ) c => 10 * a + ((c.toNat - 48 : ℕ) : ℤ)) 0 = (n : ℤ) := by
  induction fuel with
  | zero => intro n ds h; exact absurd h (Nat.not_lt_zero n)
  | succ fuel ih =>
    intro n ds h
    have hd := digitChar_spec (n % 10) (Nat.mod_lt n (by norm_num))
    by_cases hq : n / 10 = 0
    · refine ⟨[Nat.digitChar (n % 10)], ?_, by simp, ?_, ?_⟩
      · simp [Nat.toDigitsCore, hq]
      · intro c hc
        rw [List.mem_singleton.1 hc]
        exact hd.1
      · have hn : n % 10 = n := Nat.mod_eq_of_lt (by omega)
        have hd2 := hd.2
        rw [hn] at hd2
        simp only [List.foldl_cons, List.foldl_nil, hn, hd2]
        norm_num
    · have hlt : n / 10 < fuel := by omega
      obtain ⟨D, hD, _, hall, hval⟩ := ih (n / 10) (Nat.digitChar (n % 10) :: ds) hlt
      refine ⟨D ++ [Nat.digitChar (n % 10)], ?_, by simp, ?_, ?_⟩
      · simp [Nat.toDigitsCore, hq, hD]
      · intro c hc
        rcases List.mem_append.1 hc with h1 | h1
        · exact hall c h1
        · rw [List.mem_singleton.1 h1]
          exact hd.1
      · rw [List.foldl_append, hval]
        simp only [List.foldl_cons, List.foldl_nil, hd.2]
        have := Nat.div_add_mod n 10
        omega

theorem natRepr_spec (n : ℕ) :
    (Nat.repr n).data ≠ [] ∧ (∀ c ∈ (Nat.repr n).data, c.isDigit = true)
      ∧ (Nat.repr n).data.foldl (fun (a : ℤ) c => 10 * a + ((c.toNat - 48 : ℕ) : ℤ)) 0
          = (n : ℤ) := by
  obtain ⟨D, hD, hne, hall, hval⟩ := toDigitsCore_spec (n + 1) n [] (Nat.lt_succ_self n)
  have hdata : (Nat.repr n).data = D := by
    show (Nat.toDigits 10 n).asString.data = D
    unfold Nat.toDigits
    rw [hD, List.append_nil]
    rfl
  rw [hdata]
  exact ⟨hne, hall, hval⟩

theorem isDigit_not_special (c : Char) (h : c.isDigit = true) :
    c.isWhitespace = false ∧ c ≠ '-' ∧ c ≠ '+' := by
  refine ⟨?_, ?_, ?_⟩
  · by_contra hw
    have hw2 : c.isWhitespace = true := by simpa using hw
    simp only [Char.isWhitespace, Bool.or_eq_true, decide_eq_true_eq] at hw2
    rcases hw2 with ((rfl | rfl) | rfl) | rfl <;> exact absurd h (by decide)
  · rintro rfl
    exact absurd h (by decide)
  · rintro rfl
    exact absurd h (by decide)

theorem takeWhile_isDigit_append (D rest : List Char) (hall : ∀ c ∈ D, c.isDigit = true)
    (hrest : ∀ c, rest.head? = some c → c.isDigit = false) :
    (D ++ rest).takeWhile Char.isDigit = D := by
  induction D with
  | nil =>
    cases rest with
    | nil => rfl
    | cons r rs =>
      have := hrest r rfl
      simp [List.takeWhile_cons, this]
  | cons d ds ih =>
    have hd := hall d (List.mem_cons_self d ds)
    simp only [List.cons_append, List.takeWhile_cons, hd, if_true]
    rw [ih (fun c hc => hall c (List.mem_cons_of_mem d hc))]

theorem parseInt_digits (D rest : List Char) (n : ℕ) (hne : D ≠ [])
    (hall : ∀ c ∈ D, c.isDigit = true)
    (hval : D.foldl (fun (a : ℤ) c => 10 * a + ((c.toNat - 48 : ℕ) : ℤ)) 0 = (n : ℤ))
    (hrest : ∀ c, rest.head? = some c → c.isDigit = false) :
    parseInt (String.mk (D ++ rest)) = some (n : ℤ) := by
  cases D with
  | nil => exact absurd rfl hne
  | cons d ds =>
    have hd := isDigit_not_special d (hall d (List.mem_cons_self d ds))
    have htw := takeWhile_isDigit_append (d :: ds) rest hall hrest
    have hdrop : ((d :: ds) ++ rest).dropWhile Char.isWhitespace = (d :: ds) ++ rest := by
      simp [List.dropWhile_cons, hd.1]
    have hhead : ((d :: ds) ++ rest).head? = some d := rfl
    have h1 : ¬ (some d = some '-') := fun h => hd.2.1 (Option.some.inj h)
    have h2 : ¬ (some d = some '-' ∨ some d = some '+') := by
      rintro (h | h)
      · exact hd.2.1 (Option.some.inj h)
      · exact hd.2.2 (Option.some.inj h)
    unfold parseInt
    simp only [hdrop, hhead, if_neg h2, htw, if_neg h1, hval]
    simp

theorem parseInt_natRepr_append (n : ℕ) (rest : String)
    (hrest : ∀ c, rest.data.head? = some c → c.isDigit = false) :
    parseInt (Nat.repr n ++ rest) = some (n : ℤ) := by
  obtain ⟨hne, hall, hval⟩ := natRepr_spec n
  have h := parseInt_digits (Nat.repr n).data rest.data n hne hall hval hrest
  rw [← String.data_append] at h
  exact h

theorem minutes_head_not_digit :
    ∀ c, (" minutes" : String).data.head? = some c → c.isDigit = false := by
  intro c hc
  have h : c = ' ' := (Option.some.inj hc).symm
  rw [h]
  decide

theorem hyphen_head_not_digit (rest : String) :
    ∀ c, ("-" ++ rest).data.head? = some c → c.isDigit = false := by
  intro c hc
  rw [String.data_append] at hc
  have h : c = '-' := (Option.some.inj hc).symm
  rw [h]
  decide

theorem extended_not_mem_tierItems (riskLevel : String) (customersAffected : ℚ)
    (criticalServices : List String) (estimatedDowntime : ℚ) :
    "Extended downtime expected - communicate with stakeholders"
      ∉ tierItems riskLevel customersAffected criticalServices estimatedDowntime := by
  unfold tierItems
  split_ifs <;> decide

theorem extended_not_mem_summaryItems (criticalServices : List String) :
    "Extended downtime expected - communicate with stakeholders"
      ∉ summaryItems criticalServices := by
  unfold summaryItems
  split_ifs
  · exact List.not_mem_nil _
  · intro hmem
    have heq := List.mem_singleton.1 hmem
    have h1 : ("Extended downtime expected - communicate with stakeholders" : String).data.head?
        = some 'E' := rfl
    have h2 : ("Critical services affected: " ++ ", ".intercalate criticalServices).data.head?
        = some 'C' := by
      rw [String.data_append]
      rfl
    rw [heq, h2] at h1
    exact absurd (Option.some.inj h1) (by decide)

/-! ### Doubles: the rounding -/

theorem pow2_eq_zpow (e : ℤ) : Js.pow2 e = (2 : ℚ) ^ e := by
  unfold Js.pow2
  split_ifs with h
  · rw [Nat.cast_pow, Nat.cast_ofNat, ← zpow_natCast, Int.toNat_of_nonneg h]
  · have h2 : 0 ≤ -e := by omega
    rw [Nat.cast_pow, Nat.cast_ofNat, ← zpow_natCast, Int.toNat_of_nonneg h2, zpow_neg,
      one_div, inv_inv]

theorem pow2_pos (e : ℤ) : 0 < Js.pow2 e := by
  rw [pow2_eq_zpow]; positivity

theorem log2Fuel_spec (fuel : ℕ) : ∀ n : ℕ, 0 < n → n < 2 ^ fuel →
    2 ^ Js.log2Fuel fuel n ≤ n ∧ n < 2 ^ (Js.log2Fuel fuel n + 1) := by
  induction fuel with
  | zero => intro n h0 h1; simp at h1; omega
  | succ fuel ih =>
    intro n h0 h1
    unfold Js.log2Fuel
    split_ifs with h2
    · simp; omega
    · have h3 : 0 < n / 2 := by omega
      have h4 : n / 2 < 2 ^ fuel := by rw [pow_succ] at h1; omega
      obtain ⟨ha, hb⟩ := ih (n / 2) h3 h4
      rw [pow_succ] at hb
      rw [pow_succ, pow_succ, pow_succ]
      constructor <;> omega

theorem natLog2_spec (n : ℕ) (h : 0 < n) :
    2 ^ Js.natLog2 n ≤ n ∧ n < 2 ^ (Js.natLog2 n + 1) :=
  log2Fuel_spec n n h (Nat.lt_two_pow n)

theorem floorLog2_spec (x : ℚ) (hx : 0 < x) :
    (2 : ℚ) ^ Js.floorLog2 x ≤ x ∧ x < (2 : ℚ) ^ (Js.floorLog2 x + 1) := by
  have hnum : 0 < x.num := Rat.num_pos.2 hx
  have hden : 0 < x.den := x.den_pos
  obtain ⟨a1, a2⟩ := natLog2_spec x.num.natAbs (by omega)
  obtain ⟨b1, b2⟩ := natLog2_spec x.den hden
  have hxe : x = (x.num.natAbs : ℚ) / (x.den : ℚ) := by
    have h1 : ((x.num.natAbs : ℤ) : ℚ) = (x.num : ℚ) := by
      rw [Int.natCast_natAbs, abs_of_pos hnum]
    rw [← Int.cast_natCast, h1]
    exact (Rat.num_div_den x).symm
  have hdq : (0 : ℚ) < (x.den : ℚ) := by exact_mod_cast hden
  have A1 : ((2 : ℚ) ^ Js.natLog2 x.num.natAbs) ≤ (x.num.natAbs : ℚ) := by exact_mod_cast a1
  have A2 : (x.num.natAbs : ℚ) < (2 : ℚ) ^ (Js.natLog2 x.num.natAbs + 1) := by exact_mod_cast a2
  have B1 : ((2 : ℚ) ^ Js.natLog2 x.den) ≤ (x.den : ℚ) := by exact_mod_cast b1
  have B2 : (x.den : ℚ) < (2 : ℚ) ^ (Js.natLog2 x.den + 1) := by exact_mod_cast b2
  set a := Js.natLog2 x.num.natAbs
  set b := Js.natLog2 x.den
  have two : (2 : ℚ) ≠ 0 := by norm_num
  -- bounds on x
  have up : x < (2 : ℚ) ^ ((a : ℤ) - (b : ℤ) + 1) := by
    rw [show ((a : ℤ) - (b : ℤ) + 1) = ((a + 1 : ℕ) : ℤ) - (b : ℤ) by push_cast; ring,
      zpow_sub₀ two, zpow_natCast, zpow_natCast, hxe, div_lt_div_iff₀ hdq (by positivity)]
    calc (x.num.natAbs : ℚ) * 2 ^ b < 2 ^ (a + 1) * 2 ^ b := by
          exact mul_lt_mul_of_pos_right A2 (by positivity)
      _ ≤ 2 ^ (a + 1) * (x.den : ℚ) := by
          exact mul_le_mul_of_nonneg_left B1 (by positivity)
  have lo : (2 : ℚ) ^ ((a : ℤ) - (b : ℤ) - 1) < x := by
    rw [show ((a : ℤ) - (b : ℤ) - 1) = (a : ℤ) - ((b + 1 : ℕ) : ℤ) by push_cast; ring,
      zpow_sub₀ two, zpow_natCast, zpow_natCast]
    rw [hxe, div_lt_div_iff₀ (by positivity) hdq]
    calc (2 : ℚ) ^ a * (x.den : ℚ) < 2 ^ a * 2 ^ (b + 1) := by
          exact mul_lt_mul_of_pos_left B2 (by positivity)
      _ ≤ (x.num.natAbs : ℚ) * 2 ^ (b + 1) := by
          exact mul_le_mul_of_nonneg_right A1 (by positivity)
  unfold Js.floorLog2
  simp only []
  rw [pow2_eq_zpow]
  split_ifs with h
  · constructor
    · exact le_of_lt lo
    · rw [sub_add_cancel]; exact h
  · exact ⟨not_lt.1 h, up⟩

theorem roundHalfEven_intCast (m : ℤ) : Js.roundHalfEven (m : ℚ) = m := by
  unfold Js.roundHalfEven
  simp

/-- Every integer from `1` to `2^53` is a double. -/
theorem roundDouble_natCast (n : ℕ) (h : n ≤ 2 ^ 53) :
    Js.roundDouble (n : ℚ) = Js.Number.fin (n : ℚ) := by
  rcases Nat.eq_zero_or_pos n with rfl | hpos
  · simp [Js.roundDouble]
  have hx : (0 : ℚ) < (n : ℚ) := by exact_mod_cast hpos
  obtain ⟨e1, e2⟩ := floorLog2_spec (n : ℚ) hx
  have hle : (n : ℚ) ≤ (2 : ℚ) ^ (53 : ℤ) := by
    rw [show (53 : ℤ) = ((53 : ℕ) : ℤ) from rfl, zpow_natCast]
    exact_mod_cast h
  have hone : (1 : ℚ) ≤ (n : ℚ) := by exact_mod_cast hpos
  have he0 : 0 ≤ Js.floorLog2 (n : ℚ) := by
    by_contra hc
    have : Js.floorLog2 (n : ℚ) + 1 ≤ 0 := by omega
    have h3 : (2 : ℚ) ^ (Js.floorLog2 (n : ℚ) + 1) ≤ (2 : ℚ) ^ (0 : ℤ) :=
      zpow_le_zpow_right₀ (by norm_num) this
    rw [zpow_zero] at h3
    linarith
  have he53 : Js.floorLog2 (n : ℚ) ≤ 53 := by
    have h3 : (2 : ℚ) ^ Js.floorLog2 (n : ℚ) ≤ (2 : ℚ) ^ (53 : ℤ) := le_trans e1 hle
    exact (zpow_le_zpow_iff_right₀ (by norm_num)).1 h3
  unfold Js.roundDouble
  rw [if_neg (ne_of_gt hx), abs_of_pos hx]
  simp only [if_pos hx]
  have hq : max (Js.floorLog2 (n : ℚ) - 52) (-1074) = Js.floorLog2 (n : ℚ) - 52 := by
    apply max_eq_left; omega
  rw [hq]
  set e := Js.floorLog2 (n : ℚ) with he
  -- the scaled value is an integer
  have key : ∃ m : ℤ, (n : ℚ) / Js.pow2 (e - 52) = (m : ℚ) := by
    rcases le_or_lt e 52 with h52 | h52
    · refine ⟨(n : ℤ) * 2 ^ (52 - e).toNat, ?_⟩
      rw [pow2_eq_zpow]
      have : (2 : ℚ) ^ (e - 52) = ((2 : ℚ) ^ (52 - e).toNat)⁻¹ := by
        rw [← zpow_natCast, Int.toNat_of_nonneg (by omega), ← zpow_neg]
        congr 1; ring
      rw [this]
      push_cast
      rw [div_inv_eq_mul]
    · have he53' : e = 53 := by omega
      have hn : (n : ℚ) = (2 : ℚ) ^ (53 : ℤ) := by
        apply le_antisymm hle
        rw [he53'] at e1; exact e1
      refine ⟨2 ^ 52, ?_⟩
      rw [pow2_eq_zpow, he53', hn]
      norm_num
  obtain ⟨m, hm⟩ := key
  rw [hm, roundHalfEven_intCast, ← hm, div_mul_cancel₀ _ (ne_of_gt (pow2_pos _))]
  rw [if_neg]
  rw [pow2_eq_zpow, not_le]
  calc (n : ℚ) ≤ (2 : ℚ) ^ (53 : ℤ) := hle
    _ < (2 : ℚ) ^ (1024 : ℤ) := zpow_lt_zpow_right₀ (by norm_num) (by norm_num)

/-- The double of a non-negative real is a non-negative finite number or
`+∞`. -/
theorem roundDouble_nonneg (x : ℚ) (hx : 0 ≤ x) :
    (∃ v : ℚ, 0 ≤ v ∧ Js.roundDouble x = Js.Number.fin v) ∨ Js.roundDouble x = Js.Number.posInf := by
  rcases eq_or_lt_of_le hx with h0 | hpos
  · left; exact ⟨0, le_refl _, by simp [Js.roundDouble, ← h0]⟩
  unfold Js.roundDouble
  rw [if_neg (ne_of_gt hpos), abs_of_pos hpos]
  simp only [if_pos hpos]
  split_ifs with h
  · right; rfl
  · left
    refine ⟨_, ?_, rfl⟩
    apply mul_nonneg _ (le_of_lt (pow2_pos _))
    have : 0 ≤ x / Js.pow2 (max (Js.floorLog2 x - 52) (-1074)) :=
      div_nonneg hx (le_of_lt (pow2_pos _))
    have h2 : 0 ≤ Js.roundHalfEven (x / Js.pow2 (max (Js.floorLog2 x - 52) (-1074))) := by
      unfold Js.roundHalfEven
      have hf : 0 ≤ ⌊x / Js.pow2 (max (Js.floorLog2 x - 52) (-1074))⌋ := Int.floor_nonneg.2 this
      split_ifs <;> omega
    exact_mod_cast h2

theorem roundHalfEven_bounds (y : ℚ) :
    ⌊y⌋ ≤ Js.roundHalfEven y ∧ Js.roundHalfEven y ≤ ⌊y⌋ + 1 := by
  unfold Js.roundHalfEven
  split_ifs <;> omega

theorem roundHalfEven_mono (a b : ℚ) (h : a ≤ b) : Js.roundHalfEven a ≤ Js.roundHalfEven b := by
  have hf : ⌊a⌋ ≤ ⌊b⌋ := Int.floor_mono h
  rcases lt_or_eq_of_le hf with hlt | heq
  · have := (roundHalfEven_bounds a).2
    have := (roundHalfEven_bounds b).1
    omega
  · unfold Js.roundHalfEven
    rw [← heq]
    have hfrac : a - (⌊a⌋ : ℚ) ≤ b - (⌊a⌋ : ℚ) := by linarith
    split_ifs <;> first | omega | (exfalso; linarith)

/-- An integer bound is kept by the rounding. -/
theorem roundHalfEven_le_of_le_intCast (y : ℚ) (B : ℤ) (h : y ≤ (B : ℚ)) :
    Js.roundHalfEven y ≤ B := by
  have := roundHalfEven_mono y B h
  rwa [roundHalfEven_intCast] at this

theorem intCast_le_roundHalfEven (y : ℚ) (B : ℤ) (h : (B : ℚ) ≤ y) :
    B ≤ Js.roundHalfEven y := by
  have := roundHalfEven_mono B y h
  rwa [roundHalfEven_intCast] at this

/-- The finite value the rounding of a positive real would have without the
overflow check. -/
theorem roundDouble_pos (x : ℚ) (hx : 0 < x) :
    Js.roundDouble x =
      (if Js.pow2 1024 ≤ (Js.roundHalfEven (x / Js.pow2 (max (Js.floorLog2 x - 52) (-1074))) : ℚ)
            * Js.pow2 (max (Js.floorLog2 x - 52) (-1074)) then Js.Number.posInf
        else Js.Number.fin ((Js.roundHalfEven
            (x / Js.pow2 (max (Js.floorLog2 x - 52) (-1074))) : ℚ)
          * Js.pow2 (max (Js.floorLog2 x - 52) (-1074)))) := by
  unfold Js.roundDouble
  rw [if_neg (ne_of_gt hx), abs_of_pos hx]
  simp only [if_pos hx]

theorem floorLog2_mono (x y : ℚ) (hx : 0 < x) (h : x ≤ y) : Js.floorLog2 x ≤ Js.floorLog2 y := by
  have hy : 0 < y := lt_of_lt_of_le hx h
  obtain ⟨x1, _⟩ := floorLog2_spec x hx
  obtain ⟨_, y2⟩ := floorLog2_spec y hy
  have : (2 : ℚ) ^ Js.floorLog2 x < (2 : ℚ) ^ (Js.floorLog2 y + 1) := by linarith
  have := (zpow_lt_zpow_iff_right₀ (by norm_num : (1 : ℚ) < 2)).1 this
  omega

/-- The scaled significand of a positive real, before rounding. -/
theorem scaled_mono_value (x y : ℚ) (hx : 0 < x) (h : x ≤ y) :
    (Js.roundHalfEven (x / Js.pow2 (max (Js.floorLog2 x - 52) (-1074))) : ℚ)
        * Js.pow2 (max (Js.floorLog2 x - 52) (-1074))
      ≤ (Js.roundHalfEven (y / Js.pow2 (max (Js.floorLog2 y - 52) (-1074))) : ℚ)
        * Js.pow2 (max (Js.floorLog2 y - 52) (-1074)) := by
  have hy : 0 < y := lt_of_lt_of_le hx h
  have he := floorLog2_mono x y hx h
  obtain ⟨x1, x2⟩ := floorLog2_spec x hx
  obtain ⟨y1, y2⟩ := floorLog2_spec y hy
  set ex := Js.floorLog2 x
  set ey := Js.floorLog2 y
  rcases eq_or_lt_of_le (max_le_max (sub_le_sub_right he 52) (le_refl (-1074 : ℤ))) with hq | hq
  · rw [← hq]
    apply mul_le_mul_of_nonneg_right _ (le_of_lt (pow2_pos _))
    have : x / Js.pow2 (max (ex - 52) (-1074)) ≤ y / Js.pow2 (max (ex - 52) (-1074)) :=
      div_le_div_of_nonneg_right h (le_of_lt (pow2_pos _))
    exact_mod_cast roundHalfEven_mono _ _ this
  · -- the exponents differ: a power of two separates the two values
    have hqy : max (ey - 52) (-1074) = ey - 52 := by
      apply max_eq_left
      have : (-1074 : ℤ) ≤ max (ex - 52) (-1074) := le_max_right _ _
      by_contra hc
      rw [max_eq_right (by omega)] at hq
      omega
    have hlt : ex < ey := by
      by_contra hc
      have : ex = ey := by omega
      rw [this] at hq
      exact lt_irrefl _ hq
    have hqx : ex - 52 ≤ max (ex - 52) (-1074) := le_max_left _ _
    set qx := max (ex - 52) (-1074)
    rw [hqy]
    have two : (2 : ℚ) ≠ 0 := by norm_num
    have hqxy : qx < ey - 52 := by rw [hqy] at hq; exact hq
    -- upper bound for the value of x
    have ux : (Js.roundHalfEven (x / Js.pow2 qx) : ℚ) * Js.pow2 qx ≤ (2 : ℚ) ^ ey := by
      rcases le_or_lt 0 (ex + 1 - qx) with hk | hk
      · have hB : (((2 : ℤ) ^ (ex + 1 - qx).toNat : ℤ) : ℚ) = (2 : ℚ) ^ (ex + 1 - qx) := by
          rw [Int.cast_pow, Int.cast_ofNat, ← zpow_natCast, Int.toNat_of_nonneg hk]
        have hb : x / Js.pow2 qx ≤ (((2 : ℤ) ^ (ex + 1 - qx).toNat : ℤ) : ℚ) := by
          rw [hB, div_le_iff₀ (pow2_pos _), pow2_eq_zpow, ← zpow_add₀ two,
            show ex + 1 - qx + qx = ex + 1 by ring]
          exact le_of_lt x2
        have h3 : (Js.roundHalfEven (x / Js.pow2 qx) : ℚ)
            ≤ (((2 : ℤ) ^ (ex + 1 - qx).toNat : ℤ) : ℚ) := by
          exact_mod_cast roundHalfEven_le_of_le_intCast _ _ hb
        calc (Js.roundHalfEven (x / Js.pow2 qx) : ℚ) * Js.pow2 qx
            ≤ (((2 : ℤ) ^ (ex + 1 - qx).toNat : ℤ) : ℚ) * Js.pow2 qx :=
              mul_le_mul_of_nonneg_right h3 (le_of_lt (pow2_pos _))
          _ = (2 : ℚ) ^ (ex + 1) := by
              rw [hB, pow2_eq_zpow, ← zpow_add₀ two, show ex + 1 - qx + qx = ex + 1 by ring]
          _ ≤ (2 : ℚ) ^ ey := zpow_le_zpow_right₀ (by norm_num) (by omega)
      · have hb : x / Js.pow2 qx ≤ ((1 : ℤ) : ℚ) := by
          rw [div_le_iff₀ (pow2_pos _), pow2_eq_zpow, Int.cast_one, one_mul]
          have : (2 : ℚ) ^ (ex + 1) ≤ (2 : ℚ) ^ qx :=
            zpow_le_zpow_right₀ (by norm_num) (by omega)
          linarith
        have h3 : (Js.roundHalfEven (x / Js.pow2 qx) : ℚ) ≤ ((1 : ℤ) : ℚ) := by
          exact_mod_cast roundHalfEven_le_of_le_intCast _ _ hb
        calc (Js.roundHalfEven (x / Js.pow2 qx) : ℚ) * Js.pow2 qx
            ≤ ((1 : ℤ) : ℚ) * Js.pow2 qx :=
              mul_le_mul_of_nonneg_right h3 (le_of_lt (pow2_pos _))
          _ = (2 : ℚ) ^ qx := by rw [Int.cast_one, one_mul, pow2_eq_zpow]
          _ ≤ (2 : ℚ) ^ ey := zpow_le_zpow_right₀ (by norm_num) (by omega)
    have ly : (2 : ℚ) ^ ey ≤ (Js.roundHalfEven (y / Js.pow2 (ey - 52)) : ℚ) * Js.pow2 (ey - 52) := by
      have hB : (((2 : ℤ) ^ 52 : ℤ) : ℚ) = (2 : ℚ) ^ (52 : ℤ) := by norm_num
      have hb : (((2 : ℤ) ^ 52 : ℤ) : ℚ) ≤ y / Js.pow2 (ey - 52) := by
        rw [hB, le_div_iff₀ (pow2_pos _), pow2_eq_zpow, ← zpow_add₀ two,
          show (52 : ℤ) + (ey - 52) = ey by ring]
        exact y1
      have h3 : (((2 : ℤ) ^ 52 : ℤ) : ℚ) ≤ (Js.roundHalfEven (y / Js.pow2 (ey - 52)) : ℚ) := by
        exact_mod_cast intCast_le_roundHalfEven _ _ hb
      calc (2 : ℚ) ^ ey = (((2 : ℤ) ^ 52 : ℤ) : ℚ) * Js.pow2 (ey - 52) := by
            rw [hB, pow2_eq_zpow, ← zpow_add₀ two, show (52 : ℤ) + (ey - 52) = ey by ring]
        _ ≤ _ := mul_le_mul_of_nonneg_right h3 (le_of_lt (pow2_pos _))
    linarith

/-- Rounding to a double keeps the order: positive arguments. -/
theorem roundDouble_mono_pos (x y : ℚ) (hx : 0 < x) (h : x ≤ y) :
    Js.ge (Js.roundDouble y) (Js.roundDouble x) = true := by
  have hy : 0 < y := lt_of_lt_of_le hx h
  have hv := scaled_mono_value x y hx h
  rw [roundDouble_pos x hx, roundDouble_pos y hy]
  by_cases h1 : Js.pow2 1024 ≤ (Js.roundHalfEven
      (y / Js.pow2 (max (Js.floorLog2 y - 52) (-1074))) : ℚ)
        * Js.pow2 (max (Js.floorLog2 y - 52) (-1074))
  · rw [if_pos h1]
    split_ifs <;> rfl
  · rw [if_neg h1, if_neg (fun h2 => h1 (le_trans h2 hv))]
    simp only [Js.ge, decide_eq_true_eq]
    exact hv

/-- A positive multiple `m * 2^q` of a power of two with `q ≥ -1074`, below
`2^(q+53)` and below `2^1024`, is a double. -/
theorem roundDouble_of_grid (v : ℚ) (m q : ℤ) (hv : 0 < v) (hm : v = (m : ℚ) * (2 : ℚ) ^ q)
    (hq : -1074 ≤ q) (hlt : v < (2 : ℚ) ^ (q + 53)) (hfin : v < (2 : ℚ) ^ (1024 : ℤ)) :
    Js.roundDouble v = Js.Number.fin v := by
  have two : (2 : ℚ) ≠ 0 := by norm_num
  obtain ⟨e1, e2⟩ := floorLog2_spec v hv
  have he : Js.floorLog2 v < q + 53 :=
    (zpow_lt_zpow_iff_right₀ (by norm_num : (1 : ℚ) < 2)).1 (lt_of_le_of_lt e1 hlt)
  have hq2 : max (Js.floorLog2 v - 52) (-1074) ≤ q := max_le (by omega) hq
  rw [roundDouble_pos v hv]
  set q2 := max (Js.floorLog2 v - 52) (-1074)
  have hk : 0 ≤ q - q2 := by omega
  have hscaled : v / Js.pow2 q2 = ((m * (2 : ℤ) ^ (q - q2).toNat : ℤ) : ℚ) := by
    rw [pow2_eq_zpow, hm, Int.cast_mul, Int.cast_pow, Int.cast_ofNat, ← zpow_natCast,
      Int.toNat_of_nonneg hk, div_eq_iff (by positivity), mul_assoc, ← zpow_add₀ two,
      show q - q2 + q2 = q by ring]
  rw [hscaled, roundHalfEven_intCast, ← hscaled, div_mul_cancel₀ _ (ne_of_gt (pow2_pos _)),
    if_neg]
  rw [pow2_eq_zpow, not_le]
  exact hfin

/-- A finite result of the rounding is a double: rounding it again changes
nothing. -/
theorem roundDouble_idem_pos (x v : ℚ) (hx : 0 < x) (h : Js.roundDouble x = Js.Number.fin v) :
    Js.roundDouble v = Js.Number.fin v := by
  have two : (2 : ℚ) ≠ 0 := by norm_num
  obtain ⟨x1, x2⟩ := floorLog2_spec x hx
  rw [roundDouble_pos x hx] at h
  set q := max (Js.floorLog2 x - 52) (-1074) with hqdef
  set m := Js.roundHalfEven (x / Js.pow2 q) with hmdef
  by_cases hov : Js.pow2 1024 ≤ (m : ℚ) * Js.pow2 q
  · rw [if_pos hov] at h; cases h
  rw [if_neg hov] at h
  injection h with hval
  simp only [pow2_eq_zpow] at hov hval
  have hfin : v < (2 : ℚ) ^ (1024 : ℤ) := by rw [← hval]; exact not_le.1 hov
  have hq : -1074 ≤ q := le_max_right _ _
  have hqe : Js.floorLog2 x - 52 ≤ q := le_max_left _ _
  -- the significand is at most 2^53
  have hB : (((2 : ℤ) ^ 53 : ℤ) : ℚ) = (2 : ℚ) ^ (53 : ℤ) := by norm_num
  have hm53 : m ≤ (2 : ℤ) ^ 53 := by
    apply roundHalfEven_le_of_le_intCast
    rw [hB, div_le_iff₀ (pow2_pos _), pow2_eq_zpow, ← zpow_add₀ two]
    have : (2 : ℚ) ^ (Js.floorLog2 x + 1) ≤ (2 : ℚ) ^ (53 + q) :=
      zpow_le_zpow_right₀ (by norm_num) (by omega)
    linarith
  have hm0 : 0 ≤ m := by
    have : ((0 : ℤ) : ℚ) ≤ x / Js.pow2 q := by
      rw [Int.cast_zero]; exact div_nonneg (le_of_lt hx) (le_of_lt (pow2_pos _))
    exact intCast_le_roundHalfEven _ _ this
  rcases eq_or_lt_of_le hm0 with h0 | hpos
  · rw [← h0, Int.cast_zero, zero_mul] at hval
    rw [← hval]
    simp [Js.roundDouble]
  have hvpos : 0 < v := by
    rw [← hval]
    have : (0 : ℚ) < (m : ℚ) := by exact_mod_cast hpos
    positivity
  rcases eq_or_lt_of_le hm53 with h53 | hlt53
  · apply roundDouble_of_grid v ((2 : ℤ) ^ 52) (q + 1) hvpos _ (by omega) _ hfin
    · rw [← hval, h53]
      have hC : (((2 : ℤ) ^ 52 : ℤ) : ℚ) = (2 : ℚ) ^ (52 : ℤ) := by norm_num
      rw [hB, hC, ← zpow_add₀ two, ← zpow_add₀ two]
      congr 1; ring
    · rw [← hval, h53, hB, ← zpow_add₀ two]
      exact zpow_lt_zpow_right₀ (by norm_num) (by omega)
  · apply roundDouble_of_grid v m q hvpos hval.symm hq _ hfin
    rw [← hval, show q + 53 = 53 + q by ring, zpow_add₀ two]
    apply mul_lt_mul_of_pos_right _ (by positivity)
    rw [← hB]
    exact_mod_cast hlt53

theorem roundDouble_neg (x : ℚ) : Js.roundDouble (-x) = Js.neg (Js.roundDouble x) := by
  rcases lt_trichotomy x 0 with h | h | h
  · have h1 : 0 < -x := by linarith
    have h2 : ¬ (0 < x) := by linarith
    unfold Js.roundDouble
    rw [if_neg (ne_of_gt h1), if_neg (ne_of_lt h), abs_neg]
    simp only [if_pos h1, if_neg h2]
    split_ifs <;> simp [Js.neg]
  · subst h
    simp [Js.roundDouble, Js.neg]
  · have h1 : ¬ (0 < -x) := by linarith
    unfold Js.roundDouble
    rw [if_neg (by linarith : ¬ (-x = 0)), if_neg (ne_of_gt h), abs_neg]
    simp only [if_pos h, if_neg h1]
    split_ifs <;> simp [Js.neg]

theorem roundDouble_idem (x v : ℚ) (h : Js.roundDouble x = Js.Number.fin v) :
    Js.roundDouble v = Js.Number.fin v := by
  rcases lt_trichotomy x 0 with hx | hx | hx
  · have h1 : Js.roundDouble (-x) = Js.Number.fin (-v) := by
      rw [roundDouble_neg, h]; rfl
    have h2 := roundDouble_idem_pos (-x) (-v) (by linarith) h1
    have h3 := roundDouble_neg (-v)
    rw [neg_neg, h2] at h3
    rw [h3]; simp [Js.neg]
  · subst hx
    have : v = 0 := by
      simp [Js.roundDouble] at h
      exact h.symm
    subst this
    simp [Js.roundDouble]
  · exact roundDouble_idem_pos x v hx h

theorem ge_neg_neg (a b : Js.Number) : Js.ge (Js.neg a) (Js.neg b) = Js.ge b a := by
  cases a <;> cases b <;> simp [Js.ge, Js.neg]

/-- Rounding to a double keeps the order. -/
theorem roundDouble_mono (x y : ℚ) (h : x ≤ y) :
    Js.ge (Js.roundDouble y) (Js.roundDouble x) = true := by
  rcases lt_or_le 0 x with hx | hx
  · exact roundDouble_mono_pos x y hx h
  · rcases lt_or_le y 0 with hy | hy
    · have := roundDouble_mono_pos (-y) (-x) (by linarith) (by linarith)
      rw [roundDouble_neg, roundDouble_neg, ge_neg_neg] at this
      exact this
    · have hX : (∃ v : ℚ, 0 ≤ v ∧ Js.roundDouble (-x) = Js.Number.fin v)
          ∨ Js.roundDouble (-x) = Js.Number.posInf := roundDouble_nonneg (-x) (by linarith)
      have hY := roundDouble_nonneg y hy
      have hxx : Js.roundDouble x = Js.neg (Js.roundDouble (-x)) := by
        rw [← roundDouble_neg, neg_neg]
      rw [hxx]
      rcases hX with ⟨a, ha, hae⟩ | hae <;> rcases hY with ⟨b, hb, hbe⟩ | hbe <;>
        rw [hae, hbe] <;> simp [Js.ge, Js.neg]
      linarith

/-! ### Property reads and dependent alerts, with inherited names -/

theorem hasNoInheritedName_iff (services : List String) :
    hasNoInheritedName services = true ↔ ∀ s ∈ services, s ∉ Js.OBJECT_PROTOTYPE_NAMES := by
  simp [hasNoInheritedName]

theorem getProperty_of_not_inherited {α : Type} (table : List (String × α)) (key : String)
    (h : key ∉ Js.OBJECT_PROTOTYPE_NAMES) :
    Js.getProperty table key =
      match table.lookup key with
      | some value => Js.Property.own value
      | none => Js.Property.undefined := by
  unfold Js.getProperty
  cases table.lookup key with
  | none => simp only [if_neg h]
  | some v => rfl

theorem lookup_dependencies_of_inherited (key : String) (h : key ∈ Js.OBJECT_PROTOTYPE_NAMES) :
    SERVICE_DEPENDENCIES.lookup key = none := by
  simp only [Js.OBJECT_PROTOTYPE_NAMES, List.mem_cons, List.mem_singleton, List.not_mem_nil,
    or_false] at h
  rcases h with rfl | rfl | rfl | rfl | rfl | rfl | rfl | rfl | rfl | rfl | rfl | rfl <;> decide

theorem lookup_multipliers_of_inherited (key : String) (h : key ∈ Js.OBJECT_PROTOTYPE_NAMES) :
    SERVICE_IMPACT_MULTIPLIERS.lookup key = none := by
  simp only [Js.OBJECT_PROTOTYPE_NAMES, List.mem_cons, List.mem_singleton, List.not_mem_nil,
    or_false] at h
  rcases h with rfl | rfl | rfl | rfl | rfl | rfl | rfl | rfl | rfl | rfl | rfl | rfl <;> decide!

theorem getProperty_dependencies_of_inherited (key : String)
    (h : key ∈ Js.OBJECT_PROTOTYPE_NAMES) :
    Js.getProperty SERVICE_DEPENDENCIES key = Js.Property.inherited := by
  unfold Js.getProperty
  rw [lookup_dependencies_of_inherited key h]
  simp only [if_pos h]

theorem addServiceAlerts_double_of_not_inherited (set : List String) (service : String)
    (h : service ∉ Js.OBJECT_PROTOTYPE_NAMES) :
    Js.addServiceAlerts (some set) service = some (addServiceAlerts set service) := by
  unfold Js.addServiceAlerts addServiceAlerts
  rw [getProperty_of_not_inherited _ _ h]
  cases SERVICE_DEPENDENCIES.lookup service with
  | none => rfl
  | some deps => rfl

theorem foldl_addServiceAlerts_double (services : List String) :
    ∀ set : List String, (∀ s ∈ services, s ∉ Js.OBJECT_PROTOTYPE_NAMES) →
      services.foldl Js.addServiceAlerts (some set)
        = some (services.foldl addServiceAlerts set) := by
  induction services with
  | nil => intro set _; rfl
  | cons s rest ih =>
    intro set h
    rw [List.foldl_cons, List.foldl_cons,
      addServiceAlerts_double_of_not_inherited set s (h s (List.mem_cons_self _ _))]
    exact ih _ (fun t ht => h t (List.mem_cons_of_mem _ ht))

theorem foldl_addServiceAlerts_double_none (services : List String) :
    services.foldl Js.addServiceAlerts none = none := by
  induction services with
  | nil => rfl
  | cons s rest ih => rw [List.foldl_cons]; exact ih

theorem foldl_addServiceAlerts_double_inherited (services : List String) :
    ∀ acc : Option (List String), (∃ s ∈ services, s ∈ Js.OBJECT_PROTOTYPE_NAMES) →
      services.foldl Js.addServiceAlerts acc = none := by
  induction services with
  | nil => intro acc h; obtain ⟨s, hs, _⟩ := h; cases hs
  | cons s rest ih =>
    intro acc h
    rw [List.foldl_cons]
    by_cases hs : s ∈ Js.OBJECT_PROTOTYPE_NAMES
    · have : Js.addServiceAlerts acc s = none := by
        unfold Js.addServiceAlerts
        cases acc with
        | none => rfl
        | some set => simp only [getProperty_dependencies_of_inherited s hs]
      rw [this]
      exact foldl_addServiceAlerts_double_none rest
    · apply ih
      obtain ⟨t, ht, hti⟩ := h
      rcases List.mem_cons.1 ht with rfl | ht2
      · exact absurd hti hs
      · exact ⟨t, ht2, hti⟩

/-- What `findDependentAlerts` does: it throws when a service is named like an
inherited property, and otherwise filters the collected set. -/
theorem findDependentAlerts_double_eq (alertName : String) (services : List String) :
    Js.findDependentAlerts alertName services =
      if hasNoInheritedName services = true then
        some ((collectDependentAlerts services).filter
          (fun alert => Js.toLowerCase alert != Js.toLowerCase alertName))
      else none := by
  by_cases h : hasNoInheritedName services = true
  · rw [if_pos h]
    unfold Js.findDependentAlerts
    rw [foldl_addServiceAlerts_double services [] ((hasNoInheritedName_iff services).1 h)]
    rfl
  · rw [if_neg h]
    have h2 : ∃ s ∈ services, s ∈ Js.OBJECT_PROTOTYPE_NAMES := by
      by_contra hc
      push_neg at hc
      exact h ((hasNoInheritedName_iff services).2 hc)
    unfold Js.findDependentAlerts
    rw [foldl_addServiceAlerts_double_inherited services _ h2]

theorem mem_collectDependentAlerts (services : List String) (x : String) :
    x ∈ collectDependentAlerts services ↔
      (x ∈ dependencyLabels services ∨ x ∈ commonLabels services) := by
  have hpay := includes_identifyCriticalServices services "payment-processing" (by decide)
  have hauth := includes_identifyCriticalServices services "user-authentication" (by decide)
  have hpos := identifyCriticalServices_length_pos_iff services
  unfold collectDependentAlerts commonLabels
  rw [mem_dependencyLabels]
  by_cases hc : ∀ s ∈ services, s ∉ CRITICAL_SERVICES
  · have hlen : ¬ (identifyCriticalServices services).length > 0 := by
      rw [hpos]; exact not_not.2 hc
    simp only [if_neg hlen, if_pos hc, mem_foldl_addServiceAlerts, List.not_mem_nil, false_or,
      or_false]
  · have hlen : (identifyCriticalServices services).length > 0 := hpos.2 hc
    simp only [if_pos hlen, if_neg hc]
    by_cases h1 : "payment-processing" ∈ services <;>
    by_cases h2 : "user-authentication" ∈ services <;>
    simp only [hpay.2, hauth.2, h1, h2, hpay, hauth, if_true, if_false, mem_setAdd,
      mem_foldl_addServiceAlerts, List.not_mem_nil, false_or, List.mem_append, List.mem_cons,
      List.mem_singleton, or_false, or_assoc, List.append_nil, not_false_eq_true,
      Bool.false_eq_true]

theorem collectDependentAlerts_of_not_critical (services : List String)
    (h : ∀ s ∈ services, s ∉ CRITICAL_SERVICES) :
    collectDependentAlerts services = [] := by
  rw [List.eq_nil_iff_forall_not_mem]
  intro x hx
  rw [mem_collectDependentAlerts, mem_dependencyLabels] at hx
  rcases hx with ⟨s, hs, d, hd, _⟩ | hc
  · rw [lookup_dependencies_of_not_critical s (h s hs)] at hd
    simp at hd
  · unfold commonLabels at hc
    rw [if_pos h] at hc
    simp at hc

/-- C6: the code does not return the stated set for every list. For
`['constructor']` the read `SERVICE_DEPENDENCIES['constructor']` finds the
function inherited from `Object.prototype`, `|| []` keeps it and the loop over it
throws: `findDependentAlerts` returns nothing, where the claim gives the empty
set. For a list without such a name the result is a list whose members are
exactly the labels of `G ∪ C` that differ from `alertName` when both are
lower-cased as JavaScript does it; on `('Database CPU Alert',
['payment-processing'])` these are the ten listed labels, and a name written with
the Kelvin sign for `k` removes `'Checkout Service Alert'`. -/
theorem findDependentAlerts_inherited_name_throws :
    Js.findDependentAlerts "Database CPU Alert" ["constructor"] = none
    ∧ dependencyLabels ["constructor"] = []
    ∧ commonLabels ["constructor"] = []
    ∧ (∀ (alertName : String) (affectedServices : List String),
        hasNoInheritedName affectedServices = false →
          Js.findDependentAlerts alertName affectedServices = none)
    ∧ (∀ (alertName : String) (affectedServices : List String),
        hasNoInheritedName affectedServices = true →
          ∃ labels : List String,
            Js.findDependentAlerts alertName affectedServices = some labels
            ∧ ∀ label : String, label ∈ labels ↔
                (label ∈ dependencyLabels affectedServices
                    ∨ label ∈ commonLabels affectedServices)
                  ∧ Js.toLowerCase label ≠ Js.toLowerCase alertName)
    ∧ Js.findDependentAlerts "Database CPU Alert" ["payment-processing"]
        = some ["Billing Service Alert", "Billing Service Failure Alert",
           "Fraud Detection Alert", "Fraud Detection Failure Alert",
           "Order Management Alert", "Order Management Failure Alert",
           "Downstream Service Alert", "Cascade Failure Alert",
           "Payment Failure Alert", "Transaction Processing Alert"]
    ∧ (Js.findDependentAlerts "Chec\u212Aout Service Alert" ["user-authentication"]).map
        (fun labels => decide ("Checkout Service Alert" ∈ labels)) = some false
    ∧ (Js.findDependentAlerts "Database CPU Alert" ["user-authentication"]).map
        (fun labels => decide ("Checkout Service Alert" ∈ labels)) = some true := by
  refine ⟨by decide, by decide, by decide, ?_, ?_, by decide, by decide, by decide⟩
  · intro alertName affectedServices h
    rw [findDependentAlerts_double_eq, h]
    rfl
  · intro alertName affectedServices h
    refine ⟨_, by rw [findDependentAlerts_double_eq, if_pos h], ?_⟩
    intro label
    rw [List.mem_filter, mem_collectDependentAlerts]
    simp

/-- The general parts of C6 at `['payment-processing', 'logging-service']` and
at `['toString']`. -/
theorem findDependentAlerts_inherited_name_throws_witness :
    hasNoInheritedName ["toString"] = false
    ∧ Js.findDependentAlerts "Database CPU Alert" ["toString"] = none
    ∧ hasNoInheritedName ["payment-processing", "logging-service"] = true
    ∧ ∃ labels : List String,
        Js.findDependentAlerts "Database CPU Alert" ["payment-processing", "logging-service"]
          = some labels
        ∧ ∀ label : String, label ∈ labels ↔
            (label ∈ dependencyLabels ["payment-processing", "logging-service"]
                ∨ label ∈ commonLabels ["payment-processing", "logging-service"])
              ∧ Js.toLowerCase label ≠ Js.toLowerCase "Database CPU Alert" :=
  ⟨by decide, findDependentAlerts_inherited_name_throws.2.2.2.1 _ _ (by decide), by decide,
    findDependentAlerts_inherited_name_throws.2.2.2.2.1 _ _ (by decide)⟩

/-- C27: a list without critical members can make the code throw where the
claim gives the empty list: `'constructor'` is not in the critical registry, yet
`findDependentAlerts('Log Alert', ['constructor'])` returns nothing, because the
registry read finds an inherited function. For a list without critical members
and without such names the result is the empty list, as for
`['logging-service']`. -/
theorem findDependentAlerts_noncritical_inherited_name :
    (∀ s ∈ ["constructor"], s ∉ CRITICAL_SERVICES)
    ∧ Js.findDependentAlerts "Log Alert" ["constructor"] = none
    ∧ (∀ (alertName : String) (affectedServices : List String),
        (∀ s ∈ affectedServices, s ∉ CRITICAL_SERVICES) →
        hasNoInheritedName affectedServices = true →
          Js.findDependentAlerts alertName affectedServices = some [])
    ∧ Js.findDependentAlerts "Log Alert" ["logging-service"] = some []
    ∧ (Js.findDependentAlerts "Critical Alert"
        ["payment-processing", "user-authentication"]).map List.length = some 16 := by
  refine ⟨by decide, by decide, ?_, by decide, by decide⟩
  intro alertName affectedServices h hclean
  rw [findDependentAlerts_double_eq, if_pos hclean, collectDependentAlerts_of_not_critical _ h]
  rfl

/-- The general part of C27 at `['logging-service', 'monitoring-service']`. -/
theorem findDependentAlerts_noncritical_inherited_name_witness :
    (∀ s ∈ ["logging-service", "monitoring-service"], s ∉ CRITICAL_SERVICES)
    ∧ hasNoInheritedName ["logging-service", "monitoring-service"] = true
    ∧ Js.findDependentAlerts "Log Alert" ["logging-service", "monitoring-service"] = some [] :=
  have h : ∀ s ∈ ["logging-service", "monitoring-service"], s ∉ CRITICAL_SERVICES := by decide
  ⟨h, by decide, findDependentAlerts_noncritical_inherited_name.2.2.1 "Log Alert" _ h (by decide)⟩

/-! ### The orchestrator, in doubles -/

theorem analyzeImpact_double_isSome (alertData : AlertData) :
    (Js.analyzeImpact alertData).isSome
      = hasNoInheritedName (alertData.affectedServices.getD []) := by
  unfold Js.analyzeImpact
  simp only [findDependentAlerts_double_eq]
  by_cases h : hasNoInheritedName (alertData.affectedServices.getD []) = true
  · simp only [h, reduceIte, Option.isSome_some]
  · have h2 : hasNoInheritedName (alertData.affectedServices.getD []) = false := by
      simpa using h
    simp only [h2, Bool.false_eq_true, reduceIte, Option.isSome_none]

theorem analyzeImpact_double_eq_none (alertData : AlertData)
    (h : hasNoInheritedName (alertData.affectedServices.getD []) = false) :
    Js.analyzeImpact alertData = none := by
  have := analyzeImpact_double_isSome alertData
  rw [h] at this
  simpa using this

/-- The failure rate `analyzeImpact` hands to `determineRiskLevel`
(lines 306-308). -/
theorem analyzeImpact_double_riskLevel (alertData : AlertData)
    (h : hasNoInheritedName (alertData.affectedServices.getD []) = true) :
    (Js.analyzeImpact alertData).map (fun r => r.riskLevel)
      = some (Js.determineRiskLevel (Js.calculateCustomerImpact alertData)
          (Js.Number.fin
            ((identifyCriticalServices (alertData.affectedServices.getD [])).length : ℚ))
          (if Js.gt
              (Js.add (Js.orElse (alertData.historicalData.getD {}).successfulDeployments
                  (Js.lit 0))
                (Js.orElse (alertData.historicalData.getD {}).failedDeployments (Js.lit 0)))
              (Js.lit 0) = true then
            Js.div (Js.orElse (alertData.historicalData.getD {}).failedDeployments (Js.lit 0))
              (Js.add (Js.orElse (alertData.historicalData.getD {}).successfulDeployments
                  (Js.lit 0))
                (Js.orElse (alertData.historicalData.getD {}).failedDeployments (Js.lit 0)))
          else Js.lit (1/10))) := by
  unfold Js.analyzeImpact
  simp only [findDependentAlerts_double_eq, h, reduceIte, Option.map_some']

theorem analyzeImpact_double_recommendations (alertData : AlertData)
    (h : hasNoInheritedName (alertData.affectedServices.getD []) = true) :
    ∃ riskLevel : String,
      (Js.analyzeImpact alertData).map (fun r => r.recommendations)
        = some (Js.generateRecommendations riskLevel (Js.calculateCustomerImpact alertData)
            (identifyCriticalServices (alertData.affectedServices.getD []))
            (Js.orDefault (Js.parseInt (Js.estimateDowntime alertData)) (Js.lit 60))) := by
  unfold Js.analyzeImpact
  simp only [findDependentAlerts_double_eq, h, reduceIte, Option.map_some']
  exact ⟨_, rfl⟩

theorem analyzeImpact_double_confidenceScore (alertData : AlertData)
    (h : hasNoInheritedName (alertData.affectedServices.getD []) = true) :
    (Js.analyzeImpact alertData).map (fun r => r.confidenceScore)
      = some (Js.calculateConfidenceScore
          { historicalDataPoints :=
              some (Js.add
                (Js.orElse (alertData.historicalData.getD {}).successfulDeployments (Js.lit 0))
                (Js.orElse (alertData.historicalData.getD {}).failedDeployments (Js.lit 0))),
            successfulDeployments :=
              some (Js.orElse (alertData.historicalData.getD {}).successfulDeployments
                (Js.lit 0)),
            failedDeployments :=
              some (Js.orElse (alertData.historicalData.getD {}).failedDeployments (Js.lit 0)),
            dataQuality :=
              some (if Js.gt
                  (Js.add
                    (Js.orElse (alertData.historicalData.getD {}).successfulDeployments
                      (Js.lit 0))
                    (Js.orElse (alertData.historicalData.getD {}).failedDeployments (Js.lit 0)))
                  (Js.lit 20) = true then "high"
                else if Js.gt
                  (Js.add
                    (Js.orElse (alertData.historicalData.getD {}).successfulDeployments
                      (Js.lit 0))
                    (Js.orElse (alertData.historicalData.getD {}).failedDeployments (Js.lit 0)))
                  (Js.lit 5) = true then "medium" else "low") }) := by
  unfold Js.analyzeImpact
  simp only [findDependentAlerts_double_eq, h, reduceIte, Option.map_some']

theorem analyzeImpact_double_defaultHistory (alertName alertType : String)
    (affectedServices : Option (List String)) (historicalData : Option HistoricalData)
    (h : historicalData = none ∨ historicalData = some {}) :
    Js.analyzeImpact
        { alertName := alertName, alertType := alertType,
          affectedServices := affectedServices, historicalData := historicalData }
      = Js.analyzeImpact
        { alertName := alertName, alertType := alertType,
          affectedServices := affectedServices, historicalData := some defaultHistory } := by
  have h1 : Js.orElse (some (100 : ℚ)) (Js.lit 100) = Js.lit 100 := by decide!
  have h2 : Js.orElse (some (60 : ℚ)) (Js.lit 60) = Js.lit 60 := by decide!
  have h3 : Js.orElse (some (0 : ℚ)) (Js.lit 0) = Js.lit 0 := by decide!
  have h4 : ∀ d, Js.orElse none d = d := fun _ => rfl
  rcases h with rfl | rfl <;>
  simp only [Js.analyzeImpact, Js.calculateCustomerImpact, Js.estimateDowntime,
    Js.estimatedSeconds, Option.getD_none, Option.getD_some, defaultHistory, h1, h2, h3, h4]

/-- C24: with an empty `historicalData` the code does raise an error for some
service lists. On `affectedServices: ['constructor']` the registry read of
`findDependentAlerts` finds an inherited function and `analyzeImpact` throws. For
every list the outcome with an absent or an empty record is the outcome with
`{avgCustomersAffected: 100, avgDowntime: 60, successfulDeployments: 0,
failedDeployments: 0}`, and for a list without such a name a result is returned
whose risk is scored with the failure rate 0.1, which passes the `>= 0.1` test of
the failure band and no higher one. -/
theorem analyzeImpact_empty_history_inherited_name :
    Js.analyzeImpact
        { alertName := "Database CPU Alert", alertType := "database",
          affectedServices := some ["constructor"], historicalData := some {} } = none
    ∧ (∀ (alertName alertType : String) (affectedServices : Option (List String)),
      Js.analyzeImpact
          { alertName := alertName, alertType := alertType,
            affectedServices := affectedServices, historicalData := none }
        = Js.analyzeImpact
          { alertName := alertName, alertType := alertType,
            affectedServices := affectedServices, historicalData := some defaultHistory }
      ∧ Js.analyzeImpact
          { alertName := alertName, alertType := alertType,
            affectedServices := affectedServices, historicalData := some {} }
        = Js.analyzeImpact
          { alertName := alertName, alertType := alertType,
            affectedServices := affectedServices, historicalData := some defaultHistory })
    ∧ (∀ (alertName alertType : String) (affectedServices : Option (List String)),
      hasNoInheritedName (affectedServices.getD []) = true →
      (Js.analyzeImpact
          { alertName := alertName, alertType := alertType,
            affectedServices := affectedServices, historicalData := some {} }).isSome = true
      ∧ (Js.analyzeImpact
          { alertName := alertName, alertType := alertType,
            affectedServices := affectedServices, historicalData := some {} }).map
            (fun r => r.riskLevel)
        = some (Js.determineRiskLevel
            (Js.calculateCustomerImpact
              { alertName := alertName, alertType := alertType,
                affectedServices := affectedServices, historicalData := some {} })
            (Js.Number.fin ((identifyCriticalServices (affectedServices.getD [])).length : ℚ))
            (Js.lit (1/10))))
    ∧ Js.ge (Js.lit (1/10)) (Js.lit (1/10)) = true
    ∧ Js.ge (Js.lit (1/10)) (Js.lit (1/5)) = false := by
  refine ⟨by decide, ?_, ?_, by decide!, by decide!⟩
  · intro alertName alertType affectedServices
    exact ⟨analyzeImpact_double_defaultHistory _ _ _ _ (Or.inl rfl),
      analyzeImpact_double_defaultHistory _ _ _ _ (Or.inr rfl)⟩
  · intro alertName alertType affectedServices h
    refine ⟨by rw [analyzeImpact_double_isSome]; exact h, ?_⟩
    rw [analyzeImpact_double_riskLevel _ h]
    have g : Js.gt (Js.add (Js.lit 0) (Js.lit 0)) (Js.lit 0) = false := by decide!
    simp only [Option.getD_some, Js.orElse, g, Bool.false_eq_true, if_false]

/-- The general part of C24 at `['payment-processing']`. -/
theorem analyzeImpact_empty_history_inherited_name_witness :
    hasNoInheritedName ((some ["payment-processing"] : Option (List String)).getD []) = true
    ∧ (Js.analyzeImpact
          { alertName := "Database CPU Alert", alertType := "database",
            affectedServices := some ["payment-processing"],
            historicalData := some {} }).isSome = true :=
  ⟨by decide,
    (analyzeImpact_empty_history_inherited_name.2.2.1 "Database CPU Alert" "database"
      (some ["payment-processing"]) (by decide)).1⟩

/-! ### Customer impact, in doubles -/

theorem truthy_lit_multiplier (service : String) (m : ℚ)
    (h : SERVICE_IMPACT_MULTIPLIERS.lookup service = some m) :
    Js.truthy (Js.lit m) = true := by
  have hm := lookup_mem _ _ _ h
  simp only [SERVICE_IMPACT_MULTIPLIERS, List.mem_cons, Prod.mk.injEq, List.mem_singleton,
    List.not_mem_nil, or_false] at hm
  rcases hm with ⟨_, rfl⟩ | ⟨_, rfl⟩ | ⟨_, rfl⟩ | ⟨_, rfl⟩ | ⟨_, rfl⟩ | ⟨_, rfl⟩ |
    ⟨_, rfl⟩ | ⟨_, rfl⟩ | ⟨_, rfl⟩ | ⟨_, rfl⟩ | ⟨_, rfl⟩ <;> decide!

theorem multiplierOrDefault_of_not_inherited (service : String)
    (h : service ∉ Js.OBJECT_PROTOTYPE_NAMES) :
    Js.multiplierOrDefault service = Js.lit (multiplierOf service) := by
  unfold Js.multiplierOrDefault multiplierOf
  rw [getProperty_of_not_inherited _ _ h]
  cases hl : SERVICE_IMPACT_MULTIPLIERS.lookup service with
  | none => rfl
  | some m =>
    simp only [Js.orDefault, truthy_lit_multiplier service m hl, if_true]

theorem multiplierOrDefault_of_inherited (service : String)
    (h : service ∈ Js.OBJECT_PROTOTYPE_NAMES) :
    Js.multiplierOrDefault service = Js.Number.nan := by
  unfold Js.multiplierOrDefault Js.getProperty
  rw [lookup_multipliers_of_inherited service h]
  simp only [if_pos h]

theorem foldl_multiplier_double (services : List String) :
    ∀ acc : Js.Number, (∀ s ∈ services, s ∉ Js.OBJECT_PROTOTYPE_NAMES) →
      services.foldl
          (fun impactMultiplier service =>
            Js.add impactMultiplier (Js.multiplierOrDefault service)) acc
        = services.foldl (fun sum service => Js.add sum (Js.lit (multiplierOf service))) acc := by
  induction services with
  | nil => intro acc _; rfl
  | cons s rest ih =>
    intro acc h
    rw [List.foldl_cons, List.foldl_cons,
      multiplierOrDefault_of_not_inherited s (h s (List.mem_cons_self _ _))]
    exact ih _ (fun t ht => h t (List.mem_cons_of_mem _ ht))

theorem orElse_double_eq_match (a : Option ℚ) (d : ℚ) :
    Js.orElse a (Js.Number.fin d) =
      (match a with
        | none => Js.Number.fin d
        | some b => if b = 0 then Js.Number.fin d else Js.Number.fin b) := by
  cases a <;> rfl

theorem lit_zero : Js.lit 0 = Js.Number.fin 0 := by decide!

theorem mul_double_comm (a b : Js.Number) : Js.mul a b = Js.mul b a := by
  cases a <;> cases b <;> simp only [Js.mul, mul_comm]

theorem add_double_comm (a b : Js.Number) : Js.add a b = Js.add b a := by
  cases a <;> cases b <;> simp only [Js.add, add_comm]

theorem lit_100 : Js.lit 100 = Js.Number.fin 100 := by decide!

theorem lit_2 : Js.lit 2 = Js.Number.fin 2 := by decide!

theorem calculateCustomerImpact_double_of_ne_nil (alertName alertType : String)
    (affectedServices : List String) (historicalData : Option HistoricalData)
    (hne : affectedServices ≠ []) (h : hasNoInheritedName affectedServices = true) :
    Js.calculateCustomerImpact
        { alertName := alertName, alertType := alertType,
          affectedServices := some affectedServices, historicalData := historicalData }
      = customerImpactDouble ((historicalData.getD {}).avgCustomersAffected)
          affectedServices := by
  have hlen : affectedServices.length ≠ 0 := by
    simpa [List.length_eq_zero] using hne
  simp only [Js.calculateCustomerImpact, if_neg hlen, lit_100, lit_2, lit_zero,
    orElse_double_eq_match]
  rw [foldl_multiplier_double affectedServices _ ((hasNoInheritedName_iff _).1 h),
    mul_double_comm (Js.Number.fin (affectedServices.length : ℚ))]
  rfl

/-- C2, as stated, fails: for `['checkout-service', 'logging-service',
'analytics-service']` with an average of 125 customers the code returns 857. In
doubles `4.5 + 0.1 + 0.3` is `4.8999999999999995` and `0.2*3 + 0.8` is
`1.4000000000000001`; the product `857.4999999999999` rounds down. The stated
formula in exact arithmetic is `round(125 * 4.9 * 1.4) = round(857.5) = 858`. -/
theorem calculateCustomerImpact_ne_exact_formula :
    Js.calculateCustomerImpact
        { alertName := "Checkout Alert", alertType := "database",
          affectedServices := some ["checkout-service", "logging-service", "analytics-service"],
          historicalData := some { avgCustomersAffected := some 125 } }
      = Js.Number.fin 857
    ∧ customerImpactSpec (some 125)
        ["checkout-service", "logging-service", "analytics-service"] = 858 := by
  refine ⟨by decide!, by decide!⟩

/-- C2, amended: on a non-empty `affectedServices` list with no member named
like an inherited property, `calculateCustomerImpact` is
`max(0, round(base * M * F))` computed in doubles: `base` is
`avgCustomersAffected` (100 when absent or 0, also when the whole record is
absent), `M` is the sum of the services' multipliers (1 for an unlisted one)
taken from `0` in the order of the list, `F = min(0.2*n + 0.8, 2)`, every sum and
product is rounded to the nearest double, and `round` rounds a half up. On the
list of the counterexample this is 857, on the database fixture 21000. -/
theorem calculateCustomerImpact_eq_customerImpactDouble :
    (∀ (alertName alertType : String) (affectedServices : List String)
        (historicalData : Option HistoricalData),
      affectedServices ≠ [] → hasNoInheritedName affectedServices = true →
      Js.calculateCustomerImpact
          { alertName := alertName, alertType := alertType,
            affectedServices := some affectedServices, historicalData := historicalData }
        = customerImpactDouble ((historicalData.getD {}).avgCustomersAffected)
            affectedServices)
    ∧ customerImpactDouble (some 125)
        ["checkout-service", "logging-service", "analytics-service"] = Js.Number.fin 857
    ∧ customerImpactDouble (some 1200)
        ["payment-processing", "user-authentication", "order-management"]
          = Js.Number.fin 21000
    ∧ Js.calculateCustomerImpact mockAlertData = Js.Number.fin 21000 := by
  refine ⟨calculateCustomerImpact_double_of_ne_nil, by decide!, by decide!, by decide!⟩

/-- The formula of C2 at `['payment-processing', 'logging-service']` with a
historical average of 1200. -/
theorem calculateCustomerImpact_eq_customerImpactDouble_witness :
    ["payment-processing", "logging-service"] ≠ []
    ∧ hasNoInheritedName ["payment-processing", "logging-service"] = true
    ∧ Js.calculateCustomerImpact
        { alertName := "Database CPU Alert", alertType := "database",
          affectedServices := some ["payment-processing", "logging-service"],
          historicalData := some { avgCustomersAffected := some 1200 } }
      = customerImpactDouble
          (((some { avgCustomersAffected := some 1200 } : Option HistoricalData).getD
            {}).avgCustomersAffected)
          ["payment-processing", "logging-service"] :=
  ⟨by decide, by decide,
    calculateCustomerImpact_eq_customerImpactDouble.1 _ _ _ _ (by decide) (by decide)⟩

/-! ### Customer impact: adding a service, in doubles -/

theorem isNonnegative_roundDouble (x : ℚ) (hx : 0 ≤ x) :
    isNonnegative (Js.roundDouble x) = true := by
  rcases roundDouble_nonneg x hx with ⟨v, hv, he⟩ | he
  · rw [he]; simp [isNonnegative, hv]
  · rw [he]; rfl

theorem ge_posInf_roundDouble (z : ℚ) :
    Js.ge Js.Number.posInf (Js.roundDouble z) = true := by
  unfold Js.roundDouble
  simp only []
  split_ifs <;> rfl

theorem isDouble_roundDouble (x : ℚ) : isDouble (Js.roundDouble x) = true := by
  cases h : Js.roundDouble x with
  | fin v => simp only [isDouble, decide_eq_true_eq]; exact roundDouble_idem x v h
  | nan => rfl
  | posInf => rfl
  | negInf => rfl

theorem isDouble_add (a b : Js.Number) : isDouble (Js.add a b) = true := by
  cases a <;> cases b <;> first | rfl | exact isDouble_roundDouble _

theorem isNonnegative_add (a b : Js.Number) (ha : isNonnegative a = true)
    (hb : isNonnegative b = true) : isNonnegative (Js.add a b) = true := by
  cases a <;> cases b <;> simp only [isNonnegative, Bool.false_eq_true, decide_eq_true_eq] at ha hb
    <;> first | rfl | exact isNonnegative_roundDouble _ (add_nonneg ha hb)

/-- Adding a non-negative number to a double does not lower it. -/
theorem ge_add_self (a b : Js.Number) (ha : isNonnegative a = true) (hd : isDouble a = true)
    (hb : isNonnegative b = true) : Js.ge (Js.add a b) a = true := by
  cases a with
  | nan => simp [isNonnegative] at ha
  | negInf => simp [isNonnegative] at ha
  | posInf =>
    cases b with
    | nan => simp [isNonnegative] at hb
    | negInf => simp [isNonnegative] at hb
    | posInf => rfl
    | fin y => rfl
  | fin x =>
    cases b with
    | nan => simp [isNonnegative] at hb
    | negInf => simp [isNonnegative] at hb
    | posInf => rfl
    | fin y =>
      simp only [isNonnegative, decide_eq_true_eq] at hb
      simp only [isDouble, decide_eq_true_eq] at hd
      have := roundDouble_mono x (x + y) (by linarith)
      rw [hd] at this
      exact this

theorem ge_add_add (a a2 : Js.Number) (e : ℚ) (ha : isNonnegative a = true)
    (ha2 : isNonnegative a2 = true) (h : Js.ge a2 a = true) :
    Js.ge (Js.add a2 (Js.Number.fin e)) (Js.add a (Js.Number.fin e)) = true := by
  cases a <;> cases a2 <;>
    simp only [isNonnegative, Js.ge, Bool.false_eq_true, decide_eq_true_eq] at ha ha2 h
  · rfl
  · rename_i x
    simp only [Js.add]
    exact ge_posInf_roundDouble _
  · rename_i x y
    exact roundDouble_mono _ _ (by linarith)

theorem ge_mul_mul (p p2 : Js.Number) (f f2 : ℚ) (hp : isNonnegative p = true)
    (hp2 : isNonnegative p2 = true) (h : Js.ge p2 p = true) (hf : 0 < f) (hff : f ≤ f2) :
    Js.ge (Js.mul p2 (Js.Number.fin f2)) (Js.mul p (Js.Number.fin f)) = true := by
  have hf2 : 0 < f2 := lt_of_lt_of_le hf hff
  cases p <;> cases p2 <;>
    simp only [isNonnegative, Js.ge, Bool.false_eq_true, decide_eq_true_eq] at hp hp2 h
  · simp [Js.mul, ne_of_gt hf, ne_of_gt hf2, hf, hf2, Js.signedInf, Js.ge]
  · rename_i x
    simp only [Js.mul, if_neg (ne_of_gt hf2), hf2, decide_True, Js.signedInf, if_true]
    exact ge_posInf_roundDouble _
  · rename_i x y
    exact roundDouble_mono _ _ (mul_le_mul h hff (le_of_lt hf) hp2)

theorem isNonnegative_mul (p : Js.Number) (f : ℚ) (hp : isNonnegative p = true) (hf : 0 < f) :
    isNonnegative (Js.mul p (Js.Number.fin f)) = true := by
  cases p <;> simp only [isNonnegative, Bool.false_eq_true, decide_eq_true_eq] at hp
  · simp [Js.mul, ne_of_gt hf, hf, Js.signedInf, isNonnegative]
  · exact isNonnegative_roundDouble _ (mul_nonneg hp (le_of_lt hf))

theorem ge_mathRound (a a2 : Js.Number) (ha : isNonnegative a = true)
    (ha2 : isNonnegative a2 = true) (h : Js.ge a2 a = true) :
    Js.ge (Js.mathMax (Js.Number.fin 0) (Js.mathRound a2))
      (Js.mathMax (Js.Number.fin 0) (Js.mathRound a)) = true := by
  cases a <;> cases a2 <;>
    simp only [isNonnegative, Js.ge, Bool.false_eq_true, decide_eq_true_eq] at ha ha2 h
  · rfl
  · rename_i x
    simp only [Js.mathRound, Js.mathMax, Js.lt]
    split_ifs <;> rfl
  · rename_i x y
    have hx : (0 : ℤ) ≤ ⌊x + 1/2⌋ := Int.floor_nonneg.2 (by linarith)
    have hy : (0 : ℤ) ≤ ⌊y + 1/2⌋ := Int.floor_nonneg.2 (by linarith)
    have hxy : ⌊x + 1/2⌋ ≤ ⌊y + 1/2⌋ := Int.floor_mono (by linarith)
    have hx2 : (0 : ℚ) ≤ ((⌊x + 1/2⌋ : ℤ) : ℚ) := by exact_mod_cast hx
    have hy2 : (0 : ℚ) ≤ ((⌊y + 1/2⌋ : ℤ) : ℚ) := by exact_mod_cast hy
    have hxy2 : ((⌊x + 1/2⌋ : ℤ) : ℚ) ≤ ((⌊y + 1/2⌋ : ℤ) : ℚ) := by exact_mod_cast hxy
    simp only [Js.mathRound, Js.mathMax, Js.lt, decide_eq_true_eq]
    split_ifs <;> simp only [Js.ge, decide_eq_true_eq] <;> linarith

theorem multiplierSumDouble_append (L : List String) (s : String) :
    multiplierSumDouble (L ++ [s])
      = Js.add (multiplierSumDouble L) (Js.lit (multiplierOf s)) := by
  unfold multiplierSumDouble
  rw [List.foldl_append]
  rfl

theorem multiplierSumDouble_props (L : List String) :
    isNonnegative (multiplierSumDouble L) = true ∧ isDouble (multiplierSumDouble L) = true := by
  induction L using List.reverseRecOn with
  | nil => exact ⟨by decide!, by decide!⟩
  | append_singleton L s ih =>
    rw [multiplierSumDouble_append]
    exact ⟨isNonnegative_add _ _ ih.1
        (isNonnegative_roundDouble _ (le_of_lt (multiplierOf_pos s))),
      isDouble_add _ _⟩

/-- The service-count factor `F = min(0.2*n + 0.8, 2)` in doubles is a finite
number, at least `0.8`, and does not fall when `n` grows. -/
theorem serviceCountFactor_mono (n : ℕ) :
    ∃ f f2 : ℚ, 0 < f ∧ f ≤ f2
      ∧ Js.mathMin
          (Js.add (Js.mul (Js.lit (1/5)) (Js.Number.fin (n : ℚ))) (Js.lit (4/5)))
          (Js.Number.fin 2) = Js.Number.fin f
      ∧ Js.mathMin
          (Js.add (Js.mul (Js.lit (1/5)) (Js.Number.fin ((n + 1 : ℕ) : ℚ))) (Js.lit (4/5)))
          (Js.Number.fin 2) = Js.Number.fin f2 := by
  have hc : Js.lit (1/5) = Js.Number.fin (3602879701896397 / 18014398509481984) := by decide!
  have he : Js.lit (4/5) = Js.Number.fin (3602879701896397 / 4503599627370496) := by decide!
  rw [hc, he]
  set c : ℚ := 3602879701896397 / 18014398509481984 with hcdef
  set e : ℚ := 3602879701896397 / 4503599627370496 with hedef
  have hc0 : (0 : ℚ) ≤ c := by rw [hcdef]; norm_num
  have he0 : (0 : ℚ) < e := by rw [hedef]; norm_num
  have hre : Js.roundDouble e = Js.Number.fin e := by decide!
  have hn : (0 : ℚ) ≤ (n : ℚ) := Nat.cast_nonneg n
  -- the two products
  have hm := roundDouble_mono (c * (n : ℚ)) (c * ((n + 1 : ℕ) : ℚ))
    (by push_cast; nlinarith)
  have h1 := isNonnegative_roundDouble (c * (n : ℚ)) (mul_nonneg hc0 hn)
  have h2 := isNonnegative_roundDouble (c * ((n + 1 : ℕ) : ℚ))
    (mul_nonneg hc0 (Nat.cast_nonneg _))
  have hsum := ge_add_add _ _ e h1 h2 hm
  have hlow1 : Js.ge (Js.add (Js.roundDouble (c * (n : ℚ))) (Js.Number.fin e))
      (Js.Number.fin e) = true := by
    have := ge_add_add (Js.Number.fin 0) _ e (by simp [isNonnegative]) h1
      (by
        cases h : Js.roundDouble (c * (n : ℚ)) <;> rw [h] at h1 <;>
          simp only [isNonnegative, Bool.false_eq_true, decide_eq_true_eq] at h1
        · rfl
        · simp [Js.ge, h1])
    simp only [Js.add, zero_add, hre] at this ⊢
    exact this
  simp only [Js.mul]
  generalize Js.add (Js.roundDouble (c * (n : ℚ))) (Js.Number.fin e) = A at hsum hlow1
  generalize Js.add (Js.roundDouble (c * ((n + 1 : ℕ) : ℚ))) (Js.Number.fin e) = B at hsum
  cases A <;> simp only [Js.ge, Bool.false_eq_true, decide_eq_true_eq] at hlow1
  · -- A = +∞
    cases B <;> simp only [Js.ge, Bool.false_eq_true] at hsum
    exact ⟨2, 2, by norm_num, le_refl _, by simp [Js.mathMin, Js.lt], by simp [Js.mathMin, Js.lt]⟩
  · rename_i a
    cases B <;> simp only [Js.ge, Bool.false_eq_true, decide_eq_true_eq] at hsum
    · refine ⟨min a 2, 2, lt_min (by linarith) (by norm_num), min_le_right _ _, ?_,
        by simp [Js.mathMin, Js.lt]⟩
      simp only [Js.mathMin, Js.lt, decide_eq_true_eq]
      split_ifs with h
      · rw [min_eq_right (le_of_lt h)]
      · rw [min_eq_left (not_lt.1 h)]
    · rename_i b
      refine ⟨min a 2, min b 2, lt_min (by linarith) (by norm_num),
        min_le_min hsum (le_refl _), ?_, ?_⟩
      · simp only [Js.mathMin, Js.lt, decide_eq_true_eq]
        split_ifs with h
        · rw [min_eq_right (le_of_lt h)]
        · rw [min_eq_left (not_lt.1 h)]
      · simp only [Js.mathMin, Js.lt, decide_eq_true_eq]
        split_ifs with h
        · rw [min_eq_right (le_of_lt h)]
        · rw [min_eq_left (not_lt.1 h)]

/-- The customer formula in doubles does not fall when a service is appended,
for a positive base. -/
theorem customerImpactDouble_append_mono (b : ℚ) (hb : 0 < b) (L : List String) (s : String) :
    Js.ge
      (Js.mathMax (Js.Number.fin 0)
        (Js.mathRound
          (Js.mul (Js.mul (Js.Number.fin b) (multiplierSumDouble (L ++ [s])))
            (Js.mathMin
              (Js.add (Js.mul (Js.lit (1/5)) (Js.Number.fin ((L ++ [s]).length : ℚ)))
                (Js.lit (4/5)))
              (Js.Number.fin 2)))))
      (Js.mathMax (Js.Number.fin 0)
        (Js.mathRound
          (Js.mul (Js.mul (Js.Number.fin b) (multiplierSumDouble L))
            (Js.mathMin
              (Js.add (Js.mul (Js.lit (1/5)) (Js.Number.fin (L.length : ℚ))) (Js.lit (4/5)))
              (Js.Number.fin 2))))) = true := by
  obtain ⟨f, f2, hf, hff, hF, hF2⟩ := serviceCountFactor_mono L.length
  have hlen : (L ++ [s]).length = L.length + 1 := by simp
  rw [hlen, hF, hF2]
  obtain ⟨hM0, hMd⟩ := multiplierSumDouble_props L
  obtain ⟨hM20, _⟩ := multiplierSumDouble_props (L ++ [s])
  have hMge : Js.ge (multiplierSumDouble (L ++ [s])) (multiplierSumDouble L) = true := by
    rw [multiplierSumDouble_append]
    exact ge_add_self _ _ hM0 hMd (isNonnegative_roundDouble _ (le_of_lt (multiplierOf_pos s)))
  -- the product with the base
  have hP : ∀ M : Js.Number, isNonnegative M = true →
      isNonnegative (Js.mul (Js.Number.fin b) M) = true := by
    intro M hM
    rw [mul_double_comm]
    exact isNonnegative_mul M b hM hb
  have hPge : Js.ge (Js.mul (Js.Number.fin b) (multiplierSumDouble (L ++ [s])))
      (Js.mul (Js.Number.fin b) (multiplierSumDouble L)) = true := by
    rw [mul_double_comm (Js.Number.fin b), mul_double_comm (Js.Number.fin b)]
    exact ge_mul_mul _ _ b b hM0 hM20 hMge hb (le_refl b)
  have hQ := ge_mul_mul _ _ f f2 (hP _ hM0) (hP _ hM20) hPge hf hff
  exact ge_mathRound _ _ (isNonnegative_mul _ f (hP _ hM0) hf)
    (isNonnegative_mul _ f2 (hP _ hM20) (lt_of_lt_of_le hf hff)) hQ

theorem add_nan_right (a : Js.Number) : Js.add a Js.Number.nan = Js.Number.nan := by
  cases a <;> rfl

theorem add_nan_left (b : Js.Number) : Js.add Js.Number.nan b = Js.Number.nan := by
  cases b <;> rfl

theorem mul_nan_right (a : Js.Number) : Js.mul a Js.Number.nan = Js.Number.nan := by
  cases a <;> rfl

theorem mul_nan_left (b : Js.Number) : Js.mul Js.Number.nan b = Js.Number.nan := by
  cases b <;> rfl

theorem foldl_multiplier_nan (services : List String) :
    services.foldl
        (fun impactMultiplier service =>
          Js.add impactMultiplier (Js.multiplierOrDefault service)) Js.Number.nan
      = Js.Number.nan := by
  induction services with
  | nil => rfl
  | cons s rest ih => rw [List.foldl_cons, add_nan_left]; exact ih

theorem foldl_multiplier_inherited (services : List String) :
    ∀ acc : Js.Number, (∃ s ∈ services, s ∈ Js.OBJECT_PROTOTYPE_NAMES) →
      services.foldl
          (fun impactMultiplier service =>
            Js.add impactMultiplier (Js.multiplierOrDefault service)) acc
        = Js.Number.nan := by
  induction services with
  | nil => intro acc h; obtain ⟨s, hs, _⟩ := h; cases hs
  | cons s rest ih =>
    intro acc h
    rw [List.foldl_cons]
    by_cases hs : s ∈ Js.OBJECT_PROTOTYPE_NAMES
    · rw [multiplierOrDefault_of_inherited s hs, add_nan_right]
      exact foldl_multiplier_nan rest
    · apply ih
      obtain ⟨t, ht, hti⟩ := h
      rcases List.mem_cons.1 ht with rfl | ht2
      · exact absurd hti hs
      · exact ⟨t, ht2, hti⟩

/-- A service named like an inherited property makes the customer count
`NaN`. -/
theorem calculateCustomerImpact_double_of_inherited (alertName alertType : String)
    (affectedServices : List String) (historicalData : Option HistoricalData)
    (h : hasNoInheritedName affectedServices = false) :
    Js.calculateCustomerImpact
        { alertName := alertName, alertType := alertType,
          affectedServices := some affectedServices, historicalData := historicalData }
      = Js.Number.nan := by
  have h2 : ∃ s ∈ affectedServices, s ∈ Js.OBJECT_PROTOTYPE_NAMES := by
    by_contra hc
    push_neg at hc
    have := (hasNoInheritedName_iff affectedServices).2 hc
    rw [h] at this
    exact absurd this (by decide)
  have hlen : affectedServices.length ≠ 0 := by
    obtain ⟨s, hs, _⟩ := h2
    intro h0
    rw [List.length_eq_zero] at h0
    rw [h0] at hs
    cases hs
  simp only [Js.calculateCustomerImpact, if_neg hlen]
  rw [foldl_multiplier_inherited affectedServices _ h2, mul_nan_right, mul_nan_left, lit_zero]
  rfl

theorem customerImpactDouble_nil (avg : Option ℚ) :
    customerImpactDouble avg [] = Js.Number.fin 0 := by
  unfold customerImpactDouble
  cases avg with
  | none => decide!
  | some b =>
    by_cases hb : b = 0
    · simp only [if_pos hb]; decide!
    · simp only [if_neg hb]
      have h1 : Js.mul (Js.Number.fin b) (multiplierSumDouble []) = Js.Number.fin 0 := by
        simp [multiplierSumDouble, Js.mul, Js.roundDouble]
      rw [h1]
      decide!

/-- Appending a service to a list without inherited names does not lower the
customer count, for a non-negative average. -/
theorem calculateCustomerImpact_double_append_mono (alertName alertType : String)
    (L : List String) (s : String) (historicalData : Option HistoricalData)
    (hclean : hasNoInheritedName (L ++ [s]) = true)
    (havg : ∀ v, (historicalData.getD {}).avgCustomersAffected = some v → 0 ≤ v) :
    Js.ge
      (Js.calculateCustomerImpact
        { alertName := alertName, alertType := alertType,
          affectedServices := some (L ++ [s]), historicalData := historicalData })
      (Js.calculateCustomerImpact
        { alertName := alertName, alertType := alertType,
          affectedServices := some L, historicalData := historicalData }) = true := by
  have hcleanL : hasNoInheritedName L = true := by
    rw [hasNoInheritedName_iff] at hclean ⊢
    intro t ht
    exact hclean t (List.mem_append_left _ ht)
  have hne : L ++ [s] ≠ [] := by simp
  rw [calculateCustomerImpact_double_of_ne_nil _ _ _ _ hne hclean]
  have hL : Js.calculateCustomerImpact
        { alertName := alertName, alertType := alertType,
          affectedServices := some L, historicalData := historicalData }
      = customerImpactDouble (historicalData.getD {}).avgCustomersAffected L := by
    by_cases hnil : L = []
    · subst hnil
      rw [customerImpactDouble_nil]
      rfl
    · exact calculateCustomerImpact_double_of_ne_nil _ _ _ _ hnil hcleanL
  rw [hL]
  unfold customerImpactDouble
  cases hv : (historicalData.getD {}).avgCustomersAffected with
  | none => exact customerImpactDouble_append_mono 100 (by norm_num) L s
  | some b =>
    by_cases hb : b = 0
    · simp only [if_pos hb]
      exact customerImpactDouble_append_mono 100 (by norm_num) L s
    · simp only [if_neg hb]
      exact customerImpactDouble_append_mono b
        (lt_of_le_of_ne (havg b hv) (Ne.symm hb)) L s

/-- C18: appending a service the claim covers can turn the result into `NaN`.
`'constructor'` is unlisted, so its multiplier is stated to be 1; the code reads
`SERVICE_IMPACT_MULTIPLIERS['constructor']`, finds the function inherited from
`Object.prototype`, and the product is `NaN`. On `['payment-processing']` with no
record the result is 500, with `'constructor'` appended it is `NaN`, and
`NaN >= 500` is false. Every list with such a name gives `NaN`; for every list
without one, a non-negative average and any appended service the result with the
service appended is `>=` the result without it, in doubles. -/
theorem calculateCustomerImpact_append_inherited_name :
    SERVICE_IMPACT_MULTIPLIERS.lookup "constructor" = none
    ∧ multiplierOf "constructor" = 1
    ∧ Js.calculateCustomerImpact
        { alertName := "Payment Alert", alertType := "payment",
          affectedServices := some ["payment-processing"], historicalData := none }
      = Js.Number.fin 500
    ∧ Js.calculateCustomerImpact
        { alertName := "Payment Alert", alertType := "payment",
          affectedServices := some (["payment-processing"] ++ ["constructor"]),
          historicalData := none }
      = Js.Number.nan
    ∧ Js.ge
        (Js.calculateCustomerImpact
          { alertName := "Payment Alert", alertType := "payment",
            affectedServices := some (["payment-processing"] ++ ["constructor"]),
            historicalData := none })
        (Js.calculateCustomerImpact
          { alertName := "Payment Alert", alertType := "payment",
            affectedServices := some ["payment-processing"], historicalData := none })
      = false
    ∧ (∀ (alertName alertType : String) (affectedServices : List String)
        (historicalData : Option HistoricalData),
        hasNoInheritedName affectedServices = false →
        Js.calculateCustomerImpact
            { alertName := alertName, alertType := alertType,
              affectedServices := some affectedServices, historicalData := historicalData }
          = Js.Number.nan)
    ∧ (∀ (alertName alertType : String) (L : List String) (s : String)
        (historicalData : Option HistoricalData),
        hasNoInheritedName (L ++ [s]) = true →
        (∀ v, (historicalData.getD {}).avgCustomersAffected = some v → 0 ≤ v) →
        Js.ge
          (Js.calculateCustomerImpact
            { alertName := alertName, alertType := alertType,
              affectedServices := some (L ++ [s]), historicalData := historicalData })
          (Js.calculateCustomerImpact
            { alertName := alertName, alertType := alertType,
              affectedServices := some L, historicalData := historicalData }) = true) := by
  refine ⟨by decide!, by decide!, by decide!, by decide!, by decide!,
    calculateCustomerImpact_double_of_inherited, calculateCustomerImpact_double_append_mono⟩

/-- The general parts of C18 at `['logging-service', 'toString']` and at
`['logging-service'] ++ ['payment-processing']` with an average of 1200. -/
theorem calculateCustomerImpact_append_inherited_name_witness :
    hasNoInheritedName ["logging-service", "toString"] = false
    ∧ Js.calculateCustomerImpact
        { alertName := "Log Alert", alertType := "logging",
          affectedServices := some ["logging-service", "toString"], historicalData := none }
      = Js.Number.nan
    ∧ hasNoInheritedName (["logging-service"] ++ ["payment-processing"]) = true
    ∧ Js.ge
        (Js.calculateCustomerImpact
          { alertName := "Log Alert", alertType := "logging",
            affectedServices := some (["logging-service"] ++ ["payment-processing"]),
            historicalData := some { avgCustomersAffected := some 1200 } })
        (Js.calculateCustomerImpact
          { alertName := "Log Alert", alertType := "logging",
            affectedServices := some ["logging-service"],
            historicalData := some { avgCustomersAffected := some 1200 } }) = true :=
  ⟨by decide,
    calculateCustomerImpact_append_inherited_name.2.2.2.2.2.1 _ _ _ _ (by decide),
    by decide,
    calculateCustomerImpact_append_inherited_name.2.2.2.2.2.2 _ _ _ _ _ (by decide)
      (by
        intro v hv
        have : v = 1200 := by
          simp only [Option.getD_some, Option.some.injEq] at hv
          exact hv.symm
        rw [this]; norm_num)⟩

/-! ### Sums of multipliers that are exact -/

theorem multiplierOf_half (s : String) (h : s ∉ FRACTIONAL_MULTIPLIER_SERVICES) :
    ∃ k : ℕ, k ≤ 10 ∧ multiplierOf s = (k : ℚ) / 2 := by
  unfold multiplierOf
  cases hl : SERVICE_IMPACT_MULTIPLIERS.lookup s with
  | none => exact ⟨2, by norm_num, by norm_num⟩
  | some m =>
    have hm := lookup_mem _ _ _ hl
    simp only [SERVICE_IMPACT_MULTIPLIERS, List.mem_cons, Prod.mk.injEq, List.mem_singleton,
      List.not_mem_nil, or_false] at hm
    rcases hm with ⟨_, rfl⟩ | ⟨_, rfl⟩ | ⟨_, rfl⟩ | ⟨_, rfl⟩ | ⟨_, rfl⟩ | ⟨_, rfl⟩ |
      ⟨_, rfl⟩ | ⟨_, rfl⟩ | ⟨hs, _⟩ | ⟨hs, _⟩ | ⟨hs, _⟩
    · exact ⟨10, by norm_num, by norm_num⟩
    · exact ⟨8, by norm_num, by norm_num⟩
    · exact ⟨7, by norm_num, by norm_num⟩
    · exact ⟨6, by norm_num, by norm_num⟩
    · exact ⟨5, by norm_num, by norm_num⟩
    · exact ⟨4, by norm_num, by norm_num⟩
    · exact ⟨9, by norm_num, by norm_num⟩
    · exact ⟨7, by norm_num, by norm_num⟩
    · exact absurd (by rw [hs]; decide) h
    · exact absurd (by rw [hs]; decide) h
    · exact absurd (by rw [hs]; decide) h

/-- A multiple of one half below `2^52` is a double. -/
theorem roundDouble_half (k : ℕ) (hk : k < 2 ^ 53) :
    Js.roundDouble ((k : ℚ) / 2) = Js.Number.fin ((k : ℚ) / 2) := by
  rcases Nat.eq_zero_or_pos k with rfl | hpos
  · simp [Js.roundDouble]
  have hkq : (0 : ℚ) < (k : ℚ) := by exact_mod_cast hpos
  have hk2 : (k : ℚ) < (2 : ℚ) ^ (53 : ℤ) := by
    rw [show (53 : ℤ) = ((53 : ℕ) : ℤ) from rfl, zpow_natCast]
    exact_mod_cast hk
  have e1 : (2 : ℚ) ^ (-1 : ℤ) = 1 / 2 := by norm_num
  have e52 : (2 : ℚ) ^ (-1 + 53 : ℤ) = (2 : ℚ) ^ (53 : ℤ) / 2 := by norm_num
  apply roundDouble_of_grid ((k : ℚ) / 2) (k : ℤ) (-1) (by positivity)
  · rw [e1]; push_cast; ring
  · norm_num
  · rw [e52]; linarith
  · have : (2 : ℚ) ^ (53 : ℤ) < (2 : ℚ) ^ (1024 : ℤ) :=
      zpow_lt_zpow_right₀ (by norm_num) (by norm_num)
    linarith

theorem multiplierSumDouble_exact (L : List String) :
    (∀ s ∈ L, s ∉ FRACTIONAL_MULTIPLIER_SERVICES) → L.length ≤ 2 ^ 48 →
      ∃ K : ℕ, K ≤ 10 * L.length ∧ (L.map multiplierOf).sum = (K : ℚ) / 2
        ∧ multiplierSumDouble L = Js.Number.fin ((L.map multiplierOf).sum) := by
  induction L using List.reverseRecOn with
  | nil => intro _ _; exact ⟨0, by simp, by simp, by simp [multiplierSumDouble]⟩
  | append_singleton L s ih =>
    intro h hlen
    have hlen2 : (L ++ [s]).length = L.length + 1 := by simp
    rw [hlen2] at hlen
    obtain ⟨K, hK, hsum, hM⟩ := ih (fun t ht => h t (List.mem_append_left _ ht)) (by omega)
    obtain ⟨k, hk, hm⟩ := multiplierOf_half s (h s (by simp))
    have hKk : K + k < 2 ^ 53 := by
      have : 10 * (L.length + 1) ≤ 10 * 2 ^ 48 := Nat.mul_le_mul_left 10 hlen
      have h2 : (10 : ℕ) * 2 ^ 48 < 2 ^ 53 := by norm_num
      omega
    have hlit : Js.lit (multiplierOf s) = Js.Number.fin ((k : ℚ) / 2) := by
      rw [hm]
      exact roundDouble_half k (by omega)
    have hs2 : ((L ++ [s]).map multiplierOf).sum = ((K + k : ℕ) : ℚ) / 2 := by
      rw [List.map_append, List.sum_append, hsum, List.map_singleton, List.sum_singleton, hm]
      push_cast; ring
    refine ⟨K + k, by rw [hlen2]; omega, hs2, ?_⟩
    rw [multiplierSumDouble_append, hM, hlit, hs2, hsum]
    simp only [Js.add]
    rw [show (K : ℚ) / 2 + (k : ℚ) / 2 = ((K + k : ℕ) : ℚ) / 2 by push_cast; ring]
    exact roundDouble_half (K + k) hKk

/-- The sum of multipliers that are multiples of one half does not depend on
the order of the services. -/
theorem multiplierSumDouble_perm_of_half (L1 L2 : List String) (h : L1.Perm L2)
    (hfrac : ∀ s ∈ L1, s ∉ FRACTIONAL_MULTIPLIER_SERVICES) (hlen : L1.length ≤ 2 ^ 48) :
    multiplierSumDouble L1 = multiplierSumDouble L2 := by
  obtain ⟨_, _, _, h1⟩ := multiplierSumDouble_exact L1 hfrac hlen
  obtain ⟨_, _, _, h2⟩ := multiplierSumDouble_exact L2
    (fun s hs => hfrac s (h.mem_iff.2 hs)) (by rw [← h.length_eq]; exact hlen)
  rw [h1, h2, (h.map multiplierOf).sum_eq]

/-! ### Order of the services -/

theorem hasNoInheritedName_perm (L1 L2 : List String) (h : L1.Perm L2) :
    hasNoInheritedName L1 = hasNoInheritedName L2 := by
  rw [Bool.eq_iff_iff, hasNoInheritedName_iff, hasNoInheritedName_iff]
  constructor
  · intro h1 s hs; exact h1 s (h.mem_iff.2 hs)
  · intro h1 s hs; exact h1 s (h.mem_iff.1 hs)

theorem analyzeImpact_double_scores (alertData : AlertData)
    (h : hasNoInheritedName (alertData.affectedServices.getD []) = true) :
    (Js.analyzeImpact alertData).map (fun r => (r.customersAffected, r.riskLevel))
      = some (Js.calculateCustomerImpact alertData,
          Js.determineRiskLevel (Js.calculateCustomerImpact alertData)
            (Js.Number.fin
              ((identifyCriticalServices (alertData.affectedServices.getD [])).length : ℚ))
            (if Js.gt
                (Js.add (Js.orElse (alertData.historicalData.getD {}).successfulDeployments
                    (Js.lit 0))
                  (Js.orElse (alertData.historicalData.getD {}).failedDeployments (Js.lit 0)))
                (Js.lit 0) = true then
              Js.div (Js.orElse (alertData.historicalData.getD {}).failedDeployments (Js.lit 0))
                (Js.add (Js.orElse (alertData.historicalData.getD {}).successfulDeployments
                    (Js.lit 0))
                  (Js.orElse (alertData.historicalData.getD {}).failedDeployments (Js.lit 0)))
            else Js.lit (1/10))) := by
  unfold Js.analyzeImpact
  simp only [findDependentAlerts_double_eq, h, reduceIte, Option.map_some']

theorem add_zero_roundDouble (x : ℚ) :
    Js.add (Js.Number.fin 0) (Js.roundDouble x) = Js.roundDouble x := by
  cases h : Js.roundDouble x with
  | nan => rfl
  | posInf => rfl
  | negInf => rfl
  | fin v =>
    simp only [Js.add, zero_add]
    exact roundDouble_idem x v h

/-- The sum of one or two multipliers does not depend on their order. -/
theorem multiplierSumDouble_perm_of_length_le_two (L1 L2 : List String) (h : L1.Perm L2)
    (hlen : L1.length ≤ 2) : multiplierSumDouble L1 = multiplierSumDouble L2 := by
  match L1, L2, h, hlen with
  | [], L2, h, _ => rw [List.nil_perm.1 h]
  | [a], L2, h, _ => rw [List.singleton_perm.1 h]
  | [a, b], L2, h, _ =>
    have hl : L2.length = 2 := h.length_eq.symm
    match L2, hl, h with
    | [c, d], _, h =>
      have hc : c = a ∨ c = b := by
        have := h.mem_iff.2 (List.mem_cons_self c [d])
        simpa using this
      have hd : d = a ∨ d = b := by
        have := h.mem_iff.2 (List.mem_cons_of_mem c (List.mem_cons_self d []))
        simpa using this
      have ha : a = c ∨ a = d := by
        have := h.mem_iff.1 (List.mem_cons_self a [b])
        simpa using this
      have hb : b = c ∨ b = d := by
        have := h.mem_iff.1 (List.mem_cons_of_mem a (List.mem_cons_self b []))
        simpa using this
      have key : (c = a ∧ d = b) ∨ (c = b ∧ d = a) := by
        rcases hc with rfl | rfl
        · rcases hd with rfl | rfl
          · rcases hb with rfl | rfl
            · exact Or.inl ⟨rfl, rfl⟩
            · exact Or.inl ⟨rfl, rfl⟩
          · exact Or.inl ⟨rfl, rfl⟩
        · rcases hd with rfl | rfl
          · exact Or.inr ⟨rfl, rfl⟩
          · rcases ha with rfl | rfl
            · exact Or.inl ⟨rfl, rfl⟩
            · exact Or.inl ⟨rfl, rfl⟩
      rcases key with ⟨rfl, rfl⟩ | ⟨rfl, rfl⟩
      · rfl
      · unfold multiplierSumDouble
        simp only [List.foldl_cons, List.foldl_nil, Js.lit, add_zero_roundDouble]
        exact add_double_comm _ _

theorem customerImpact_double_congr (alertName alertType : String) (L1 L2 : List String)
    (historicalData : Option HistoricalData) (h : L1.Perm L2)
    (hclean : hasNoInheritedName L1 = true)
    (hsum : multiplierSumDouble L1 = multiplierSumDouble L2) :
    Js.calculateCustomerImpact
        { alertName := alertName, alertType := alertType,
          affectedServices := some L1, historicalData := historicalData }
      = Js.calculateCustomerImpact
        { alertName := alertName, alertType := alertType,
          affectedServices := some L2, historicalData := historicalData } := by
  by_cases h1 : L1 = []
  · subst h1
    rw [List.nil_perm.1 h]
  · have h2 : L2 ≠ [] := fun h2 => h1 (by subst h2; exact List.perm_nil.1 h)
    have hclean2 : hasNoInheritedName L2 = true := by
      rw [← hasNoInheritedName_perm L1 L2 h]; exact hclean
    rw [calculateCustomerImpact_double_of_ne_nil _ _ L1 _ h1 hclean,
      calculateCustomerImpact_double_of_ne_nil _ _ L2 _ h2 hclean2]
    unfold customerImpactDouble
    rw [hsum, h.length_eq]

theorem analyzeImpact_double_scores_congr (alertName alertType : String) (L1 L2 : List String)
    (historicalData : Option HistoricalData) (h : L1.Perm L2)
    (hsum : multiplierSumDouble L1 = multiplierSumDouble L2) :
    (Js.analyzeImpact
        { alertName := alertName, alertType := alertType,
          affectedServices := some L1, historicalData := historicalData }).map
        (fun r => (r.customersAffected, r.riskLevel))
      = (Js.analyzeImpact
        { alertName := alertName, alertType := alertType,
          affectedServices := some L2, historicalData := historicalData }).map
        (fun r => (r.customersAffected, r.riskLevel)) := by
  by_cases hclean : hasNoInheritedName L1 = true
  · have hclean2 : hasNoInheritedName L2 = true := by
      rw [← hasNoInheritedName_perm L1 L2 h]; exact hclean
    rw [analyzeImpact_double_scores _ (by simpa using hclean),
      analyzeImpact_double_scores _ (by simpa using hclean2)]
    simp only [Option.getD_some]
    rw [customerImpact_double_congr alertName alertType L1 L2 historicalData h hclean hsum,
      length_identifyCriticalServices_perm L1 L2 h]
  · have hu : hasNoInheritedName L1 = false := by simpa using hclean
    have hu2 : hasNoInheritedName L2 = false := by
      rw [← hasNoInheritedName_perm L1 L2 h]; exact hu
    rw [analyzeImpact_double_eq_none _ (by simpa using hu),
      analyzeImpact_double_eq_none _ (by simpa using hu2)]

/-- C26, as stated, fails: with an average of 275 customers and 6 successful
and 4 failed deployments, `analyzeImpact` returns 5000 customers and CRITICAL for
`[payment-processing, checkout-service, logging-service, monitoring-service,
analytics-service]`, and 4999 customers and HIGH for the permutation
`[payment-processing, logging-service, analytics-service, checkout-service,
monitoring-service]`: the multipliers sum to `10.1` in the first order and to
`10.099999999999998` in the second, and `275 * 10.1 * 1.8` is a tie that
`Math.round` takes up. -/
theorem analyzeImpact_perm_differs :
    List.Perm
        ["payment-processing", "checkout-service", "logging-service", "monitoring-service",
          "analytics-service"]
        ["payment-processing", "logging-service", "analytics-service", "checkout-service",
          "monitoring-service"]
    ∧ (Js.analyzeImpact
          { alertName := "Payment Alert", alertType := "payment",
            affectedServices :=
              some ["payment-processing", "checkout-service", "logging-service",
                "monitoring-service", "analytics-service"],
            historicalData :=
              some { avgCustomersAffected := some 275, successfulDeployments := some 6,
                     failedDeployments := some 4 } }).map
          (fun r => (r.customersAffected, r.riskLevel))
        = some (Js.Number.fin 5000, "CRITICAL")
    ∧ (Js.analyzeImpact
          { alertName := "Payment Alert", alertType := "payment",
            affectedServices :=
              some ["payment-processing", "logging-service", "analytics-service",
                "checkout-service", "monitoring-service"],
            historicalData :=
              some { avgCustomersAffected := some 275, successfulDeployments := some 6,
                     failedDeployments := some 4 } }).map
          (fun r => (r.customersAffected, r.riskLevel))
        = some (Js.Number.fin 4999, "HIGH") := by
  refine ⟨by decide, by decide!, by decide!⟩

/-- C26, amended: for every context and every permutation of its
`affectedServices` list, `analyzeImpact` throws for both orders or for neither
and returns the same number of critical services; it returns the same
`customersAffected` and the same `riskLevel` whenever the multipliers, summed in
doubles from `0` in the order of each list, give the same sum. They do for every
list of at most two services, and for every list of at most `2^48` services that
holds none of `logging-service`, `monitoring-service`, `analytics-service`: the
other multipliers are multiples of one half and their sum is exact. -/
theorem analyzeImpact_perm_double :
    (∀ (alertName alertType : String) (L1 L2 : List String)
        (historicalData : Option HistoricalData), L1.Perm L2 →
      (Js.analyzeImpact
          { alertName := alertName, alertType := alertType,
            affectedServices := some L1, historicalData := historicalData }).isSome
        = (Js.analyzeImpact
          { alertName := alertName, alertType := alertType,
            affectedServices := some L2, historicalData := historicalData }).isSome
      ∧ (identifyCriticalServices L1).length = (identifyCriticalServices L2).length
      ∧ (multiplierSumDouble L1 = multiplierSumDouble L2 →
          (Js.analyzeImpact
              { alertName := alertName, alertType := alertType,
                affectedServices := some L1, historicalData := historicalData }).map
              (fun r => (r.customersAffected, r.riskLevel))
            = (Js.analyzeImpact
              { alertName := alertName, alertType := alertType,
                affectedServices := some L2, historicalData := historicalData }).map
              (fun r => (r.customersAffected, r.riskLevel)))
      ∧ (L1.length ≤ 2 →
          (Js.analyzeImpact
              { alertName := alertName, alertType := alertType,
                affectedServices := some L1, historicalData := historicalData }).map
              (fun r => (r.customersAffected, r.riskLevel))
            = (Js.analyzeImpact
              { alertName := alertName, alertType := alertType,
                affectedServices := some L2, historicalData := historicalData }).map
              (fun r => (r.customersAffected, r.riskLevel)))
      ∧ ((∀ s ∈ L1, s ∉ FRACTIONAL_MULTIPLIER_SERVICES) → L1.length ≤ 2 ^ 48 →
          (Js.analyzeImpact
              { alertName := alertName, alertType := alertType,
                affectedServices := some L1, historicalData := historicalData }).map
              (fun r => (r.customersAffected, r.riskLevel))
            = (Js.analyzeImpact
              { alertName := alertName, alertType := alertType,
                affectedServices := some L2, historicalData := historicalData }).map
              (fun r => (r.customersAffected, r.riskLevel))))
    ∧ multiplierSumDouble
        ["payment-processing", "checkout-service", "logging-service", "monitoring-service",
          "analytics-service"]
      ≠ multiplierSumDouble
        ["payment-processing", "logging-service", "analytics-service", "checkout-service",
          "monitoring-service"] := by
  refine ⟨?_, by decide!⟩
  intro alertName alertType L1 L2 historicalData h
  refine ⟨?_, length_identifyCriticalServices_perm L1 L2 h, ?_, ?_, ?_⟩
  · rw [analyzeImpact_double_isSome, analyzeImpact_double_isSome]
    exact hasNoInheritedName_perm L1 L2 h
  · exact analyzeImpact_double_scores_congr alertName alertType L1 L2 historicalData h
  · intro hlen
    exact analyzeImpact_double_scores_congr alertName alertType L1 L2 historicalData h
      (multiplierSumDouble_perm_of_length_le_two L1 L2 h hlen)
  · intro hfrac hlen
    exact analyzeImpact_double_scores_congr alertName alertType L1 L2 historicalData h
      (multiplierSumDouble_perm_of_half L1 L2 h hfrac hlen)

/-- Swapping the two services `['payment-processing', 'checkout-service']`
leaves the customer count and the tier unchanged: the list has two members, its
multipliers are multiples of one half, and the sums agree. -/
theorem analyzeImpact_perm_double_witness :
    ["payment-processing", "checkout-service"].Perm ["checkout-service", "payment-processing"]
    ∧ ["payment-processing", "checkout-service"].length ≤ 2
    ∧ (∀ s ∈ ["payment-processing", "checkout-service"], s ∉ FRACTIONAL_MULTIPLIER_SERVICES)
    ∧ multiplierSumDouble ["payment-processing", "checkout-service"]
        = multiplierSumDouble ["checkout-service", "payment-processing"]
    ∧ (Js.analyzeImpact
          { alertName := "Production Database CPU Alert", alertType := "database",
            affectedServices := some ["payment-processing", "checkout-service"],
            historicalData := mockAlertData.historicalData }).map
          (fun r => (r.customersAffected, r.riskLevel))
        = (Js.analyzeImpact
          { alertName := "Production Database CPU Alert", alertType := "database",
            affectedServices := some ["checkout-service", "payment-processing"],
            historicalData := mockAlertData.historicalData }).map
          (fun r => (r.customersAffected, r.riskLevel))
    ∧ (Js.analyzeImpact
          { alertName := "Payment Alert", alertType := "payment",
            affectedServices := some ["payment-processing", "checkout-service"],
            historicalData := none }).map
          (fun r => (r.customersAffected, r.riskLevel))
        = (Js.analyzeImpact
          { alertName := "Payment Alert", alertType := "payment",
            affectedServices := some ["checkout-service", "payment-processing"],
            historicalData := none }).map
          (fun r => (r.customersAffected, r.riskLevel))
    ∧ (Js.analyzeImpact
          { alertName := "Checkout Alert", alertType := "network",
            affectedServices := some ["payment-processing", "checkout-service"],
            historicalData := none }).map
          (fun r => (r.customersAffected, r.riskLevel))
        = (Js.analyzeImpact
          { alertName := "Checkout Alert", alertType := "network",
            affectedServices := some ["checkout-service", "payment-processing"],
            historicalData := none }).map
          (fun r => (r.customersAffected, r.riskLevel)) :=
  have hp : ["payment-processing", "checkout-service"].Perm
      ["checkout-service", "payment-processing"] := by decide
  have hf : ∀ s ∈ ["payment-processing", "checkout-service"],
      s ∉ FRACTIONAL_MULTIPLIER_SERVICES := by decide
  have hs : multiplierSumDouble ["payment-processing", "checkout-service"]
      = multiplierSumDouble ["checkout-service", "payment-processing"] := by decide!
  ⟨hp, by decide, hf, hs,
    (analyzeImpact_perm_double.1 _ _ _ _ _ hp).2.2.2.1 (by decide),
    (analyzeImpact_perm_double.1 _ _ _ _ _ hp).2.2.1 hs,
    (analyzeImpact_perm_double.1 _ _ _ _ _ hp).2.2.2.2 hf (by norm_num)⟩

/-! ### Downtime text and the number read back, in doubles -/

theorem lit_60 : Js.lit 60 = Js.Number.fin 60 := by decide!

theorem lit_300 : Js.lit 300 = Js.Number.fin 300 := by decide!

theorem lit_1800 : Js.lit 1800 = Js.Number.fin 1800 := by decide!

theorem lit_10 : Js.lit 10 = Js.Number.fin 10 := by decide!

theorem lit_3 : Js.lit 3 = Js.Number.fin 3 := by decide!

theorem lit_three_halves : Js.lit (3/2) = Js.Number.fin (3/2) := by decide!

theorem generateRecommendations_double_eq (riskLevel : String) (customersAffected : Js.Number)
    (criticalServices : List String) (estimatedDowntime : Js.Number) :
    Js.generateRecommendations riskLevel customersAffected criticalServices estimatedDowntime
      = tierItems riskLevel (if Js.gt customersAffected (Js.lit 200) = true then 201 else 0)
            criticalServices (if Js.gt estimatedDowntime (Js.lit 60) = true then 61 else 0)
          ++ summaryItems criticalServices
          ++ (if Js.gt estimatedDowntime (Js.lit 300) = true then
                ["Extended downtime expected - communicate with stakeholders"]
              else []) := by
  have hlen : criticalServices.length > 0 ↔ ¬ criticalServices = [] := by
    rw [gt_iff_lt, List.length_pos]
  unfold Js.generateRecommendations tierItems summaryItems
  simp only [push, includes_eq_true_iff, hlen, List.nil_append]
  by_cases h1 : riskLevel = "LOW"
  · simp only [if_pos h1]
    split_ifs <;> first | rfl | (exfalso; linarith)
  · simp only [if_neg h1]
    by_cases h2 : riskLevel = "MEDIUM"
    · simp only [if_pos h2]
      split_ifs <;> first | rfl | (exfalso; linarith)
    · simp only [if_neg h2]
      by_cases h3 : riskLevel = "HIGH"
      · simp only [if_pos h3]
        split_ifs <;> rfl
      · simp only [if_neg h3]
        by_cases h4 : riskLevel = "CRITICAL"
        · simp only [if_pos h4]
          split_ifs <;> rfl
        · simp only [if_neg h4]
          split_ifs <;> rfl

theorem extended_mem_generateRecommendations_double (riskLevel : String)
    (customersAffected : Js.Number) (criticalServices : List String)
    (estimatedDowntime : Js.Number) :
    "Extended downtime expected - communicate with stakeholders"
        ∈ Js.generateRecommendations riskLevel customersAffected criticalServices
            estimatedDowntime
      ↔ Js.gt estimatedDowntime (Js.Number.fin 300) = true := by
  rw [generateRecommendations_double_eq, List.mem_append, List.mem_append, lit_300]
  have h1 := extended_not_mem_tierItems riskLevel
    (if Js.gt customersAffected (Js.lit 200) = true then 201 else 0) criticalServices
    (if Js.gt estimatedDowntime (Js.lit 60) = true then 61 else 0)
  have h2 := extended_not_mem_summaryItems criticalServices
  constructor
  · rintro ((h | h) | h)
    · exact absurd h h1
    · exact absurd h h2
    · by_contra hd
      rw [if_neg hd] at h
      exact absurd h (List.not_mem_nil _)
  · intro hd
    right
    rw [if_pos hd]
    exact List.mem_singleton.2 rfl

theorem numberToString_natCast (n : ℕ) (h : n < 2 ^ 53) :
    Js.numberToString (Js.Number.fin (n : ℚ)) = toString n := by
  unfold Js.numberToString
  rcases Nat.eq_zero_or_pos n with rfl | hpos
  · simp only [Nat.cast_zero, if_true]
    rfl
  · have h0 : ¬ ((n : ℚ) = 0) := by exact_mod_cast (ne_of_gt hpos)
    have h1 : (0 : ℚ) < (n : ℚ) := by exact_mod_cast hpos
    have h2 : (n : ℚ) < 2 ^ 53 := by exact_mod_cast h
    simp only [if_neg h0, if_pos h1, Js.positiveToString, Int.floor_natCast, Int.cast_natCast,
      true_and, if_pos h2, Int.toNat_natCast]

theorem add_natCast (n k : ℕ) (h : n + k ≤ 2 ^ 53) :
    Js.add (Js.Number.fin (n : ℚ)) (Js.Number.fin (k : ℚ)) = Js.Number.fin ((n + k : ℕ) : ℚ) := by
  simp only [Js.add]
  rw [← Nat.cast_add]
  exact roundDouble_natCast (n + k) h

theorem mathRound_fin (w : ℚ) : Js.mathRound (Js.Number.fin w)
    = Js.Number.fin ((⌊w + 1/2⌋ : ℤ) : ℚ) := rfl

theorem div_fin_60 (v : ℚ) :
    Js.div (Js.Number.fin v) (Js.Number.fin 60) = Js.roundDouble (v / 60) := by
  simp [Js.div]

/-- The minutes of a non-negative number of seconds are a natural number or
`+∞`. -/
theorem minutesDouble_nonneg (v : ℚ) (hv : 0 ≤ v) :
    (∃ n : ℕ, minutesDouble (Js.Number.fin v) = Js.Number.fin (n : ℚ))
      ∨ minutesDouble (Js.Number.fin v) = Js.Number.posInf := by
  unfold minutesDouble
  rw [div_fin_60]
  rcases roundDouble_nonneg (v / 60) (by positivity) with ⟨w, hw, he⟩ | he
  · left
    rw [he, mathRound_fin]
    have hf : 0 ≤ ⌊w + 1/2⌋ := Int.floor_nonneg.2 (by linarith)
    refine ⟨⌊w + 1/2⌋.toNat, ?_⟩
    congr 1
    have := Int.toNat_of_nonneg hf
    exact_mod_cast this.symm
  · right
    rw [he]; rfl

theorem formatDowntimeDouble_eq_decimal (s : Js.Number) (n : ℕ)
    (hN : minutesDouble s = Js.Number.fin (n : ℚ)) (hn : n + 10 < 2 ^ 53) :
    formatDowntimeDouble s = formatDowntimeDecimal s n := by
  unfold formatDowntimeDouble formatDowntimeDecimal
  have h2 : Js.add (Js.Number.fin (n : ℚ)) (Js.Number.fin 2) = Js.Number.fin ((n + 2 : ℕ) : ℚ) := by
    have := add_natCast n 2 (le_of_lt (lt_of_le_of_lt (by omega) hn))
    simpa using this
  have h10 : Js.add (Js.Number.fin (n : ℚ)) (Js.Number.fin 10)
      = Js.Number.fin ((n + 10 : ℕ) : ℚ) := by
    have := add_natCast n 10 (le_of_lt hn)
    simpa using this
  simp only [hN, h2, h10, numberToString_natCast n (lt_of_le_of_lt (by omega) hn),
    numberToString_natCast (n + 2) (lt_of_le_of_lt (by omega) hn),
    numberToString_natCast (n + 10) hn]

theorem estimatedSeconds_eq_downtimeSecondsDouble (alertData : AlertData) :
    Js.estimatedSeconds alertData
      = downtimeSecondsDouble alertData.alertType (alertData.historicalData.getD {}).avgDowntime
          (alertData.affectedServices.getD []) := by
  have l1 : Js.lit 1 = Js.Number.fin 1 := by decide!
  unfold Js.estimatedSeconds downtimeSecondsDouble typeMultiplierDouble
  simp only [length_identifyCriticalServices, lit_60, lit_2, lit_3, lit_three_halves, l1,
    orElse_double_eq_match, mul_double_comm (Js.Number.fin (criticalCount _ : ℚ))]

theorem estimateDowntime_eq_formatDowntimeDouble (alertData : AlertData) :
    Js.estimateDowntime alertData = formatDowntimeDouble (Js.estimatedSeconds alertData) := by
  unfold Js.estimateDowntime formatDowntimeDouble minutesDouble
  simp only [lit_60, lit_300, lit_1800, lit_2, lit_10]

/-- C12, as stated, fails: with an average downtime of `3e18` seconds, of type
`database` and no service, the estimate is `6e18` seconds and `N = 1e17`; the
double nearest to `N + 10` is `100000000000000016`, which JavaScript prints with
its shortest digits, so the code returns
`'100000000000000000-100000000000000020 minutes'` where the stated text is
`'100000000000000000-100000000000000010 minutes'`. -/
theorem estimateDowntime_ne_formatDowntime :
    Js.estimateDowntime hugeOutageAlert = "100000000000000000-100000000000000020 minutes"
    ∧ formatDowntime (downtimeSeconds "database" (some (3 * 10 ^ 18)) [])
        = "100000000000000000-100000000000000010 minutes"
    ∧ Js.add (Js.Number.fin (10 ^ 17)) (Js.Number.fin 10)
        = Js.Number.fin 100000000000000016 := by
  refine ⟨by decide!, by decide!, by decide!⟩

/-- C12, amended: `estimateDowntime` returns `fmt(s)` with
`s = round(d * (m + 0.5*c))` computed in doubles (`d`, `m`, `c` as stated), and
with `N = round(s/60)` the text is `'< 1 minute'` below 60, `'N minutes'` below
300, `'N-(N+2) minutes'` below 1800 and `'N-(N+10) minutes'` otherwise, where
`N`, `N + 2` and `N + 10` are doubles printed as JavaScript prints numbers. For a
non-negative `s` with `N` below `2^53 - 10` they are natural numbers written as
decimal numerals. The payment fixture (4050 seconds) gives `'68-78 minutes'`. -/
theorem estimateDowntime_eq_formatDowntimeDouble_spec :
    (∀ alertData : AlertData,
      Js.estimateDowntime alertData
        = formatDowntimeDouble
            (downtimeSecondsDouble alertData.alertType
              (alertData.historicalData.getD {}).avgDowntime
              (alertData.affectedServices.getD [])))
    ∧ (∀ v : ℚ, 0 ≤ v →
        Js.lt (minutesDouble (Js.Number.fin v)) (Js.Number.fin (2 ^ 53 - 10)) = true →
        ∃ n : ℕ, minutesDouble (Js.Number.fin v) = Js.Number.fin (n : ℚ)
          ∧ formatDowntimeDouble (Js.Number.fin v)
              = formatDowntimeDecimal (Js.Number.fin v) n)
    ∧ downtimeSecondsDouble "payment" (some 900)
        ["payment-processing", "billing-service", "fraud-detection"] = Js.Number.fin 4050
    ∧ Js.estimateDowntime mockCriticalAlert = "68-78 minutes"
    ∧ Js.estimateDowntime mockLowRiskAlert = "< 1 minute"
    ∧ Js.estimateDowntime negativeBaselineAlert = "3 minutes"
    ∧ Js.estimateDowntime mockAlertData = "11-13 minutes" := by
  refine ⟨?_, ?_, by decide!, by decide!, by decide!, by decide!, by decide!⟩
  · intro alertData
    rw [estimateDowntime_eq_formatDowntimeDouble, estimatedSeconds_eq_downtimeSecondsDouble]
  · intro v hv hlt
    rcases minutesDouble_nonneg v hv with ⟨n, hn⟩ | hinf
    · refine ⟨n, hn, formatDowntimeDouble_eq_decimal _ n hn ?_⟩
      rw [hn] at hlt
      simp only [Js.lt, decide_eq_true_eq] at hlt
      have h2 : (n : ℚ) + 10 < ((2 ^ 53 : ℕ) : ℚ) := by push_cast; linarith
      exact_mod_cast h2
    · rw [hinf] at hlt
      simp [Js.lt] at hlt

/-- The decimal form of C12 at 4050 seconds. -/
theorem estimateDowntime_eq_formatDowntimeDouble_spec_witness :
    (0 : ℚ) ≤ 4050
    ∧ Js.lt (minutesDouble (Js.Number.fin 4050)) (Js.Number.fin (2 ^ 53 - 10)) = true
    ∧ ∃ n : ℕ, minutesDouble (Js.Number.fin 4050) = Js.Number.fin (n : ℚ)
        ∧ formatDowntimeDouble (Js.Number.fin 4050)
            = formatDowntimeDecimal (Js.Number.fin 4050) n :=
  ⟨by norm_num, by decide!,
    estimateDowntime_eq_formatDowntimeDouble_spec.2.1 4050 (by norm_num) (by decide!)⟩

theorem roundDouble_one : Js.roundDouble 1 = Js.Number.fin 1 := by decide!

/-- Below 60 seconds the number of minutes is at most 1. -/
theorem minutesDouble_le_one (v : ℚ) (hv : v < 60) :
    Js.gt (minutesDouble (Js.Number.fin v)) (Js.Number.fin 300) = false := by
  unfold minutesDouble
  rw [div_fin_60]
  have hm := roundDouble_mono (v / 60) 1 (by rw [div_le_iff₀ (by norm_num)]; linarith)
  rw [roundDouble_one] at hm
  cases h : Js.roundDouble (v / 60) with
  | nan => rfl
  | posInf => rw [h] at hm; simp [Js.ge] at hm
  | negInf => rfl
  | fin w =>
    rw [h] at hm
    simp only [Js.ge, decide_eq_true_eq] at hm
    rw [mathRound_fin]
    simp only [Js.gt, Js.lt, decide_eq_false_iff_not, not_lt]
    have : ⌊w + 1/2⌋ ≤ 1 := by
      have : ⌊w + 1/2⌋ < 2 := by
        rw [Int.floor_lt]; push_cast; linarith
      omega
    have h2 : ((⌊w + 1/2⌋ : ℤ) : ℚ) ≤ 1 := by exact_mod_cast this
    linarith

/-- From 60 seconds on the number of minutes is a natural number, at least 1,
or not finite. -/
theorem minutesDouble_ge_one (v : ℚ) (hv : 60 ≤ v) :
    (∃ n : ℕ, 1 ≤ n ∧ minutesDouble (Js.Number.fin v) = Js.Number.fin (n : ℚ))
      ∨ minutesDouble (Js.Number.fin v) = Js.Number.posInf := by
  unfold minutesDouble
  rw [div_fin_60]
  have hm := roundDouble_mono 1 (v / 60) (by rw [le_div_iff₀ (by norm_num)]; linarith)
  rw [roundDouble_one] at hm
  cases h : Js.roundDouble (v / 60) with
  | nan => rw [h] at hm; simp [Js.ge] at hm
  | posInf => right; rfl
  | negInf => rw [h] at hm; simp [Js.ge] at hm
  | fin w =>
    left
    rw [h] at hm
    simp only [Js.ge, decide_eq_true_eq] at hm
    rw [mathRound_fin]
    have hf : 1 ≤ ⌊w + 1/2⌋ := by
      rw [Int.le_floor]; push_cast; linarith
    refine ⟨⌊w + 1/2⌋.toNat, by omega, ?_⟩
    congr 1
    have := Int.toNat_of_nonneg (by omega : 0 ≤ ⌊w + 1/2⌋)
    exact_mod_cast this.symm

theorem parseInt_double_natRepr_append (n : ℕ) (hn : n ≤ 2 ^ 53) (rest : String)
    (hrest : ∀ c, rest.data.head? = some c → c.isDigit = false) :
    Js.parseInt (toString n ++ rest) = Js.Number.fin (n : ℚ) := by
  unfold Js.parseInt
  have h : parseInt (toString n ++ rest) = some (n : ℤ) := parseInt_natRepr_append n rest hrest
  rw [h]
  simp only [Int.cast_natCast]
  exact roundDouble_natCast n hn

theorem parseInt_double_formatDowntimeDecimal (s : Js.Number) (n : ℕ) (hn : n ≤ 2 ^ 53)
    (hs : Js.lt s (Js.Number.fin 60) = false) :
    Js.parseInt (formatDowntimeDecimal s n) = Js.Number.fin (n : ℚ) := by
  unfold formatDowntimeDecimal
  simp only [hs, Bool.false_eq_true, if_false]
  split_ifs
  · exact parseInt_double_natRepr_append n hn " minutes" minutes_head_not_digit
  · rw [String.append_assoc, String.append_assoc]
    exact parseInt_double_natRepr_append n hn _ (hyphen_head_not_digit _)
  · rw [String.append_assoc, String.append_assoc]
    exact parseInt_double_natRepr_append n hn _ (hyphen_head_not_digit _)

/-- The number read back from the downtime text, while the minutes are below
`2^53 - 10`. -/
theorem handedDowntimeDouble_of_format (s : Js.Number)
    (h : Js.lt (minutesDouble s) (Js.Number.fin (2 ^ 53 - 10)) = true) :
    Js.orDefault (Js.parseInt (formatDowntimeDouble s)) (Js.Number.fin 60)
      = handedDowntimeDouble s := by
  cases s with
  | nan => simp [minutesDouble, Js.div, Js.mathRound, Js.lt] at h
  | posInf => simp [minutesDouble, Js.div, Js.mathRound, Js.lt, Js.signedInf] at h
  | negInf => decide
  | fin v =>
    rcases lt_or_le v 60 with hv | hv
    · have hlt : Js.lt (Js.Number.fin v) (Js.Number.fin 60) = true := by
        simp [Js.lt, hv]
      unfold formatDowntimeDouble handedDowntimeDouble
      simp only [hlt, if_true]
      decide
    · have hlt : Js.lt (Js.Number.fin v) (Js.Number.fin 60) = false := by
        simp [Js.lt, hv]
      rcases minutesDouble_ge_one v hv with ⟨n, hn1, hn⟩ | hinf
      · have hn53 : n + 10 < 2 ^ 53 := by
          rw [hn] at h
          simp only [Js.lt, decide_eq_true_eq] at h
          have h2 : (n : ℚ) + 10 < ((2 ^ 53 : ℕ) : ℚ) := by push_cast; linarith
          exact_mod_cast h2
        rw [formatDowntimeDouble_eq_decimal _ n hn hn53,
          parseInt_double_formatDowntimeDecimal _ n
            (le_of_lt (lt_of_le_of_lt (Nat.le_add_right n 10) hn53)) hlt]
        unfold handedDowntimeDouble
        simp only [hlt, Bool.false_eq_true, if_false, hn]
        have hne : ¬ ((n : ℚ) = 0) := by
          have : (0 : ℚ) < (n : ℚ) := by exact_mod_cast hn1
          exact ne_of_gt this
        simp [Js.orDefault, Js.truthy, hne]
      · rw [hinf] at h
        simp [Js.lt] at h

theorem handedDowntimeDouble_gt_iff (s : Js.Number) :
    Js.gt (handedDowntimeDouble s) (Js.Number.fin 300)
      = Js.gt (minutesDouble s) (Js.Number.fin 300) := by
  unfold handedDowntimeDouble
  cases s with
  | nan => rfl
  | posInf => rfl
  | negInf => decide
  | fin v =>
    rcases lt_or_le v 60 with hv | hv
    · have hlt : Js.lt (Js.Number.fin v) (Js.Number.fin 60) = true := by
        simp [Js.lt, hv]
      simp only [hlt, if_true, minutesDouble_le_one v hv]
      decide!
    · have hlt : Js.lt (Js.Number.fin v) (Js.Number.fin 60) = false := by
        simp [Js.lt, hv]
      simp only [hlt, Bool.false_eq_true, if_false]

/-- What `analyzeImpact` returns as recommendations, for services without an
inherited name: the recommendations for the number read back from the text. -/
theorem analyzeImpact_double_extended (alertData : AlertData)
    (hclean : hasNoInheritedName (alertData.affectedServices.getD []) = true)
    (h : Js.lt (minutesDouble (Js.estimatedSeconds alertData)) (Js.Number.fin (2 ^ 53 - 10))
      = true) :
    ∃ r : Js.ImpactResult, Js.analyzeImpact alertData = some r
      ∧ ("Extended downtime expected - communicate with stakeholders" ∈ r.recommendations
          ↔ Js.gt (minutesDouble (Js.estimatedSeconds alertData)) (Js.Number.fin 300) = true) := by
  obtain ⟨riskLevel, hrec⟩ := analyzeImpact_double_recommendations alertData hclean
  obtain ⟨r, hr, hrr⟩ := Option.map_eq_some'.1 hrec
  refine ⟨r, hr, ?_⟩
  rw [hrr, extended_mem_generateRecommendations_double, lit_60,
    estimateDowntime_eq_formatDowntimeDouble, handedDowntimeDouble_of_format _ h,
    handedDowntimeDouble_gt_iff]

/-- C29, as stated, fails: with an average downtime of `3e22` seconds, of type
`database` and no service, the estimate is `6e22` seconds and
`round(s/60) = 1e21 > 300`; JavaScript prints `1e21` in exponent form, the text is
`'1e+21-1e+21 minutes'`, `parseInt` reads `1`, and the recommendations lack the
extended-downtime line. -/
theorem analyzeImpact_extended_downtime_exponent :
    Js.estimatedSeconds endlessOutageAlert = Js.Number.fin (6 * 10 ^ 22)
    ∧ minutesDouble (Js.estimatedSeconds endlessOutageAlert) = Js.Number.fin (10 ^ 21)
    ∧ Js.gt (minutesDouble (Js.estimatedSeconds endlessOutageAlert)) (Js.Number.fin 300) = true
    ∧ Js.estimateDowntime endlessOutageAlert = "1e+21-1e+21 minutes"
    ∧ Js.parseInt "1e+21-1e+21 minutes" = Js.Number.fin 1
    ∧ (Js.analyzeImpact endlessOutageAlert).map
        (fun r => decide ("Extended downtime expected - communicate with stakeholders"
          ∈ r.recommendations)) = some false := by
  refine ⟨by decide!, by decide!, by decide!, by decide!, by decide!, by decide!⟩

/-- C29, amended: in `analyzeImpact` the downtime number handed to
`generateRecommendations` is read back from the downtime text by `parseInt`, 60
standing in when nothing is read. While `N = round(estimatedSeconds/60)`,
computed in doubles, is below `2^53 - 10`, the number handed is `N`, or 60 when
the text is `'< 1 minute'`, and for every such context whose services bear no
inherited property name the recommendations hold
`'Extended downtime expected - communicate with stakeholders'` iff `N > 300`. The
payment scenario (4050 seconds, `'68-78 minutes'`, number 68) lacks the line; a
context with 20000 estimated seconds (`'333-343 minutes'`) has it. -/
theorem analyzeImpact_extended_downtime_double :
    (∀ alertData : AlertData,
      Js.lt (minutesDouble (Js.estimatedSeconds alertData)) (Js.Number.fin (2 ^ 53 - 10)) = true →
      Js.orDefault (Js.parseInt (Js.estimateDowntime alertData)) (Js.lit 60)
          = handedDowntimeDouble (Js.estimatedSeconds alertData)
      ∧ (hasNoInheritedName (alertData.affectedServices.getD []) = true →
          ∃ r : Js.ImpactResult, Js.analyzeImpact alertData = some r
            ∧ ("Extended downtime expected - communicate with stakeholders"
                  ∈ r.recommendations
                ↔ Js.gt (minutesDouble (Js.estimatedSeconds alertData)) (Js.Number.fin 300)
                    = true)))
    ∧ Js.estimatedSeconds mockCriticalAlert = Js.Number.fin 4050
    ∧ Js.estimateDowntime mockCriticalAlert = "68-78 minutes"
    ∧ Js.parseInt "68-78 minutes" = Js.Number.fin 68
    ∧ (Js.analyzeImpact mockCriticalAlert).map
        (fun r => decide ("Extended downtime expected - communicate with stakeholders"
          ∈ r.recommendations)) = some false
    ∧ Js.estimatedSeconds longOutageAlert = Js.Number.fin 20000
    ∧ Js.estimateDowntime longOutageAlert = "333-343 minutes"
    ∧ (Js.analyzeImpact longOutageAlert).map
        (fun r => decide ("Extended downtime expected - communicate with stakeholders"
          ∈ r.recommendations)) = some true := by
  refine ⟨?_, by decide!, by decide!, by decide!, by decide!, by decide!, by decide!,
    by decide!⟩
  intro alertData h
  refine ⟨?_, fun hclean => analyzeImpact_double_extended alertData hclean h⟩
  rw [lit_60, estimateDowntime_eq_formatDowntimeDouble, handedDowntimeDouble_of_format _ h]

/-- The general part of C29 at the context with 20000 estimated seconds. -/
theorem analyzeImpact_extended_downtime_double_witness :
    Js.lt (minutesDouble (Js.estimatedSeconds longOutageAlert)) (Js.Number.fin (2 ^ 53 - 10))
        = true
    ∧ hasNoInheritedName (longOutageAlert.affectedServices.getD []) = true
    ∧ ∃ r : Js.ImpactResult, Js.analyzeImpact longOutageAlert = some r
        ∧ ("Extended downtime expected - communicate with stakeholders" ∈ r.recommendations
            ↔ Js.gt (minutesDouble (Js.estimatedSeconds longOutageAlert)) (Js.Number.fin 300)
                = true) :=
  ⟨by decide!, by decide,
    (analyzeImpact_extended_downtime_double.1 longOutageAlert (by decide!)).2 (by decide)⟩

/-! ### Confidence score, in doubles -/

theorem lit_one : Js.lit 1 = Js.Number.fin 1 := by decide!

theorem volume_points_eq_bonusDouble (T X : Js.Number) :
    (if Js.ge T (Js.lit 50) = true then Js.add X (Js.lit (3/10))
      else if Js.ge T (Js.lit 20) = true then Js.add X (Js.lit (1/5))
      else if Js.ge T (Js.lit 10) = true then Js.add X (Js.lit (3/20))
      else if Js.ge T (Js.lit 5) = true then Js.add X (Js.lit (1/10))
      else Js.add X (Js.lit (1/20))) = Js.add X (volumeBonusDouble T) := by
  have c50 : Js.lit 50 = Js.Number.fin 50 := by decide!
  have c20 : Js.lit 20 = Js.Number.fin 20 := by decide!
  have c10 : Js.lit 10 = Js.Number.fin 10 := by decide!
  have c5 : Js.lit 5 = Js.Number.fin 5 := by decide!
  rw [c50, c20, c10, c5]
  unfold volumeBonusDouble
  split_ifs <;> rfl

theorem rate_points_eq_bonusDouble (rate X : Js.Number) (hX : Js.add X (Js.Number.fin 0) = X) :
    (if Js.ge rate (Js.lit (9/10)) = true then Js.add X (Js.lit (1/5))
      else if Js.ge rate (Js.lit (4/5)) = true then Js.add X (Js.lit (3/20))
      else if Js.ge rate (Js.lit (7/10)) = true then Js.add X (Js.lit (1/10))
      else if Js.ge rate (Js.lit (3/5)) = true then Js.add X (Js.lit (1/20))
      else X) = Js.add X (rateBonusDouble rate) := by
  unfold rateBonusDouble
  split_ifs <;> first | rfl | exact hX.symm

theorem quality_points_eq_adjustmentDouble (q : String) (X : Js.Number)
    (hX : Js.add X (Js.Number.fin 0) = X) :
    (if Js.toLowerCase q = "high" then Js.add X (Js.lit (1/5))
      else if Js.toLowerCase q = "medium" then Js.add X (Js.lit (1/10))
      else if Js.toLowerCase q = "low" then Js.sub X (Js.lit (1/10))
      else X) = Js.add X (qualityAdjustmentDouble q) := by
  have hneg : Js.neg (Js.lit (1/10)) = Js.lit (-(1/10)) := by decide!
  unfold qualityAdjustmentDouble
  split_ifs
  · rfl
  · rfl
  · unfold Js.sub; rw [hneg]
  · exact hX.symm

theorem max_min_eq_clamp01Double (x : Js.Number) :
    Js.mathMax (Js.lit 0) (Js.mathMin (Js.lit 1) x) = clamp01Double x := by
  rw [lit_zero, lit_one]
  cases x with
  | nan => rfl
  | posInf => rfl
  | negInf => rfl
  | fin v =>
    unfold clamp01Double
    simp only [Js.mathMin, Js.lt, decide_eq_true_eq]
    by_cases h1 : v < 1
    · simp only [if_pos h1, Js.mathMax, Js.lt, decide_eq_true_eq, if_neg (not_lt.2 (le_of_lt h1))]
      by_cases h0 : v < 0
      · simp only [if_pos h0, if_neg (not_lt.2 (le_of_lt h0))]
      · have : (0 : ℚ) < v ∨ 0 = v := lt_or_eq_of_le (not_lt.1 h0)
        rcases this with h | h
        · simp only [if_pos h, if_neg h0]
        · subst h; simp
    · have h0 : ¬ v < 0 := by linarith
      simp only [if_neg h1, Js.mathMax, Js.lt, decide_eq_true_eq, if_neg h0]
      by_cases h2 : 1 < v
      · simp [h2]
      · have : v = 1 := le_antisymm (not_lt.1 h2) (not_lt.1 h1)
        subst this; simp

theorem add_volumeBonusDouble_zero (T : Js.Number) :
    Js.add (Js.add (Js.lit (1/2)) (volumeBonusDouble T)) (Js.Number.fin 0)
      = Js.add (Js.lit (1/2)) (volumeBonusDouble T) := by
  unfold volumeBonusDouble
  split_ifs <;> decide!

theorem add_rateBonusDouble_zero (T rate : Js.Number) :
    Js.add (Js.add (Js.add (Js.lit (1/2)) (volumeBonusDouble T)) (rateBonusDouble rate))
        (Js.Number.fin 0)
      = Js.add (Js.add (Js.lit (1/2)) (volumeBonusDouble T)) (rateBonusDouble rate) := by
  unfold volumeBonusDouble rateBonusDouble
  split_ifs <;> decide!

theorem add_guardedBonusDouble_zero (T S T2 : Js.Number) :
    Js.add
        (Js.add (Js.add (Js.lit (1/2)) (volumeBonusDouble T))
          (if Js.gt T2 (Js.Number.fin 0) = true then rateBonusDouble (Js.div S T2)
            else Js.Number.fin 0))
        (Js.Number.fin 0)
      = Js.add (Js.add (Js.lit (1/2)) (volumeBonusDouble T))
          (if Js.gt T2 (Js.Number.fin 0) = true then rateBonusDouble (Js.div S T2)
            else Js.Number.fin 0) := by
  split_ifs
  · exact add_rateBonusDouble_zero T _
  · rw [add_volumeBonusDouble_zero, add_volumeBonusDouble_zero]

theorem guarded_points_eq_bonusDouble (S T X : Js.Number)
    (hX : Js.add X (Js.Number.fin 0) = X) :
    (if Js.gt T (Js.lit 0) = true then
        (if Js.ge (Js.div S T) (Js.lit (9/10)) = true then Js.add X (Js.lit (1/5))
          else if Js.ge (Js.div S T) (Js.lit (4/5)) = true then Js.add X (Js.lit (3/20))
          else if Js.ge (Js.div S T) (Js.lit (7/10)) = true then Js.add X (Js.lit (1/10))
          else if Js.ge (Js.div S T) (Js.lit (3/5)) = true then Js.add X (Js.lit (1/20))
          else X)
      else X)
      = Js.add X (if Js.gt T (Js.Number.fin 0) = true then rateBonusDouble (Js.div S T)
          else Js.Number.fin 0) := by
  rw [rate_points_eq_bonusDouble _ X hX, lit_zero]
  split_ifs
  · rfl
  · exact hX.symm

/-- The confidence score as a sum in doubles, with the guard of the code on
the success-rate bonus. -/
theorem calculateConfidenceScore_double_form (input : Js.ConfidenceInput) :
    Js.calculateConfidenceScore input
      = clamp01Double
          (Js.add
            (Js.add
              (Js.add (Js.lit (1/2))
                (volumeBonusDouble
                  (Js.add (input.successfulDeployments.getD (Js.lit 0))
                    (input.failedDeployments.getD (Js.lit 0)))))
              (if Js.gt
                  (Js.add (input.successfulDeployments.getD (Js.lit 0))
                    (input.failedDeployments.getD (Js.lit 0))) (Js.Number.fin 0) = true then
                rateBonusDouble
                  (Js.div (input.successfulDeployments.getD (Js.lit 0))
                    (Js.add (input.successfulDeployments.getD (Js.lit 0))
                      (input.failedDeployments.getD (Js.lit 0))))
              else Js.Number.fin 0))
            (qualityAdjustmentDouble (input.dataQuality.getD "medium"))) := by
  unfold Js.calculateConfidenceScore
  simp only [volume_points_eq_bonusDouble]
  rw [guarded_points_eq_bonusDouble _ _ _ (add_volumeBonusDouble_zero _),
    quality_points_eq_adjustmentDouble _ _ (add_guardedBonusDouble_zero _ _ _),
    max_min_eq_clamp01Double]

/-- The guard `totalDeployments > 0` of the code and the case `total = 0` of
the claim agree on a total of non-negative counts. -/
theorem guardedBonus_eq_successBonusDouble (s f : ℚ) (hs : 0 ≤ s) (hf : 0 ≤ f) :
    (if Js.gt (Js.add (Js.Number.fin s) (Js.Number.fin f)) (Js.Number.fin 0) = true then
        rateBonusDouble
          (Js.div (Js.Number.fin s) (Js.add (Js.Number.fin s) (Js.Number.fin f)))
      else Js.Number.fin 0)
      = successBonusDouble (Js.Number.fin s) (Js.add (Js.Number.fin s) (Js.Number.fin f)) := by
  unfold successBonusDouble
  have ht : (∃ t : ℚ, 0 ≤ t ∧ Js.add (Js.Number.fin s) (Js.Number.fin f) = Js.Number.fin t)
      ∨ Js.add (Js.Number.fin s) (Js.Number.fin f) = Js.Number.posInf :=
    roundDouble_nonneg (s + f) (by linarith)
  rcases ht with ⟨t, ht0, hte⟩ | hinf
  · simp only [hte]
    rcases eq_or_lt_of_le ht0 with h0 | hpos
    · subst h0
      have g : Js.gt (Js.Number.fin 0) (Js.Number.fin 0) = false := by decide!
      simp only [g, Bool.false_eq_true, if_false, if_true]
    · have g : Js.gt (Js.Number.fin t) (Js.Number.fin 0) = true := by
        simp [Js.gt, Js.lt, hpos]
      have ne : ¬ (Js.Number.fin t = Js.Number.fin 0) := by
        intro h; injection h with h; linarith
      simp only [g, if_true, if_neg ne]
  · simp only [hinf]
    have g : Js.gt Js.Number.posInf (Js.Number.fin 0) = true := by decide!
    have ne : ¬ (Js.Number.posInf = Js.Number.fin 0) := by intro h; cases h
    simp only [g, if_true, if_neg ne]

theorem calculateConfidenceScore_eq_double (s f : ℚ) (q : String)
    (points : Option Js.Number) (hs : 0 ≤ s) (hf : 0 ≤ f) :
    Js.calculateConfidenceScore
        { historicalDataPoints := points, successfulDeployments := some (Js.Number.fin s),
          failedDeployments := some (Js.Number.fin f), dataQuality := some q }
      = confidenceDouble s f q := by
  rw [calculateConfidenceScore_double_form]
  unfold confidenceDouble
  simp only [Option.getD_some]
  rw [guardedBonus_eq_successBonusDouble s f hs hf]

/-- Every sum `0.5 + V + S + Q` in doubles, clamped, lies between
`0.45000000000000007` and `1`. -/
theorem confidence_sum_between (T T2 rate : Js.Number) (q : String) :
    isBetween (4053239664633447 / 9007199254740992) 1
      (clamp01Double
        (Js.add
          (Js.add (Js.add (Js.lit (1/2)) (volumeBonusDouble T))
            (if Js.gt T2 (Js.Number.fin 0) = true then rateBonusDouble rate
              else Js.Number.fin 0))
          (qualityAdjustmentDouble q))) = true := by
  unfold volumeBonusDouble rateBonusDouble qualityAdjustmentDouble
  generalize Js.toLowerCase q = lq
  split_ifs <;> decide!

theorem calculateConfidenceScore_least (input : Js.ConfidenceInput) :
    isBetween (4053239664633447 / 9007199254740992) 1 (Js.calculateConfidenceScore input)
      = true := by
  rw [calculateConfidenceScore_double_form]
  exact confidence_sum_between _ _ _ _

theorem isBetween_weaken (low low2 high : ℚ) (x : Js.Number) (h : low2 ≤ low)
    (hx : isBetween low high x = true) : isBetween low2 high x = true := by
  cases x with
  | fin v =>
    simp only [isBetween, decide_eq_true_eq] at hx ⊢
    exact ⟨le_trans h hx.1, hx.2⟩
  | nan => exact hx
  | posInf => exact hx
  | negInf => exact hx

theorem calculateConfidenceScore_between (input : Js.ConfidenceInput) :
    isBetween (9/20) 1 (Js.calculateConfidenceScore input) = true :=
  isBetween_weaken _ _ _ _ (by norm_num) (calculateConfidenceScore_least input)

/-- C8, as stated, fails: for 10 successful and 10 failed deployments of
quality `'high'` (a call of the test suite) the stated value is
`0.5 + 0.20 + 0 + 0.20 = 0.9`, while the code returns `0.8999999999999999`: the
double sum `0.5 + 0.2` is `0.7`, adding `0.2` gives the double below `0.9`. -/
theorem calculateConfidenceScore_ne_stated_sum :
    Js.calculateConfidenceScore
        { historicalDataPoints := some (Js.Number.fin 20),
          successfulDeployments := some (Js.Number.fin 10),
          failedDeployments := some (Js.Number.fin 10), dataQuality := some "high" }
      = Js.Number.fin (2026619832316723 / 2251799813685248)
    ∧ confidenceStated 10 10 "high" = 9/10
    ∧ (2026619832316723 / 2251799813685248 : ℚ) < 9/10
    ∧ Js.calculateConfidenceScore
        { historicalDataPoints := some (Js.Number.fin 20),
          successfulDeployments := some (Js.Number.fin 10),
          failedDeployments := some (Js.Number.fin 10), dataQuality := some "high" }
      ≠ Js.lit (confidenceStated 10 10 "high") := by
  refine ⟨by decide!, by decide!, by norm_num, by decide!⟩

/-- C8, amended: for non-negative `successfulDeployments` and
`failedDeployments` and every `dataQuality`, `calculateConfidenceScore` returns
the clamp to `[0,1]` of `0.5 + V + S + Q` summed from the left in doubles, every
sum being rounded to the nearest double, with `total = successful + failed`
(rounded likewise), `V` 0.30/0.20/0.15/0.10/0.05 by `total`, `S` equal to `0` when
`total = 0` and otherwise 0.20/0.15/0.10/0.05/0 by the double `successful/total`,
and `Q` +0.20, +0.10, -0.10 or 0 by the lower-cased `dataQuality`. For 10 and 10
of quality `'high'` this is `0.8999999999999999`, for 15 and 5 it is 1, for 3
and 2 of quality `'low'` the double `0.55`. -/
theorem calculateConfidenceScore_eq_confidenceDouble :
    (∀ (points : Option Js.Number) (successful failed : ℚ) (dataQuality : String),
      0 ≤ successful → 0 ≤ failed →
      Js.calculateConfidenceScore
          { historicalDataPoints := points,
            successfulDeployments := some (Js.Number.fin successful),
            failedDeployments := some (Js.Number.fin failed),
            dataQuality := some dataQuality }
        = confidenceDouble successful failed dataQuality)
    ∧ confidenceDouble 10 10 "high" = Js.Number.fin (2026619832316723 / 2251799813685248)
    ∧ confidenceDouble 15 5 "high" = Js.Number.fin 1
    ∧ confidenceDouble 3 2 "low" = Js.lit (11/20)
    ∧ confidenceDouble 0 0 "none" = Js.lit (11/20) := by
  refine ⟨?_, by decide!, by decide!, by decide!, by decide!⟩
  intro points s f q hs hf
  exact calculateConfidenceScore_eq_double s f q points hs hf

/-- The formula of C8 at 18 successful and 2 failed deployments of quality
`'High'`. -/
theorem calculateConfidenceScore_eq_confidenceDouble_witness :
    (0 : ℚ) ≤ 18 ∧ (0 : ℚ) ≤ 2
    ∧ Js.calculateConfidenceScore
        { historicalDataPoints := some (Js.Number.fin 20),
          successfulDeployments := some (Js.Number.fin 18),
          failedDeployments := some (Js.Number.fin 2), dataQuality := some "High" }
      = confidenceDouble 18 2 "High" :=
  ⟨by norm_num, by norm_num,
    calculateConfidenceScore_eq_confidenceDouble.1 _ 18 2 "High" (by norm_num) (by norm_num)⟩

/-- C30, as stated, fails: on a context with no recorded deployments
`analyzeImpact` returns the confidence `0.5 + 0.05 - 0.1` summed in doubles, which
is `0.45000000000000007`; the value `0.45` is not returned (nor is the double
nearest to it). -/
theorem analyzeImpact_confidence_ne_floor :
    (Js.analyzeImpact
        { alertName := "Logging Service Warning", alertType := "logging",
          affectedServices := some ["logging-service"], historicalData := some {} }).map
        (fun r => r.confidenceScore)
      = some (Js.Number.fin (4053239664633447 / 9007199254740992))
    ∧ (9/20 : ℚ) < 4053239664633447 / 9007199254740992
    ∧ Js.lit (9/20) = Js.Number.fin (8106479329266893 / 18014398509481984)
    ∧ (8106479329266893 / 18014398509481984 : ℚ) < 4053239664633447 / 9007199254740992 := by
  refine ⟨by decide!, by norm_num, by decide!, by norm_num⟩

/-- C30, amended: for every input (also with non-negative counts and any
`dataQuality`) `calculateConfidenceScore` returns a finite number between `0.45`
and `1`, so the lower clamp at 0 never decides; and on every context whose two
deployment counts are absent or 0 and whose services bear no inherited property
name, `analyzeImpact` returns the confidence `0.45000000000000007`, the least
value the score takes, which lies above `0.45`. -/
theorem calculateConfidenceScore_floor_double :
    (∀ input : Js.ConfidenceInput,
      isBetween (9/20) 1 (Js.calculateConfidenceScore input) = true)
    ∧ (∀ alertData : AlertData,
      hasNoInheritedName (alertData.affectedServices.getD []) = true →
      ((alertData.historicalData.getD {}).successfulDeployments = none
        ∨ (alertData.historicalData.getD {}).successfulDeployments = some 0) →
      ((alertData.historicalData.getD {}).failedDeployments = none
        ∨ (alertData.historicalData.getD {}).failedDeployments = some 0) →
      (Js.analyzeImpact alertData).map (fun r => r.confidenceScore)
        = some (Js.Number.fin (4053239664633447 / 9007199254740992)))
    ∧ (∀ input : Js.ConfidenceInput,
      isBetween (4053239664633447 / 9007199254740992) 1 (Js.calculateConfidenceScore input)
        = true)
    ∧ (9/20 : ℚ) < 4053239664633447 / 9007199254740992 := by
  refine ⟨calculateConfidenceScore_between, ?_, calculateConfidenceScore_least, by norm_num⟩
  intro alertData hclean hs hf
  rw [analyzeImpact_double_confidenceScore alertData hclean]
  have h0 : Js.orElse (some (0 : ℚ)) (Js.lit 0) = Js.Number.fin 0 := by decide!
  have hn : Js.orElse none (Js.lit 0) = Js.Number.fin 0 := by decide!
  have hs0 : Js.orElse (alertData.historicalData.getD {}).successfulDeployments (Js.lit 0)
      = Js.Number.fin 0 := by
    rcases hs with h | h <;> rw [h]
    · exact hn
    · exact h0
  have hf0 : Js.orElse (alertData.historicalData.getD {}).failedDeployments (Js.lit 0)
      = Js.Number.fin 0 := by
    rcases hf with h | h <;> rw [h]
    · exact hn
    · exact h0
  rw [hs0, hf0]
  decide!

/-- The second part of C30 at the logging context with an empty record. -/
theorem calculateConfidenceScore_floor_double_witness :
    hasNoInheritedName ((some ["logging-service"] : Option (List String)).getD []) = true
    ∧ (Js.analyzeImpact
        { alertName := "Logging Service Warning", alertType := "logging",
          affectedServices := some ["logging-service"], historicalData := none }).map
        (fun r => r.confidenceScore)
      = some (Js.Number.fin (4053239664633447 / 9007199254740992)) :=
  ⟨by decide,
    calculateConfidenceScore_floor_double.2.1
      { alertName := "Logging Service Warning", alertType := "logging",
        affectedServices := some ["logging-service"], historicalData := none }
      (by decide) (Or.inl rfl) (Or.inl rfl)⟩

end ImpactAnalysis
